import Mathlib

/-!
# Aliyun assist client: plugin manager and session client

A shallow embedding of `agent/pluginmanager/acspluginmanager/acspluginmanager.go`
and `agent/session/plugin/client.go`.

Conventions of the embedding.

* A Go `error` is an `Option String` (`none` is `nil`).
* A Go `string` is a Lean `String`, one character standing for one byte.
* Everything the code asks of its surroundings (file system, HTTP, child
  processes, the terminal) is answered by an explicit environment record
  handed to the function; the calls the code makes are recorded, in order,
  in a trace of events.
* The persisted file `installed_plugins` is the list of records it holds.
-/

namespace AliyunAssist

/-! ## Data model of the plugin manager -/

/-- Go error value, `none` being `nil`. -/
abbrev GoError := Option String

/-- The dynamic value decoded by `encoding/json` into an `interface{}` field:
`nil` when the field is absent, a `string`, a `float64` (every finite
`float64` is a rational number) or a value of another dynamic type. -/
inductive JsonAny where
  | absent
  | str (s : String)
  | num (q : ℚ)
  | other
  deriving DecidableEq

/-- Modelled from the spec: the plugin type names `PLUGIN_ONCE`,
`PLUGIN_PERSIST`, `PLUGIN_UNKNOWN` are declared in package `pluginmanager`,
outside the sources at hand; the spec names the strings "Once" and
"Persist" and the third kind Unknown. -/
def PLUGIN_ONCE : String := "Once"

/-- Modelled from the spec: see `PLUGIN_ONCE`. -/
def PLUGIN_PERSIST : String := "Persist"

/-- Modelled from the spec: see `PLUGIN_ONCE`. -/
def PLUGIN_UNKNOWN : String := "Unknown"

/-- Modelled from the spec: numeric plugin type ids, `Once=1`. -/
def PLUGIN_ONCE_INT : ℚ := 1

/-- Modelled from the spec: numeric plugin type ids, `Persist=2`. -/
def PLUGIN_PERSIST_INT : ℚ := 2

/-- Modelled from the spec: the status names reported to the server are
declared in package `pluginmanager`; each is modelled by its own name. -/
def PERSIST_RUNNING : String := "PERSIST_RUNNING"

/-- Modelled from the spec: see `PERSIST_RUNNING`. -/
def PERSIST_FAIL : String := "PERSIST_FAIL"

/-- Modelled from the spec: see `PERSIST_RUNNING`. -/
def PERSIST_UNKNOWN : String := "PERSIST_UNKNOWN"

/-- Modelled from the spec: see `PERSIST_RUNNING`. -/
def REMOVED : String := "REMOVED"

/-- Modelled from the spec: `SUCCESS=0`. -/
def SUCCESS : Int := 0

/-- The constants of package `pluginmanager` whose values are not in the
sources at hand: the exit codes, the length limits of a status report and
the list `NEED_REFRESH_STATUS_API`. They are a parameter of the embedding. -/
structure Consts where
  PACKAGE_NOT_FOUND : Int
  PACKAGE_FORMART_ERR : Int
  UNZIP_ERR : Int
  UNMARSHAL_ERR : Int
  PLUGIN_FORMAT_ERR : Int
  MD5_CHECK_FAIL : Int
  DOWNLOAD_FAIL : Int
  LOAD_INSTALLEDPLUGINS_ERR : Int
  DUMP_INSTALLEDPLUGINS_ERR : Int
  GET_ONLINE_PACKAGE_INFO_ERR : Int
  EXECUTABLE_PERMISSION_ERR : Int
  REMOVE_FILE_ERR : Int
  EXECUTE_FAILED : Int
  EXECUTE_TIMEOUT : Int
  PLUGIN_NAME_MAXLEN : Nat
  PLUGIN_VERSION_MAXLEN : Nat
  NEED_REFRESH_STATUS_API : List String

/-- The spec's description of the exit-code taxonomy: `SUCCESS` is zero and
every error code is a positive integer. -/
def Consts.Positive (K : Consts) : Prop :=
  0 < K.PACKAGE_NOT_FOUND ∧ 0 < K.PACKAGE_FORMART_ERR ∧ 0 < K.UNZIP_ERR ∧
  0 < K.UNMARSHAL_ERR ∧ 0 < K.PLUGIN_FORMAT_ERR ∧ 0 < K.MD5_CHECK_FAIL ∧
  0 < K.DOWNLOAD_FAIL ∧ 0 < K.LOAD_INSTALLEDPLUGINS_ERR ∧
  0 < K.DUMP_INSTALLEDPLUGINS_ERR ∧ 0 < K.GET_ONLINE_PACKAGE_INFO_ERR ∧
  0 < K.EXECUTABLE_PERMISSION_ERR ∧ 0 < K.REMOVE_FILE_ERR ∧
  0 < K.EXECUTE_FAILED ∧ 0 < K.EXECUTE_TIMEOUT

/-- One instance of the constants, used to run the embedding on examples. -/
def sampleConsts : Consts where
  PACKAGE_NOT_FOUND := 1
  PACKAGE_FORMART_ERR := 2
  UNZIP_ERR := 3
  UNMARSHAL_ERR := 4
  PLUGIN_FORMAT_ERR := 5
  MD5_CHECK_FAIL := 6
  DOWNLOAD_FAIL := 7
  LOAD_INSTALLEDPLUGINS_ERR := 8
  DUMP_INSTALLEDPLUGINS_ERR := 9
  GET_ONLINE_PACKAGE_INFO_ERR := 10
  EXECUTABLE_PERMISSION_ERR := 11
  REMOVE_FILE_ERR := 12
  EXECUTE_FAILED := 13
  EXECUTE_TIMEOUT := 14
  PLUGIN_NAME_MAXLEN := 64
  PLUGIN_VERSION_MAXLEN := 32
  NEED_REFRESH_STATUS_API := ["--start", "--stop", "--restart"]

/-- The decoding of a dynamic `pluginType` value, the `switch` of
`pluginConfig.PluginType`. -/
def decodePluginType : JsonAny → String
  | .str pt =>
    if pt = PLUGIN_ONCE then PLUGIN_ONCE
    else if pt = PLUGIN_PERSIST then PLUGIN_PERSIST
    else PLUGIN_UNKNOWN
  | .num pt =>
    if pt = PLUGIN_ONCE_INT then PLUGIN_ONCE
    else if pt = PLUGIN_PERSIST_INT then PLUGIN_PERSIST
    else PLUGIN_UNKNOWN
  | .absent => PLUGIN_ONCE
  | .other => PLUGIN_UNKNOWN

/-- The `pluginConfig` struct read from `config.json`. -/
structure pluginConfig where
  Name : String
  Arch : String
  OsType : String
  RunPath : String
  Timeout : String
  Publisher : String
  Version : String
  PluginType_ : JsonAny
  HeartbeatInterval : Int
  pluginTypeStr : String := ""
  deriving DecidableEq

/-- The method `pluginConfig.PluginType`: the cached string when there is one,
else the decoded value, which is cached. Returns the result and the receiver
after the call. -/
def pluginConfig.PluginType (pc : pluginConfig) : String × pluginConfig :=
  if pc.pluginTypeStr = "" then
    let pc1 := { pc with pluginTypeStr := decodePluginType pc.PluginType_ }
    (pc1.pluginTypeStr, pc1)
  else (pc.pluginTypeStr, pc)

/-- Modelled from the spec: the struct `PluginInfo` is declared in package
`pluginmanager`, outside the sources at hand. Its fields are those the spec
lists for a plugin record together with `PluginID`, which the code assigns. -/
structure PluginInfo where
  PluginID : String := ""
  Name : String := ""
  Arch : String := ""
  OSType : String := ""
  Version : String := ""
  Publisher : String := ""
  Url : String := ""
  Md5 : String := ""
  RunPath : String := ""
  Timeout : String := ""
  PluginType_ : JsonAny := JsonAny.absent
  HeartbeatInterval : Int := 0
  IsRemoved : Bool := false
  deriving DecidableEq

/-- Modelled from the spec: `PluginInfo.PluginType` is declared outside the
sources at hand; a record's plugin type is one of Once, Persist, Unknown,
decoded from the stored value as for `pluginConfig`. -/
def PluginInfo.PluginType (p : PluginInfo) : String := decodePluginType p.PluginType_

/-- Modelled from the spec: `PluginInfo.SetPluginType` is declared outside the
sources at hand; it stores the given type name in the record. -/
def PluginInfo.SetPluginType (p : PluginInfo) (t : String) : PluginInfo :=
  { p with PluginType_ := JsonAny.str t }

/-- Modelled from the spec: `DeletePluginInfoByIdx` is declared in package
`pluginmanager`, outside the sources at hand; it is called to drop the record
at the given index ("delete the plugin record marked as removed"). -/
def DeletePluginInfoByIdx (pluginInfoList : List PluginInfo) (idx : Nat) : List PluginInfo :=
  pluginInfoList.eraseIdx idx

/-! ## Helpers of the Go standard library -/

/-- The value of a non-empty string of decimal digits. -/
def digitsValue : List Char → Option Nat
  | [] => none
  | cs => if cs.all Char.isDigit then some (cs.foldl (fun n c => 10 * n + (c.toNat - 48)) 0) else none

/-- Go's `strconv.Atoi` (and `ParseInt(s, 10, 0)`) on a 64-bit host: an
optional sign, then decimal digits, the value within the range of `int`;
`none` is a non-nil error. -/
def Atoi (s : String) : Option Int :=
  let cs := s.toList
  let signed : Bool × List Char :=
    match cs with
    | '+' :: r => (false, r)
    | '-' :: r => (true, r)
    | _ => (false, cs)
  match digitsValue signed.2 with
  | none => none
  | some n =>
    let v : Int := if signed.1 then -(n : Int) else (n : Int)
    if -(2 : Int) ^ 63 ≤ v ∧ v < (2 : Int) ^ 63 then some v else none

/-- Go's `strings.ToLower`, on the letters A to Z. -/
def stringsToLower (s : String) : String := String.mk (s.toList.map Char.toLower)

/-- The Go slice expression `s[:n]` on a string at least `n` long. -/
def stringsPrefixTo (s : String) (n : Nat) : String := String.mk (s.toList.take n)

/-- The parts of a path between its slashes. -/
def splitSlash : List Char → List (List Char)
  | [] => [[]]
  | c :: rest =>
    if c = '/' then [] :: splitSlash rest
    else
      match splitSlash rest with
      | [] => [[c]]
      | h :: t => (c :: h) :: t

/-- One step of `filepath.Clean` on the parts kept so far, the last one first:
an empty part and "." are dropped, ".." removes the part before it, is dropped
at the root and is kept where nothing is left to remove. -/
def cleanStep (rooted : Bool) (kept : List (List Char)) (part : List Char) :
    List (List Char) :=
  if part = [] ∨ part = ['.'] then kept
  else if part = ['.', '.'] then
    match kept with
    | [] => if rooted then [] else [part]
    | top :: below => if top = ['.', '.'] then part :: kept else below
  else part :: kept

/-- Go's `filepath.Clean` on a host whose separator is the slash. -/
def filepathClean (path : String) : String :=
  if path = "" then "."
  else
    let rooted : Bool := path.toList.head? = some '/'
    let kept := (splitSlash path.toList).foldl (cleanStep rooted) []
    let body := String.intercalate "/" (kept.reverse.map String.mk)
    if rooted then "/" ++ body else if body = "" then "." else body

/-- Go's `filepath.Join` on a host whose separator is the slash: the empty
string when every element is empty, and otherwise the non-empty elements
joined by the separator and cleaned by `filepath.Clean`. -/
def filepathJoin (elems : List String) : String :=
  if elems.filter (fun e => e ≠ "") = [] then ""
  else filepathClean (String.intercalate "/" (elems.filter (fun e => e ≠ "")))

/-! ## Events and results -/

/-- The status a process run ends with (`process.Success`, `process.Fail`,
`process.Timeout`). -/
inductive ProcStatus where
  | Success
  | Fail
  | Timeout
  deriving DecidableEq

/-- The calls by which the plugin manager runs a process, writes to disk or
talks to the server; checks that a file exists are not recorded. -/
inductive Event where
  | syncRun (cmdPath : String) (params : List String) (timeout : Int)
      (env : List String) (quiet : Bool)
  | dump (pluginInfoList : List PluginInfo)
  | httpPostStatus (name version status : String)
  | removeAll (path : String)
  | pluginListRequest (pluginName version : String) (withArch : Bool)
  | download (url filePath : String)
  | computeMd5 (file : String)
  | unzip (file dir : String)
  | copyDir (src dst : String)
  | chmod (path : String)
  deriving DecidableEq

/-- What a call of the plugin manager yields: the returned exit code and
error, the registry as persisted when the call returns, and the calls made. -/
structure Result where
  exitCode : Int
  err : GoError
  persisted : List PluginInfo
  trace : List Event
  deriving DecidableEq

/-- How the surroundings answer one call of `executePlugin`: whether the
command file exists and what `SyncRun` returns. -/
structure RunOutcome where
  cmdExists : Bool := true
  exitCode : Int := 0
  status : ProcStatus := ProcStatus.Success
  err : GoError := none
  deriving DecidableEq

/-- The method `PluginManager.executePlugin`: exit code, error and the calls made. -/
def executePlugin (K : Consts) (o : RunOutcome) (cmdPath : String) (paramList : List String)
    (timeout : Int) (env : List String) (quiet : Bool) : Int × GoError × List Event :=
  if !o.cmdExists then
    (K.PLUGIN_FORMAT_ERR, some ("Cmd file not exist: " ++ cmdPath), [])
  else
    let exitCode :=
      if o.status = ProcStatus.Fail then K.EXECUTE_FAILED
      else if o.status = ProcStatus.Timeout then K.EXECUTE_TIMEOUT
      else o.exitCode
    (exitCode, o.err, [Event.syncRun cmdPath paramList timeout env quiet])

/-- How the surroundings answer one call of `ReportPluginStatus`: the error of
`json.Marshal` and the error of the `HttpPost` call number 0, 1, 2, 3. -/
structure ReportEnv where
  marshalErr : GoError := none
  posts : Nat → GoError := fun _ => none

/-- The retry loop of `ReportPluginStatus`, `getPackageInfo` and the download
of `executePluginOnlineOrLocal`: up to `n` further calls, each recorded as the
event `ev`, while the last call failed; `posts i` is the error of call `i`. -/
def retryWhileErr (ev : Event) (posts : Nat → GoError) : Nat → Nat → GoError → GoError × List Event
  | 0, _, err => (err, [])
  | n + 1, i, err =>
    match err with
    | none => (none, [])
    | some _ =>
      let r := retryWhileErr ev posts n (i + 1) (posts (i + 1))
      (r.1, ev :: r.2)

/-- The method `PluginManager.ReportPluginStatus`: the returned error and the
posts made. -/
def ReportPluginStatus (K : Consts) (env : ReportEnv) (pluginName pluginVersion status : String) :
    GoError × List Event :=
  let pluginName :=
    if pluginName.length > K.PLUGIN_NAME_MAXLEN then stringsPrefixTo pluginName K.PLUGIN_NAME_MAXLEN
    else pluginName
  let pluginVersion :=
    if pluginVersion.length > K.PLUGIN_VERSION_MAXLEN then stringsPrefixTo pluginVersion K.PLUGIN_VERSION_MAXLEN
    else pluginVersion
  match env.marshalErr with
  | some e => (some e, [])
  | none =>
    let ev := Event.httpPostStatus pluginName pluginVersion status
    let r := retryWhileErr ev env.posts 3 0 (env.posts 0)
    (r.1, ev :: r.2)

/-! ## RemovePlugin -/

/-- The search loop of `RemovePlugin`: the first index whose record is not
removed and has the given name, with that record. -/
def findNotRemoved (pluginName : String) : List PluginInfo → Option (Nat × PluginInfo)
  | [] => none
  | p :: rest =>
    if p.IsRemoved then (findNotRemoved pluginName rest).map (fun r => (r.1 + 1, r.2))
    else if p.Name = pluginName then some (0, p)
    else (findNotRemoved pluginName rest).map (fun r => (r.1 + 1, r.2))

/-- How the surroundings answer one call of `RemovePlugin`. -/
structure RemoveEnv where
  loadErr : GoError := none
  stop : RunOutcome := {}
  uninstall : RunOutcome := {}
  dumpErr : GoError := none
  report : ReportEnv := {}
  removeAllErr : GoError := none

/-- The tail shared by both branches of `RemovePlugin`: mark the record, dump
the list, report REMOVED, delete the plugin directory. `exitCode` is the value
the named result holds when the tail starts. -/
def removeTail (K : Consts) (PLUGINDIR : String) (env : RemoveEnv) (persisted : List PluginInfo)
    (idx : Nat) (pluginInfo : PluginInfo) (exitCode : Int) (before : List Event) : Result :=
  let marked := { pluginInfo with IsRemoved := true }
  let installedPlugins := persisted.set idx marked
  match env.dumpErr with
  | some e =>
    ⟨K.DUMP_INSTALLEDPLUGINS_ERR, some e, persisted, before ++ [Event.dump installedPlugins]⟩
  | none =>
    let rep := ReportPluginStatus K env.report marked.Name marked.Version REMOVED
    let pluginDir := filepathJoin [PLUGINDIR, pluginInfo.Name]
    let trace := before ++ [Event.dump installedPlugins] ++ rep.2 ++ [Event.removeAll pluginDir]
    match env.removeAllErr with
    | some e => ⟨K.REMOVE_FILE_ERR, some e, installedPlugins, trace⟩
    | none => ⟨exitCode, none, installedPlugins, trace⟩

/-- The method `PluginManager.RemovePlugin`, run on the registry `persisted`. -/
def RemovePlugin (K : Consts) (PLUGINDIR : String) (env : RemoveEnv)
    (persisted : List PluginInfo) (pluginName : String) : Result :=
  match env.loadErr with
  | some e => ⟨K.LOAD_INSTALLEDPLUGINS_ERR, some e, persisted, []⟩
  | none =>
    match findNotRemoved pluginName persisted with
    | none =>
      ⟨K.PACKAGE_NOT_FOUND, some ("Plugin " ++ pluginName ++ " not found in installed_plugins"),
        persisted, []⟩
    | some (idx, pluginInfo) =>
      if pluginInfo.PluginType = PLUGIN_PERSIST then
        let cmdPath := filepathJoin [PLUGINDIR, pluginInfo.Name, pluginInfo.Version, pluginInfo.RunPath]
        let envPluginDir := filepathJoin [PLUGINDIR, pluginInfo.Name, pluginInfo.Version]
        let timeout : Int := (Atoi pluginInfo.Timeout).getD 60
        let env2 := ["PLUGIN_DIR=" ++ envPluginDir, "PRE_PLUGIN_DIR=" ++ ""]
        let r1 := executePlugin K env.stop cmdPath ["--stop"] timeout env2 false
        let r2 := executePlugin K env.uninstall cmdPath ["--uninstall"] timeout env2 false
        if r2.1 ≠ 0 ∨ r2.2.1 ≠ none then
          ⟨r2.1, r2.2.1, persisted, r1.2.2 ++ r2.2.2⟩
        else
          removeTail K PLUGINDIR env persisted idx pluginInfo r2.1 (r1.2.2 ++ r2.2.2)
      else
        removeTail K PLUGINDIR env persisted idx pluginInfo 0 []

/-! ## Strings and paths of executePluginFromFile -/

/-- Go's `strings.Index` on character lists: the first position at which
`sub` occurs, `none` standing for -1. -/
def stringsIndex (sub : List Char) : List Char → Option Nat
  | [] => if sub = [] then some 0 else none
  | c :: cs =>
    if sub.isPrefixOf (c :: cs) then some 0
    else (stringsIndex sub cs).map (fun i => i + 1)

/-- Go's `strings.LastIndex` on character lists: the last position at which
`sub` occurs, `none` standing for -1. -/
def stringsLastIndex (sub : List Char) : List Char → Option Nat
  | [] => if sub = [] then some 0 else none
  | c :: cs =>
    match stringsLastIndex sub cs with
    | some i => some (i + 1)
    | none => if sub.isPrefixOf (c :: cs) then some 0 else none

/-- Modelled from the spec: `osutil.OSWin`, the name of the Windows host type
("On non-Windows, chmod 744"). -/
def OSWin : String := "windows"

/-- The first lines of `executePluginFromFile` that work on the file name, on a
host whose separator is the slash: the plugin name (the file name up to its
first ".zip") and the directory the package is unzipped to; `none` when the
name is refused as not a zip file. -/
def splitPackagePath (file : String) : Option (String × String) :=
  let cs := file.toList
  let parts : List Char × String :=
    match stringsLastIndex ['/'] cs with
    | some idx => if idx > 0 then (cs.drop (idx + 1), String.mk (cs.take idx)) else (cs, ".")
    | none => (cs, ".")
  match stringsIndex ".zip".toList parts.1 with
  | none => none
  | some idx =>
    if idx ≤ 0 then none
    else
      let pluginName := String.mk (parts.1.take idx)
      some (pluginName, filepathJoin [parts.2, pluginName])

/-- The struct `PluginManager`. -/
structure PluginManager where
  Verbose : Bool := false
  Yes : Bool := true
  deriving DecidableEq

/-- The function `needReportStatus`. -/
def needReportStatus (K : Consts) (paramsList : List String) : Bool :=
  paramsList.any (fun p => K.NEED_REFRESH_STATUS_API.any (fun pp => p = pp))

/-- How the surroundings answer one call of `CheckAndReportPlugin`. -/
structure CheckEnv where
  run : RunOutcome := {}
  report : ReportEnv := {}

/-- The method `PluginManager.CheckAndReportPlugin`: status, error, calls made. -/
def CheckAndReportPlugin (K : Consts) (env : CheckEnv) (pluginName pluginVersion cmdPath : String)
    (timeout : Int) (penv : List String) : String × GoError × List Event :=
  let r := executePlugin K env.run cmdPath ["--status"] timeout penv true
  match r.2.1 with
  | some e => (PERSIST_UNKNOWN, some e, r.2.2)
  | none =>
    let status := if r.1 ≠ 0 then PERSIST_FAIL else PERSIST_RUNNING
    let rep := ReportPluginStatus K env.report pluginName pluginVersion status
    (status, rep.1, r.2.2 ++ rep.2)

/-- The run of the plugin that ends both `executePluginFromFile` and
`executePluginOnlineOrLocal`: `executePlugin`, then the status check when the
plugin is of type Persist and a parameter asks for it. Returns what
`executePlugin` returned and all calls made. -/
def runAndCheck (K : Consts) (run : RunOutcome) (check : CheckEnv) (pluginType pluginName
    pluginVersion cmdPath : String) (paramList : List String) (timeout : Int)
    (penv : List String) : Int × GoError × List Event :=
  let r := executePlugin K run cmdPath paramList timeout penv false
  if pluginType = PLUGIN_PERSIST ∧ needReportStatus K paramList = true then
    let c := CheckAndReportPlugin K check pluginName pluginVersion cmdPath timeout penv
    (r.1, r.2.1, r.2.2 ++ c.2.2)
  else r

/-! ## executePluginFromFile -/

/-- The search loop of `executePluginFromFile` and of the registry update of
`executePluginOnlineOrLocal`: the first index whose record has the given name,
removed or not, with that record. -/
def findByName (name : String) : List PluginInfo → Option (Nat × PluginInfo)
  | [] => none
  | p :: rest =>
    if p.Name = name then some (0, p)
    else (findByName name rest).map (fun r => (r.1 + 1, r.2))

/-- The lookup of `executePluginFromFile`: the list and the record found, a
record marked as removed being deleted from the list and counted as not found. -/
def lookupInstalled (name : String) (installedPlugins : List PluginInfo) :
    List PluginInfo × Option (Nat × PluginInfo) :=
  match findByName name installedPlugins with
  | none => (installedPlugins, none)
  | some (idx, p) =>
    if p.IsRemoved then (DeletePluginInfoByIdx installedPlugins idx, none)
    else (installedPlugins, some (idx, p))

/-- The record `executePluginFromFile` writes: the found record, or a fresh
one with timeout "60", its fields overwritten from the config; with the
timeout in seconds the plugin is then run with. -/
def recordFromConfig (config : pluginConfig) (found : Option (Nat × PluginInfo)) (md5Str : String)
    (timeout : Int) : PluginInfo × Int :=
  let plugin : PluginInfo := match found with
    | some (_, p) => p
    | none => { Timeout := "60" }
  let cfgTimeout : String × Int := match Atoi config.Timeout with
    | none => (plugin.Timeout, timeout)
    | some t => (config.Timeout, t)
  let plugin : PluginInfo :=
    { plugin with
      Name := config.Name, Arch := config.Arch, OSType := config.OsType,
      RunPath := config.RunPath, Timeout := cfgTimeout.1, Publisher := config.Publisher,
      Version := config.Version }
  let plugin := plugin.SetPluginType config.PluginType.1
  let plugin : PluginInfo :=
    { plugin with
      Url := "local",
      HeartbeatInterval := if config.HeartbeatInterval ≤ 0 then 60 else config.HeartbeatInterval,
      Md5 := md5Str }
  (plugin, cfgTimeout.2)

/-- The registry update of `executePluginFromFile`: append a new record, whose
id is made from its name and version, or overwrite the record at the index. -/
def storeFromFile (installedPlugins : List PluginInfo) (found : Option (Nat × PluginInfo))
    (plugin : PluginInfo) : List PluginInfo × PluginInfo :=
  match found with
  | none =>
    let plugin := { plugin with PluginID := "local_" ++ plugin.Name ++ "_" ++ plugin.Version }
    (installedPlugins ++ [plugin], plugin)
  | some (idx, _) => (installedPlugins.set idx plugin, plugin)

/-- How the surroundings answer one call of `executePluginFromFile`.
`promptAnswer` is the first answer "y" (`some true`) or "n" (`some false`) the
user types at the prompt, `none` when no such answer ever comes. -/
structure FromFileEnv where
  localArch : String := "amd64"
  osType : String := "linux"
  fileExists : Bool := true
  unzipErr : GoError := none
  configTop : Bool := true
  configNested : Bool := false
  config : Except String pluginConfig
  loadErr : GoError := none
  promptAnswer : Option Bool := some true
  md5 : Except String String := Except.ok "d41d8cd98f00b204e9800998ecf8427e"
  cmdExists : Bool := true
  chmodErr : GoError := none
  dumpErr : GoError := none
  run : RunOutcome := {}
  check : CheckEnv := {}

/-- The part of `executePluginFromFile` from the md5 of the package to the end. -/
def installFromFile (K : Consts) (PLUGINDIR : String) (env : FromFileEnv)
    (persisted installedPlugins : List PluginInfo) (found : Option (Nat × PluginInfo))
    (config : pluginConfig) (file unzipdir dirName envPrePluginDir : String)
    (paramList : List String) (timeout : Int) (before : List Event) : Result :=
  match env.md5 with
  | Except.error e => ⟨K.MD5_CHECK_FAIL, some e, persisted, before ++ [Event.computeMd5 file]⟩
  | Except.ok md5Str =>
    let rec0 := recordFromConfig config found md5Str timeout
    let plugin := rec0.1
    let timeout := rec0.2
    let pluginPath := filepathJoin [PLUGINDIR, plugin.Name, plugin.Version]
    let cmdPath := filepathJoin [pluginPath, config.RunPath]
    let tr1 := before ++ [Event.computeMd5 file, Event.copyDir dirName pluginPath]
    if !env.cmdExists then
      ⟨K.PLUGIN_FORMAT_ERR, some ("Cmd file not exist: " ++ cmdPath), persisted, tr1⟩
    else
      let tr2 := if env.osType ≠ OSWin then tr1 ++ [Event.chmod cmdPath] else tr1
      if env.osType ≠ OSWin ∧ env.chmodErr ≠ none then
        ⟨K.EXECUTABLE_PERMISSION_ERR, env.chmodErr, persisted, tr2⟩
      else
        let stored := storeFromFile installedPlugins found plugin
        let tr3 := tr2 ++ [Event.dump stored.1]
        match env.dumpErr with
        | some e => ⟨K.DUMP_INSTALLEDPLUGINS_ERR, some e, persisted, tr3⟩
        | none =>
          let penv := ["PLUGIN_DIR=" ++ pluginPath, "PRE_PLUGIN_DIR=" ++ envPrePluginDir]
          let r := runAndCheck K env.run env.check stored.2.PluginType stored.2.Name
            stored.2.Version cmdPath paramList timeout penv
          ⟨r.1, r.2.1, stored.1, tr3 ++ [Event.removeAll unzipdir] ++ r.2.2⟩

/-- The method `PluginManager.executePluginFromFile`, run on the registry
`persisted`; `cmp` is `versionutil.CompareVersion`. The value is `none` when
the call never returns, the prompt being asked again for ever. -/
def executePluginFromFile (K : Consts) (cmp : String → String → Int) (PLUGINDIR : String)
    (pm : PluginManager) (env : FromFileEnv) (persisted : List PluginInfo) (file : String)
    (paramList : List String) (timeout : Int) : Option Result :=
  if !env.fileExists then
    some ⟨K.PACKAGE_NOT_FOUND, some ("File not exist: " ++ file), persisted, []⟩
  else
    match splitPackagePath file with
    | none =>
      some ⟨K.PACKAGE_FORMART_ERR, some ("Package file not a zip file: " ++ file), persisted, []⟩
    | some (pluginName, unzipdir) =>
      let tr0 := [Event.unzip file unzipdir]
      match env.unzipErr with
      | some e => some ⟨K.UNZIP_ERR, some e, persisted, tr0⟩
      | none =>
        if !env.configTop ∧ !env.configNested then
          some ⟨K.PLUGIN_FORMAT_ERR, none, persisted, tr0⟩
        else
          let dirName := if env.configTop then unzipdir else filepathJoin [unzipdir, pluginName]
          match env.config with
          | Except.error e => some ⟨K.UNMARSHAL_ERR, some e, persisted, tr0⟩
          | Except.ok config =>
            if config.OsType ≠ "" ∧ stringsToLower config.OsType ≠ env.osType then
              some ⟨K.PLUGIN_FORMAT_ERR, some "Plugin ostype not suit for this system",
                persisted, tr0⟩
            else if config.Arch ≠ "" ∧ stringsToLower config.Arch ≠ "all" ∧
                stringsToLower config.Arch ≠ env.localArch then
              some ⟨K.PLUGIN_FORMAT_ERR, some "Plugin arch not suit for this system",
                persisted, tr0⟩
            else
              match env.loadErr with
              | some e => some ⟨K.LOAD_INSTALLEDPLUGINS_ERR, some e, persisted, tr0⟩
              | none =>
                let looked := lookupInstalled config.Name persisted
                let envPrePluginDir := match looked.2 with
                  | some (_, p) => filepathJoin [PLUGINDIR, p.Name, p.Version]
                  | none => ""
                let asked : Bool := match looked.2 with
                  | some (_, p) => decide (cmp config.Version p.Version ≤ 0) && !pm.Yes
                  | none => false
                if asked ∧ env.promptAnswer = none then none
                else if asked ∧ env.promptAnswer = some false then
                  some ⟨SUCCESS, none, persisted, tr0⟩
                else
                  some (installFromFile K PLUGINDIR env persisted looked.1 looked.2 config file
                    unzipdir dirName envPrePluginDir paramList timeout tr0)

/-! ## executePluginOnlineOrLocal -/

/-- How the surroundings answer one call of `executePluginOnlineOrLocal`:
`listPost i` is the error of the `HttpPost` number `i` to `/plugin/list`,
`listBody` what the body of the answer unmarshals to, `download i` the error
of the `HttpDownlod` number `i`; `loadErr` answers the load of
`getLocalPluginInfo` and `loadErr2` the load before the registry update. -/
structure OnlineEnv where
  localArch : String := "amd64"
  osType : String := "linux"
  loadErr : GoError := none
  listPost : Nat → GoError := fun _ => none
  listBody : Except String (List PluginInfo) := Except.ok []
  download : Nat → GoError := fun _ => none
  md5 : Except String String := Except.ok ""
  unzipErr : GoError := none
  configExists : Bool := true
  config : Except String pluginConfig := Except.error "no config"
  cmdExists : Bool := true
  chmodErr : GoError := none
  loadErr2 : GoError := none
  dumpErr : GoError := none
  run : RunOutcome := {}
  check : CheckEnv := {}

/-- The function `getLocalPluginInfo`: the first record of the registry with
the given name that is not removed and, when a version is asked for, has it. -/
def getLocalPluginInfo (loadErr : GoError) (persisted : List PluginInfo)
    (packageName pluginVersion : String) : Except String (Option PluginInfo) :=
  match loadErr with
  | some e => Except.error e
  | none =>
    Except.ok (persisted.find? (fun plugin =>
      plugin.Name = packageName ∧ plugin.IsRemoved = false ∧
        (pluginVersion = "" ∨ pluginVersion = plugin.Version)))

/-- The function `getPackageInfo`: one post to `/plugin/list`, up to two more
while the last one failed, then the unmarshalling of the answer. -/
def getPackageInfo (env : OnlineEnv) (pluginName version : String) (withArch : Bool) :
    Except String (List PluginInfo) × List Event :=
  let ev := Event.pluginListRequest pluginName version withArch
  let r := retryWhileErr ev env.listPost 2 0 (env.listPost 0)
  match r.1 with
  | some e => (Except.error e, ev :: r.2)
  | none => (env.listBody, ev :: r.2)

/-- The selection loop of `getOnlinePluginInfo`: the last record of the list
with the given name whose lower-cased arch is empty, "all" or the local arch,
and the lower-cased archs of the other records with that name. -/
def selectOnline (packageName localArch : String) (pluginList : List PluginInfo) :
    Option PluginInfo × List String :=
  pluginList.foldl (fun acc plugin =>
    if plugin.Name = packageName then
      let arch := stringsToLower plugin.Arch
      if arch = "" ∨ arch = "all" ∨ localArch = arch then (some plugin, acc.2)
      else (acc.1, acc.2 ++ [arch])
    else acc) (none, [])

/-- The function `getOnlinePluginInfo`. -/
def getOnlinePluginInfo (env : OnlineEnv) (packageName version : String) :
    Except String (Option PluginInfo × List String) × List Event :=
  let r := getPackageInfo env packageName version false
  match r.1 with
  | Except.error e => (Except.error e, r.2)
  | Except.ok pluginList => (Except.ok (selectOnline packageName env.localArch pluginList), r.2)

/-- The branch of `executePluginOnlineOrLocal` that runs the installed local
package, the same with and without `--local`. -/
def runLocalPackage (K : Consts) (PLUGINDIR : String) (env : OnlineEnv)
    (persisted : List PluginInfo) (localInfo : PluginInfo) (paramList : List String)
    (timeout : Int) (before : List Event) : Result :=
  let timeout := (Atoi localInfo.Timeout).getD timeout
  let pluginPath := filepathJoin [PLUGINDIR, localInfo.Name, localInfo.Version]
  let cmdPath := filepathJoin [pluginPath, localInfo.RunPath]
  let penv := ["PLUGIN_DIR=" ++ pluginPath, "PRE_PLUGIN_DIR=" ++ ""]
  let r := runAndCheck K env.run env.check localInfo.PluginType localInfo.Name
    localInfo.Version cmdPath paramList timeout penv
  ⟨r.1, r.2.1, persisted, before ++ r.2.2⟩

/-- The registry update that ends the download branch of
`executePluginOnlineOrLocal`, from the second load of the registry on. -/
def storeOnline (K : Consts) (PLUGINDIR : String) (env : OnlineEnv) (persisted : List PluginInfo)
    (onlineInfo : PluginInfo) (config : pluginConfig) (cmdPath : String)
    (paramList : List String) (timeout : Int) (before : List Event) : Result :=
  match env.loadErr2 with
  | some e => ⟨K.LOAD_INSTALLEDPLUGINS_ERR, some e, persisted, before⟩
  | none =>
    let looked := lookupInstalled onlineInfo.Name persisted
    let upd : List PluginInfo × String := match looked.2 with
      | none => (looked.1 ++ [onlineInfo], "")
      | some (idx, plugininfo) =>
        (looked.1.set idx onlineInfo, filepathJoin [PLUGINDIR, plugininfo.Name, plugininfo.Version])
    let tr := before ++ [Event.dump upd.1]
    match env.dumpErr with
    | some e => ⟨K.DUMP_INSTALLEDPLUGINS_ERR, some e, persisted, tr⟩
    | none =>
      let envPluginDir := filepathJoin [PLUGINDIR, config.Name, config.Version]
      let penv := ["PLUGIN_DIR=" ++ envPluginDir, "PRE_PLUGIN_DIR=" ++ upd.2]
      let r := runAndCheck K env.run env.check config.PluginType.1 config.Name config.Version
        cmdPath paramList timeout penv
      ⟨r.1, r.2.1, upd.1, tr ++ r.2.2⟩

/-- What a stretch of a method comes to: an early return with its result, or
the values the method goes on with. -/
abbrev Stage (α : Type) := Except Result α

/-- The first stretch of the download branch of `executePluginOnlineOrLocal`:
pull the package (one download, up to two more while the last one failed),
check its md5, unzip it, delete the archive, read its config. It goes on with
the config and the calls made so far. -/
def pullPackage (K : Consts) (dir : String) (env : OnlineEnv) (persisted : List PluginInfo)
    (onlineInfo : PluginInfo) (pluginName : String) (before : List Event) :
    Stage (pluginConfig × List Event) :=
  let filePath := filepathJoin [dir, pluginName ++ ".zip"]
  let evd := Event.download onlineInfo.Url filePath
  let d := retryWhileErr evd env.download 2 0 (env.download 0)
  let tr1 := before ++ evd :: d.2
  match d.1 with
  | some e => Except.error ⟨K.DOWNLOAD_FAIL, some e, persisted, tr1⟩
  | none =>
    let tr2 := tr1 ++ [Event.computeMd5 filePath]
    match env.md5 with
    | Except.error e => Except.error ⟨K.MD5_CHECK_FAIL, some e, persisted, tr2⟩
    | Except.ok md5Str =>
      if stringsToLower md5Str ≠ stringsToLower onlineInfo.Md5 then
        Except.error ⟨K.MD5_CHECK_FAIL, some "Md5 not macth", persisted, tr2⟩
      else
        let unzipdir := filepathJoin [dir, onlineInfo.Name, onlineInfo.Version]
        let tr3 := tr2 ++ [Event.unzip filePath unzipdir]
        match env.unzipErr with
        | some e => Except.error ⟨K.UNZIP_ERR, some e, persisted, tr3⟩
        | none =>
          let tr4 := tr3 ++ [Event.removeAll filePath]
          if !env.configExists then Except.error ⟨K.PLUGIN_FORMAT_ERR, none, persisted, tr4⟩
          else
            match env.config with
            | Except.error e => Except.error ⟨K.UNMARSHAL_ERR, some e, persisted, tr4⟩
            | Except.ok config0 => Except.ok (config0, tr4)

/-- The second stretch of the download branch: default the heartbeat interval
of the config, compare the plugin types, take heartbeat interval and plugin
type over into the online record, then check the OS type, the arch and the
command file and make the file executable. It goes on with the online record,
the config, the timeout, the command path and the calls made so far. -/
def checkPackage (K : Consts) (dir : String) (env : OnlineEnv) (persisted : List PluginInfo)
    (onlineInfo : PluginInfo) (config0 : pluginConfig) (timeout : Int) (before : List Event) :
    Stage (PluginInfo × pluginConfig × Int × String × List Event) :=
  let config : pluginConfig :=
    if config0.HeartbeatInterval ≤ 0 then { config0 with HeartbeatInterval := 60 } else config0
  if config.PluginType.1 ≠ onlineInfo.PluginType then
    Except.error ⟨K.PLUGIN_FORMAT_ERR,
      some ("config.PluginType[" ++ config.PluginType.1 ++ "] not match to pluginType["
        ++ onlineInfo.PluginType ++ "]"), persisted, before⟩
  else
    let onlineInfo1 : PluginInfo :=
      ({ onlineInfo with HeartbeatInterval := config.HeartbeatInterval }).SetPluginType
        config.PluginType.1
    let timeout := (Atoi config.Timeout).getD timeout
    let unzipdir := filepathJoin [dir, onlineInfo.Name, onlineInfo.Version]
    let cmdPath := filepathJoin [unzipdir, config.RunPath]
    if stringsToLower onlineInfo1.OSType ≠ env.osType then
      Except.error ⟨K.PLUGIN_FORMAT_ERR, some "Plugin ostype not suit for this system",
        persisted, before⟩
    else if stringsToLower onlineInfo1.Arch ≠ "all" ∧ stringsToLower onlineInfo1.Arch ≠ env.localArch then
      Except.error ⟨K.PLUGIN_FORMAT_ERR, some "Plugin arch not suit for this system",
        persisted, before⟩
    else if !env.cmdExists then
      Except.error ⟨K.PLUGIN_FORMAT_ERR, some ("Cmd file not exist: " ++ cmdPath), persisted,
        before⟩
    else
      let tr := if env.osType ≠ OSWin then before ++ [Event.chmod cmdPath] else before
      if env.osType ≠ OSWin ∧ env.chmodErr ≠ none then
        Except.error ⟨K.EXECUTABLE_PERMISSION_ERR, env.chmodErr, persisted, tr⟩
      else Except.ok (onlineInfo1, config, timeout, cmdPath, tr)

/-- The download branch of `executePluginOnlineOrLocal`: pull the package,
check it, then update the registry and run the plugin. -/
def installOnline (K : Consts) (PLUGINDIR : String) (env : OnlineEnv) (persisted : List PluginInfo)
    (onlineInfo : PluginInfo) (pluginName : String) (paramList : List String) (timeout : Int)
    (before : List Event) : Result :=
  match pullPackage K PLUGINDIR env persisted onlineInfo pluginName before with
  | Except.error r => r
  | Except.ok (config0, tr) =>
    match checkPackage K PLUGINDIR env persisted onlineInfo config0 timeout tr with
    | Except.error r => r
    | Except.ok (onlineInfo1, config, timeout1, cmdPath, tr1) =>
      storeOnline K PLUGINDIR env persisted onlineInfo1 config cmdPath paramList timeout1 tr1

/-- The method `PluginManager.executePluginOnlineOrLocal`, run on the registry
`persisted`; `cmp` is `versionutil.CompareVersion` and `isLocal` the flag
`--local`. -/
def executePluginOnlineOrLocal (K : Consts) (cmp : String → String → Int) (PLUGINDIR : String)
    (env : OnlineEnv) (persisted : List PluginInfo) (pluginName pluginVersion : String)
    (paramList : List String) (timeout : Int) (isLocal : Bool) : Result :=
  if !isLocal then
    match getLocalPluginInfo env.loadErr persisted pluginName pluginVersion with
    | Except.error e => ⟨K.LOAD_INSTALLEDPLUGINS_ERR, some e, persisted, []⟩
    | Except.ok localInfo =>
      let q := getOnlinePluginInfo env pluginName pluginVersion
      match q.1 with
      | Except.error e => ⟨K.GET_ONLINE_PACKAGE_INFO_ERR, some e, persisted, q.2⟩
      | Except.ok (onlineInfo, _) =>
        match localInfo, onlineInfo with
        | some l, some o =>
          if cmp l.Version o.Version = 0 then
            runLocalPackage K PLUGINDIR env persisted l paramList timeout q.2
          else installOnline K PLUGINDIR env persisted o pluginName paramList timeout q.2
        | some l, none => runLocalPackage K PLUGINDIR env persisted l paramList timeout q.2
        | none, none => ⟨K.PACKAGE_NOT_FOUND, none, persisted, q.2⟩
        | none, some o => installOnline K PLUGINDIR env persisted o pluginName paramList timeout q.2
  else
    match getLocalPluginInfo env.loadErr persisted pluginName pluginVersion with
    | Except.error e => ⟨K.LOAD_INSTALLEDPLUGINS_ERR, some e, persisted, []⟩
    | Except.ok none => ⟨K.PACKAGE_NOT_FOUND, some "Could not found package", persisted, []⟩
    | Except.ok (some localInfo) =>
      runLocalPackage K PLUGINDIR env persisted localInfo paramList timeout []

/-! ## Session client: data model -/

/-- A byte. -/
abbrev Byte := Fin 256

/-- What a Go function call ends with: a normal return or a panic. -/
inductive Go (α : Type) where
  | ret (a : α)
  | panic (msg : String)
  deriving DecidableEq

/-- The state of a channel made by `make(chan bool)` on which nothing is ever
sent: open or closed. -/
inductive ChanState where
  | isOpen
  | isClosed
  deriving DecidableEq

/-- Go's builtin `close`: closing a closed channel panics. -/
def closeChan : ChanState → Go ChanState
  | ChanState.isOpen => Go.ret ChanState.isClosed
  | ChanState.isClosed => Go.panic "close of closed channel"

/-- The constant `committedSuicide`, the first `iota`. -/
def committedSuicide : Int := 0

/-- The constant `killed`, the second `iota`. -/
def killed : Int := 1

/-- The function `openPoison`: the returned code and the channel afterwards.
A panic of `close` is recovered by the deferred function, and the function
then returns the zero value of its unnamed `int` result. -/
def openPoison (poison : ChanState) : Go (Int × ChanState) :=
  match closeChan poison with
  | Go.ret p => Go.ret (committedSuicide, p)
  | Go.panic _ => Go.ret (0, poison)

/-- The function `die`: the receive from `poison` yields once the channel is
closed; `none` when the channel is open, the receive then blocking. -/
def die (poison : ChanState) : Option Int :=
  match poison with
  | ChanState.isClosed => some killed
  | ChanState.isOpen => none

/-- The message types of package `message`, which is outside the sources at
hand; `unknown` stands for every other code. -/
inductive MessageKind where
  | InputStreamDataMessage
  | OutputStreamDataMessage
  | SetSizeDataMessage
  | StatusDataChannel
  | CloseDataChannel
  | unknown (code : Nat)
  deriving DecidableEq

/-- The struct `message.Message`, with the fields the client sets. -/
structure Message where
  MessageType : MessageKind
  SchemaVersion : String
  CreatedDate : Nat
  SequenceNumber : Int
  PayloadLength : Nat
  Payload : List Byte
  deriving DecidableEq

/-- The fields of the struct `Client` that its control flow reads or writes.
`writeLocked` tells whether `WriteMutex` is held. The 64-bit counter
`StreamDataSequenceNumber` is an integer: it starts at 0 and grows by one per
frame, so it cannot leave the range of `int64` within 2^63 frames. -/
structure Client where
  Connected : Bool := false
  PortForward : Bool := false
  poison : ChanState := ChanState.isOpen
  StreamDataSequenceNumber : Int := 0
  rawmode : Bool := false
  verbosemode : Bool := false
  real_connected : Bool := false
  writeLocked : Bool := false
  deriving DecidableEq

/-- The function `NewClient`. -/
def NewClient (portForward rawmode verbosemode : Bool) : Client :=
  { Connected := false, PortForward := portForward, poison := ChanState.isOpen,
    StreamDataSequenceNumber := 0, rawmode := rawmode, verbosemode := verbosemode,
    real_connected := false, writeLocked := false }

/-! ## Session client: sending -/

/-- What `Conn.WriteMessage` does on one call. -/
inductive WriteOutcome where
  | ok
  | fail (e : String)
  | panicked (msg : String)
  deriving DecidableEq

/-- The method `Client.sendMessage`: the client afterwards, the returned error
and whether the input was written to the connection without error. The value
is `none` when the call never returns, `WriteMutex` being held. A panic of
`WriteMessage` is recovered by the deferred function: the call returns the
zero value `nil`, and the mutex, unlocked by no deferred call, stays held. -/
def sendMessage (c : Client) (input : List Byte) (w : WriteOutcome) :
    Option (Client × GoError × Bool) :=
  if input.length < 1 then some (c, some "Can't send message: Empty input.", false)
  else if c.writeLocked then none
  else
    match w with
    | WriteOutcome.ok => some (c, none, true)
    | WriteOutcome.fail e => some (c, some e, false)
    | WriteOutcome.panicked _ => some ({ c with writeLocked := true }, none, false)

/-- How the surroundings answer one send: the clock in milliseconds and what
the connection does with the write. -/
structure SendEnv where
  nowMs : Nat := 0
  write : WriteOutcome := WriteOutcome.ok
  deriving DecidableEq

/-- What a send yields: the client afterwards, the returned error and the
frame written to the connection without error, if any. -/
structure SendResult where
  client : Client
  err : GoError
  sent : Option Message
  deriving DecidableEq

/-- The frame the three send methods build. -/
def buildMessage (kind : MessageKind) (env : SendEnv) (c : Client) (inputData : List Byte) :
    Message :=
  { MessageType := kind, SchemaVersion := "1.01", CreatedDate := env.nowMs % 2 ^ 64,
    SequenceNumber := c.StreamDataSequenceNumber, PayloadLength := inputData.length % 2 ^ 32,
    Payload := inputData }

/-- The body shared by the three send methods after the frame is built:
serialize, send, count. `dropsConnected` tells whether a failed send clears
`Connected`. `serialize` is `Message.Serialize`, outside the sources at hand. -/
def sendFrame (serialize : Message → Except String (List Byte)) (dropsConnected : Bool)
    (env : SendEnv) (c : Client) (agentMessage : Message) : Option SendResult :=
  match serialize agentMessage with
  | Except.error _ => some ⟨c, some "cannot serialize StreamData message", none⟩
  | Except.ok msg =>
    match sendMessage c msg env.write with
    | none => none
    | some (c1, some e, _) =>
      some ⟨if dropsConnected then { c1 with Connected := false } else c1, some e, none⟩
    | some (c1, none, wrote) =>
      some ⟨{ c1 with StreamDataSequenceNumber := c1.StreamDataSequenceNumber + 1 }, none,
        if wrote then some agentMessage else none⟩

/-- The method `Client.SendStreamDataMessage`. -/
def SendStreamDataMessage (serialize : Message → Except String (List Byte)) (env : SendEnv)
    (c : Client) (inputData : List Byte) : Option SendResult :=
  if inputData.length = 0 then some ⟨c, none, none⟩
  else
    sendFrame serialize true env c
      (buildMessage MessageKind.InputStreamDataMessage env c inputData)

/-- The payload of a close frame, the bytes of the string "1". -/
def closePayload : List Byte := [49]

/-- The method `Client.SendCloseMessage`. -/
def SendCloseMessage (serialize : Message → Except String (List Byte)) (env : SendEnv)
    (c : Client) : Option SendResult :=
  sendFrame serialize true env c (buildMessage MessageKind.CloseDataChannel env c closePayload)

/-- The method `Client.SendResizeDataMessage`. -/
def SendResizeDataMessage (serialize : Message → Except String (List Byte)) (env : SendEnv)
    (c : Client) (inputData : List Byte) : Option SendResult :=
  if inputData.length = 0 then some ⟨c, none, none⟩
  else
    sendFrame serialize false env c (buildMessage MessageKind.SetSizeDataMessage env c inputData)

/-- One call of a send method, with the answer of the surroundings. -/
inductive SendCall where
  | stream (env : SendEnv) (inputData : List Byte)
  | resize (env : SendEnv) (inputData : List Byte)
  | close (env : SendEnv)
  deriving DecidableEq

/-- The payload a call hands over. -/
def SendCall.payload : SendCall → List Byte
  | SendCall.stream _ d => d
  | SendCall.resize _ d => d
  | SendCall.close _ => closePayload

/-- Run one call of a send method. -/
def SendCall.run (serialize : Message → Except String (List Byte)) (c : Client) :
    SendCall → Option SendResult
  | SendCall.stream env d => SendStreamDataMessage serialize env c d
  | SendCall.resize env d => SendResizeDataMessage serialize env c d
  | SendCall.close env => SendCloseMessage serialize env c

/-- Run calls of the send methods one after the other, collecting the frames
written to the connection without error; a call that never returns ends the
run, no later call being reached. -/
def runSends (serialize : Message → Except String (List Byte)) :
    Client → List SendCall → Client × List Message
  | c, [] => (c, [])
  | c, call :: rest =>
    match call.run serialize c with
    | none => (c, [])
    | some r =>
      let tail := runSends serialize r.client rest
      (tail.1, r.sent.toList ++ tail.2)

/-! ## Session client: receiving -/

/-- The function `bytesToIntU`: the big-endian value of 1, 2, 3 or 4 bytes,
and an error for every other length. -/
def bytesToIntU (b : List Byte) : Int × GoError :=
  let b := if b.length = 3 then (0 : Byte) :: b else b
  match b with
  | [x] => ((x.val : Int), none)
  | [x, y] => ((x.val * 256 + y.val : Nat), none)
  | [x, y, z, w] => ((((x.val * 256 + y.val) * 256 + z.val) * 256 + w.val : Nat), none)
  | _ => (0, some "BytesToInt bytes lenth is invaild!")

/-- The bytes of the string "session closed". -/
def sessionClosed : List Byte :=
  "session closed".toList.map (fun ch => (Fin.ofNat ch.toNat : Byte))

/-- The method `Client.ProcessStatusDataChannel`: the returned error and what
was written to `Output`. The slice `payload[0:1]` of a payload without a byte
panics (the capacity of the payload is taken to be its length). -/
def ProcessStatusDataChannel (payload : List Byte) : Go (GoError × List (List Byte)) :=
  if payload.length < 1 then Go.panic "slice bounds out of range"
  else
    let r := bytesToIntU (payload.take 1)
    if r.2 = none then
      if r.1 = 2 then Go.ret (some "Failed to connect. code 2", [payload])
      else if r.1 = 5 then
        Go.ret (some "Connection closed. code 5", [sessionClosed])
      else Go.ret (none, [])
    else Go.ret (none, [])

/-- The struct `MessageNonBlocking` of `readLoop`. -/
structure MessageNonBlocking where
  Msg : Message
  Err : GoError
  deriving DecidableEq

/-- What the `select` of `readLoop` takes in one round: a message handed over
by the reading goroutine, or the closed `poison`. -/
inductive ReadEvent where
  | received (m : MessageNonBlocking)
  | poisonSelected
  deriving DecidableEq

/-- What `readLoop` has come to: the client, what was written to `Output`, and
how the loop ended: `Go.ret (some code)` when it returned, `Go.ret none` when
it is still looping, `Go.panic` when a panic left the method. -/
structure ReadResult where
  client : Client
  output : List (List Byte)
  ended : Go (Option Int)
  deriving DecidableEq

/-- The end of `readLoop` through `return openPoison(fname, c.poison)`. -/
def readLoopSuicide (c : Client) (output : List (List Byte)) : ReadResult :=
  match openPoison c.poison with
  | Go.ret (code, p) => ⟨{ c with poison := p }, output, Go.ret (some code)⟩
  | Go.panic msg => ⟨c, output, Go.panic msg⟩

/-- The method `Client.readLoop`, run on the rounds of its `select`.
`validate` is `Message.Validate`, outside the sources at hand. A read error
has made the reading goroutine call `openPoison` before it hands the message
over. A round that takes `poison` while the channel is open does not happen
and is passed over. -/
def readLoop (validate : Message → GoError) :
    Client → List (List Byte) → List ReadEvent → ReadResult
  | c, output, [] => ⟨c, output, Go.ret none⟩
  | c, output, ReadEvent.poisonSelected :: rest =>
    match die c.poison with
    | some code => ⟨c, output, Go.ret (some code)⟩
    | none => readLoop validate c output rest
  | c, output, ReadEvent.received m :: rest =>
    if m.Err ≠ none then
      match openPoison c.poison with
      | Go.ret (_, p) => readLoopSuicide { c with poison := p } output
      | Go.panic msg => ⟨c, output, Go.panic msg⟩
    else if validate m.Msg ≠ none then readLoopSuicide c output
    else
      match m.Msg.MessageType with
      | MessageKind.OutputStreamDataMessage =>
        readLoop validate { c with real_connected := true } (output ++ [m.Msg.Payload]) rest
      | MessageKind.StatusDataChannel =>
        match ProcessStatusDataChannel m.Msg.Payload with
        | Go.panic msg => ⟨c, output, Go.panic msg⟩
        | Go.ret (some _, written) => readLoopSuicide c (output ++ written)
        | Go.ret (none, written) => readLoop validate c (output ++ written) rest
      | _ => readLoop validate c output rest

/-! ## Session client: the main loop -/

/-- How the surroundings answer one call of `Loop`: the error of `Connect`,
whether the host is darwin, and the errors of `terminal.MakeRaw`,
`console.ConsoleFromFile` and `Console.SetRaw`. -/
structure LoopEnv where
  connectErr : GoError := none
  darwin : Bool := false
  makeRawErr : GoError := none
  consoleErr : GoError := none
  setRawErr : GoError := none
  deriving DecidableEq

/-- The calls `Loop` makes to the terminal and the goroutines it starts. -/
inductive LoopEvent where
  | makeRaw
  | setRaw
  | startLoops
  | restoreTerminal
  deriving DecidableEq

/-- How a call of `Loop` ends: it returns to its caller, a deferred function
ends the process with `os.Exit`, or it waits on `poison` for ever. -/
inductive LoopEnd where
  | returned (err : GoError)
  | exited (code : Int)
  | waiting
  deriving DecidableEq

/-- The deferred function of `Loop`, run when `Loop` returns `nil`: restore the
terminal when it was set up, then end the process unless the client is a
port-forward client. -/
def loopDeferred (c : Client) (restores : Bool) (before : List LoopEvent) :
    LoopEnd × List LoopEvent :=
  let tr := if restores then before ++ [LoopEvent.restoreTerminal] else before
  if !c.PortForward then (LoopEnd.exited 1, tr) else (LoopEnd.returned none, tr)

/-- The method `Client.Loop`. `poison` is the state the channel reaches through
the three loops the method starts: the method returns once it is closed. -/
def Loop (env : LoopEnv) (c : Client) (poison : ChanState) : LoopEnd × List LoopEvent :=
  if !c.Connected ∧ env.connectErr ≠ none then (LoopEnd.returned env.connectErr, [])
  else if !c.rawmode then
    if env.darwin then
      let tr := [LoopEvent.makeRaw, LoopEvent.startLoops]
      match poison with
      | ChanState.isOpen => (LoopEnd.waiting, tr)
      | ChanState.isClosed => loopDeferred c true tr
    else if env.consoleErr ≠ none then
      (LoopEnd.returned (some "os.Stdout is not a valid terminal"), [])
    else if env.setRawErr ≠ none then
      (LoopEnd.returned (some "Error setting raw terminal"), [LoopEvent.setRaw])
    else
      let tr := [LoopEvent.setRaw, LoopEvent.startLoops]
      match poison with
      | ChanState.isOpen => (LoopEnd.waiting, tr)
      | ChanState.isClosed => loopDeferred c true tr
  else
    let tr := [LoopEvent.startLoops]
    match poison with
    | ChanState.isOpen => (LoopEnd.waiting, tr)
    | ChanState.isClosed => loopDeferred c false tr

/-! ## ShowPluginStatus -/

/-- The struct `PluginStatus`, with the fields the code sets. -/
structure PluginStatus where
  Name : String
  Version : String
  Status : String
  deriving DecidableEq

/-- How the surroundings answer one call of `ShowPluginStatus`: `runs i`
answers the `--status` run of the record at position `i` of the registry. -/
structure ShowEnv where
  loadErr : GoError := none
  runs : Nat → RunOutcome := fun _ => {}
  marshalErr : GoError := none

/-- What a call of `ShowPluginStatus` yields: the returned exit code and error,
the status list it prints, and the calls made. -/
structure ShowResult where
  exitCode : Int
  err : GoError
  statusList : List PluginStatus
  trace : List Event
  deriving DecidableEq

/-- The loop of `ShowPluginStatus` over the records from position `i` on, with
the status list and the calls made so far. The doubled separator in the join
of `PLUGINDIR + Separator` with the name is removed by `filepath.Join`. -/
def showStatusLoop (K : Consts) (PLUGINDIR : String) (runs : Nat → RunOutcome) :
    Nat → List PluginInfo → List PluginStatus → List Event → List PluginStatus × List Event
  | _, [], statusList, trace => (statusList, trace)
  | i, plugin :: rest, statusList, trace =>
    let timeout : Int := (Atoi plugin.Timeout).getD 60
    if plugin.PluginType = PLUGIN_PERSIST then
      if plugin.IsRemoved then
        showStatusLoop K PLUGINDIR runs (i + 1) rest
          (statusList ++ [⟨plugin.Name, plugin.Version, REMOVED⟩]) trace
      else
        let pluginDir := filepathJoin [PLUGINDIR, plugin.Name, plugin.Version]
        let cmdPath := filepathJoin [pluginDir, plugin.RunPath]
        let r := executePlugin K (runs i) cmdPath ["--status"] timeout
          ["PLUGIN_DIR=" ++ pluginDir] true
        let status := if r.1 = 0 ∧ r.2.1 = none then PERSIST_RUNNING else PERSIST_FAIL
        showStatusLoop K PLUGINDIR runs (i + 1) rest
          (statusList ++ [⟨plugin.Name, plugin.Version, status⟩]) (trace ++ r.2.2)
    else showStatusLoop K PLUGINDIR runs (i + 1) rest statusList trace

/-- The method `PluginManager.ShowPluginStatus`, run on the registry
`persisted`. The error it returns after the loop is the one of the
marshalling of the status list, which overwrites those of the runs. -/
def ShowPluginStatus (K : Consts) (PLUGINDIR : String) (env : ShowEnv)
    (persisted : List PluginInfo) : ShowResult :=
  match env.loadErr with
  | some e => ⟨K.LOAD_INSTALLEDPLUGINS_ERR, some e, [], []⟩
  | none =>
    let r := showStatusLoop K PLUGINDIR env.runs 0 persisted [] []
    ⟨SUCCESS, env.marshalErr, r.1, r.2⟩

/-! ## Decoding of the pluginType field -/

/-- A JSON value, as far as its type and, for strings and numbers, its content
go; a number is the `float64` it is read as. -/
inductive JsonValue where
  | null
  | bool (b : Bool)
  | number (q : ℚ)
  | string (s : String)
  | array
  | object
  deriving DecidableEq

/-- What `encoding/json` stores in an `interface{}` field from the value of the
JSON field, `none` being a field that is absent: `nil` when the field is
absent or null, the string, the `float64`, and a value of another dynamic type
for a boolean, an array or an object. -/
def unmarshalAny : Option JsonValue → JsonAny
  | none => JsonAny.absent
  | some JsonValue.null => JsonAny.absent
  | some (JsonValue.string s) => JsonAny.str s
  | some (JsonValue.number q) => JsonAny.num q
  | some (JsonValue.bool _) => JsonAny.other
  | some JsonValue.array => JsonAny.other
  | some JsonValue.object => JsonAny.other

/-- A config as unmarshalled from a `config.json` whose `pluginType` field is
`field`: the unexported cache is empty. -/
def configWithType (pc : pluginConfig) (field : Option JsonValue) : pluginConfig :=
  { pc with PluginType_ := unmarshalAny field, pluginTypeStr := "" }

/-! ## Definitions used to state the theorems -/

/-- Calls of `openPoison` on the same channel, one after the other: the codes
returned and the channel afterwards; a panic leaving a call ends the run. -/
def openPoisonMany : Nat → ChanState → Go (List Int × ChanState)
  | 0, p => Go.ret ([], p)
  | n + 1, p =>
    match openPoison p with
    | Go.panic msg => Go.panic msg
    | Go.ret (code, p1) =>
      match openPoisonMany n p1 with
      | Go.panic msg => Go.panic msg
      | Go.ret (codes, p2) => Go.ret (code :: codes, p2)

/-- A status frame with the given payload, as the peer sends it. -/
def statusFrame (payload : List Byte) : Message :=
  { MessageType := MessageKind.StatusDataChannel, SchemaVersion := "1.01", CreatedDate := 0,
    SequenceNumber := 0, PayloadLength := payload.length, Payload := payload }

/-- One call of the three methods that write the registry, with the answer of
the surroundings to it. -/
inductive Call where
  | fromFile (pm : PluginManager) (env : FromFileEnv) (file : String)
      (paramList : List String) (timeout : Int)
  | onlineOrLocal (env : OnlineEnv) (pluginName pluginVersion : String)
      (paramList : List String) (timeout : Int) (isLocal : Bool)
  | remove (env : RemoveEnv) (pluginName : String)

/-- The registry as persisted after one call; a call that never returns has
not written it. -/
def Call.persistedAfter (K : Consts) (cmp : String → String → Int) (dir : String)
    (persisted : List PluginInfo) : Call → List PluginInfo
  | Call.fromFile pm env file paramList timeout =>
    match executePluginFromFile K cmp dir pm env persisted file paramList timeout with
    | some r => r.persisted
    | none => persisted
  | Call.onlineOrLocal env pluginName pluginVersion paramList timeout isLocal =>
    (executePluginOnlineOrLocal K cmp dir env persisted pluginName pluginVersion paramList
      timeout isLocal).persisted
  | Call.remove env pluginName => (RemovePlugin K dir env persisted pluginName).persisted

/-- The registry as persisted after a sequence of calls. -/
def runCalls (K : Consts) (cmp : String → String → Int) (dir : String) :
    List PluginInfo → List Call → List PluginInfo
  | persisted, [] => persisted
  | persisted, call :: rest =>
    runCalls K cmp dir (Call.persistedAfter K cmp dir persisted call) rest

/-- The names of the records of a registry, in order. -/
def recordNames (l : List PluginInfo) : List String := l.map (fun p => p.Name)

/-- The registry update shared by `executePluginFromFile` and
`executePluginOnlineOrLocal`, as a function of the name looked up and the
record written. -/
def upsert (name : String) (q : PluginInfo) (l : List PluginInfo) : List PluginInfo :=
  match (lookupInstalled name l).2 with
  | none => (lookupInstalled name l).1 ++ [q]
  | some (idx, _) => (lookupInstalled name l).1.set idx q

/-- A record that counts for `RemovePlugin`: named as asked and not removed. -/
def isLive (pluginName : String) (q : PluginInfo) : Prop :=
  q.Name = pluginName ∧ q.IsRemoved = false

/-- The `--stop` invocation `RemovePlugin` makes for the record `p`. -/
def stopRun (K : Consts) (dir : String) (env : RemoveEnv) (p : PluginInfo) :
    Int × GoError × List Event :=
  executePlugin K env.stop (filepathJoin [dir, p.Name, p.Version, p.RunPath]) ["--stop"]
    ((Atoi p.Timeout).getD 60)
    ["PLUGIN_DIR=" ++ filepathJoin [dir, p.Name, p.Version], "PRE_PLUGIN_DIR=" ++ ""] false

/-- The `--uninstall` invocation `RemovePlugin` makes for the record `p`. -/
def uninstallRun (K : Consts) (dir : String) (env : RemoveEnv) (p : PluginInfo) :
    Int × GoError × List Event :=
  executePlugin K env.uninstall (filepathJoin [dir, p.Name, p.Version, p.RunPath]) ["--uninstall"]
    ((Atoi p.Timeout).getD 60)
    ["PLUGIN_DIR=" ++ filepathJoin [dir, p.Name, p.Version], "PRE_PLUGIN_DIR=" ++ ""] false

/-- The config of a Once package with the given name and version. -/
def sampleConfig (name version : String) : pluginConfig :=
  { Name := name, Arch := "all", OsType := "linux", RunPath := "run.sh", Timeout := "30",
    Publisher := "aliyun", Version := version, PluginType_ := JsonAny.str "Once",
    HeartbeatInterval := 0 }

/-- The registry after package A version "1" was installed on an empty one. -/
def installedA1 : List PluginInfo :=
  [{ PluginID := "local_A_1", Name := "A", Arch := "all", OSType := "linux", Version := "1",
     Publisher := "aliyun", Url := "local", Md5 := "d41d8cd98f00b204e9800998ecf8427e",
     RunPath := "run.sh", Timeout := "30", PluginType_ := JsonAny.str "Once",
     HeartbeatInterval := 60, IsRemoved := false }]

/-- The catalog record of package A version "2". -/
def onlineA2 : PluginInfo :=
  { PluginID := "p-2", Name := "A", Arch := "all", OSType := "linux", Version := "2",
    Publisher := "aliyun", Url := "https://host/A.zip", Md5 := "0cc175b9c0f1b6a831c399e269772661",
    RunPath := "run.sh", Timeout := "30", PluginType_ := JsonAny.str "Once" }

/-- A version comparison for the examples: 0 on equal strings, 1 otherwise. -/
def sampleCompare (a b : String) : Int := if a = b then 0 else 1

/-- The status entry the spec gives for the record at position `i`: none
unless the record is of type Persist; REMOVED when it is soft-deleted,
PERSIST_RUNNING when its `--status` run returns exit code 0 and no error,
PERSIST_FAIL otherwise. -/
def statusEntry (K : Consts) (dir : String) (runs : Nat → RunOutcome) (ip : Nat × PluginInfo) :
    Option PluginStatus :=
  if ip.2.PluginType = PLUGIN_PERSIST then
    some ⟨ip.2.Name, ip.2.Version,
      if ip.2.IsRemoved = true then REMOVED
      else if (executePlugin K (runs ip.1)
            (filepathJoin [filepathJoin [dir, ip.2.Name, ip.2.Version], ip.2.RunPath])
            ["--status"] ((Atoi ip.2.Timeout).getD 60)
            ["PLUGIN_DIR=" ++ filepathJoin [dir, ip.2.Name, ip.2.Version]] true).1 = 0
          ∧ (executePlugin K (runs ip.1)
            (filepathJoin [filepathJoin [dir, ip.2.Name, ip.2.Version], ip.2.RunPath])
            ["--status"] ((Atoi ip.2.Timeout).getD 60)
            ["PLUGIN_DIR=" ++ filepathJoin [dir, ip.2.Name, ip.2.Version]] true).2.1 = none
        then PERSIST_RUNNING
      else PERSIST_FAIL⟩
  else none

/-- The `--status` runs the spec gives for the record at position `i`: one for
a record of type Persist that is not soft-deleted, none otherwise. -/
def statusRuns (K : Consts) (dir : String) (runs : Nat → RunOutcome) (ip : Nat × PluginInfo) :
    List Event :=
  if ip.2.PluginType = PLUGIN_PERSIST ∧ ip.2.IsRemoved = false then
    (executePlugin K (runs ip.1)
      (filepathJoin [filepathJoin [dir, ip.2.Name, ip.2.Version], ip.2.RunPath])
      ["--status"] ((Atoi ip.2.Timeout).getD 60)
      ["PLUGIN_DIR=" ++ filepathJoin [dir, ip.2.Name, ip.2.Version]] true).2.2
  else []

/-- An event that is the run of a process or the post of a status report. -/
def isPluginCall : Event → Prop
  | Event.syncRun _ _ _ _ _ => True
  | Event.httpPostStatus _ _ _ => True
  | _ => False

/-- The two environment entries handed to a plugin. -/
def pluginEnv (pluginDir prePluginDir : String) : List String :=
  ["PLUGIN_DIR=" ++ pluginDir, "PRE_PLUGIN_DIR=" ++ prePluginDir]

/-- The directory of the record an install replaces: the one of the first
record with the name when it is not removed, the empty string otherwise. -/
def replacedDir (dir name : String) (persisted : List PluginInfo) : String :=
  match (lookupInstalled name persisted).2 with
  | some (_, old) => filepathJoin [dir, old.Name, old.Version]
  | none => ""

/-- A catalog record of package A version "2" whose arch is the given one. -/
def onlineWithArch (arch : String) : PluginInfo :=
  { PluginID := "p-2", Name := "A", Arch := arch, OSType := "linux", Version := "2",
    Publisher := "aliyun", Url := "https://host/A.zip", Md5 := "0cc175b9c0f1b6a831c399e269772661",
    RunPath := "run.sh", Timeout := "30", PluginType_ := JsonAny.str "Once" }

/-- Surroundings in which the catalog holds the given record and every step of
the download branch succeeds. -/
def onlineEnvFor (o : PluginInfo) : OnlineEnv :=
  { listBody := Except.ok [o], md5 := Except.ok "0CC175B9C0F1B6A831C399E269772661",
    config := Except.ok (sampleConfig "A" "2") }

/-- A registry with a Once record, a running Persist record, a soft-deleted
Persist record and a failing Persist record. -/
def sampleRegistry : List PluginInfo :=
  [{ Name := "once", Version := "1", PluginType_ := JsonAny.str "Once" },
   { Name := "svc", Version := "2", PluginType_ := JsonAny.str "Persist" },
   { Name := "gone", Version := "3", PluginType_ := JsonAny.num 2, IsRemoved := true },
   { Name := "bad", Version := "4", PluginType_ := JsonAny.str "Persist" }]

/-- The run that ends `executePluginFromFile` for the package with the given
config: the plugin type, name and version are those of the config, the command
and `PLUGIN_DIR` lie in the directory made of that name and version, and
`PRE_PLUGIN_DIR` is `pre`. -/
def fromFileRun (K : Consts) (dir : String) (env : FromFileEnv) (config : pluginConfig)
    (paramList : List String) (timeout : Int) (pre : String) : Int × GoError × List Event :=
  runAndCheck K env.run env.check (decodePluginType (JsonAny.str config.PluginType.1))
    config.Name config.Version
    (filepathJoin [filepathJoin [dir, config.Name, config.Version], config.RunPath])
    paramList timeout (pluginEnv (filepathJoin [dir, config.Name, config.Version]) pre)

/-- The run of the installed local package `l` by `executePluginOnlineOrLocal`. -/
def localRun (K : Consts) (dir : String) (env : OnlineEnv) (l : PluginInfo)
    (paramList : List String) (timeout : Int) : Int × GoError × List Event :=
  runAndCheck K env.run env.check l.PluginType l.Name l.Version
    (filepathJoin [filepathJoin [dir, l.Name, l.Version], l.RunPath])
    paramList ((Atoi l.Timeout).getD timeout)
    (pluginEnv (filepathJoin [dir, l.Name, l.Version]) "")

/-- The run that ends the download branch of `executePluginOnlineOrLocal` for
the catalog record `o` and the config of the package: the plugin type, name
and version are those of the config, the command lies in the directory the
package was unzipped to, the one of the catalog name and version. -/
def downloadRun (K : Consts) (dir : String) (env : OnlineEnv) (persisted : List PluginInfo)
    (o : PluginInfo) (config : pluginConfig) (paramList : List String) (timeout : Int) :
    Int × GoError × List Event :=
  runAndCheck K env.run env.check config.PluginType.1 config.Name config.Version
    (filepathJoin [filepathJoin [dir, o.Name, o.Version], config.RunPath])
    paramList ((Atoi config.Timeout).getD timeout)
    (pluginEnv (filepathJoin [dir, config.Name, config.Version])
      (replacedDir dir o.Name persisted))

/-- A trace in which no process is run and no status report is posted. -/
def noRun (tr : List Event) : Prop := ∀ e ∈ tr, ¬ isPluginCall e

/-- The follow-up check of `CheckAndReportPlugin` as it shows in a trace: a
quiet run with the single parameter `--status`. -/
def hasStatusCheck (tr : List Event) : Prop :=
  ∃ c t pe, Event.syncRun c ["--status"] t pe true ∈ tr

/-- The config of the Persist package S version "1". -/
def persistConfig : pluginConfig :=
  { sampleConfig "S" "1" with PluginType_ := JsonAny.str "Persist" }

/-- What installing the package of `persistConfig` from `/tmp/S.zip` on an
empty registry with the parameter `--start` comes to, every step succeeding. -/
def persistStartRun : Result :=
  ⟨0, none,
    [{ PluginID := "local_S_1", Name := "S", Arch := "all", OSType := "linux", Version := "1",
       Publisher := "aliyun", Url := "local", Md5 := "d41d8cd98f00b204e9800998ecf8427e",
       RunPath := "run.sh", Timeout := "30", PluginType_ := JsonAny.str "Persist",
       HeartbeatInterval := 60, IsRemoved := false }],
    [Event.unzip "/tmp/S.zip" "/tmp/S", Event.computeMd5 "/tmp/S.zip",
      Event.copyDir "/tmp/S" "/plugins/S/1", Event.chmod "/plugins/S/1/run.sh",
      Event.dump
        [{ PluginID := "local_S_1", Name := "S", Arch := "all", OSType := "linux",
           Version := "1", Publisher := "aliyun", Url := "local",
           Md5 := "d41d8cd98f00b204e9800998ecf8427e", RunPath := "run.sh", Timeout := "30",
           PluginType_ := JsonAny.str "Persist", HeartbeatInterval := 60, IsRemoved := false }],
      Event.removeAll "/tmp/S",
      Event.syncRun "/plugins/S/1/run.sh" ["--start"] 30
        ["PLUGIN_DIR=/plugins/S/1", "PRE_PLUGIN_DIR="] false,
      Event.syncRun "/plugins/S/1/run.sh" ["--status"] 30
        ["PLUGIN_DIR=/plugins/S/1", "PRE_PLUGIN_DIR="] true,
      Event.httpPostStatus "S" "1" PERSIST_RUNNING]⟩

/-- The value the claim gives for `bytesToIntU`: the sum over the positions
`i` of `b[i] * 256 ^ (len b - 1 - i)`. -/
def unsignedBigEndian (b : List Byte) : Nat :=
  ((List.range b.length).map
    (fun i => (b.getD i 0).val * 256 ^ (b.length - 1 - i))).sum

/-- A step of `executePluginFromFile` before the registry dump fails in the
given surroundings: the file is missing, its name fails the zip check, the
unzip fails, `config.json` is missing or does not parse, the OS type or the
arch of the config does not suit the host, the registry does not load, the
md5 cannot be computed, the command file is missing, or chmod fails. -/
def failsBeforeDump (env : FromFileEnv) (file : String) : Prop :=
  env.fileExists = false ∨ splitPackagePath file = none ∨ env.unzipErr ≠ none
    ∨ (env.configTop = false ∧ env.configNested = false)
    ∨ (∃ e, env.config = Except.error e)
    ∨ (∃ config, env.config = Except.ok config
        ∧ ((config.OsType ≠ "" ∧ stringsToLower config.OsType ≠ env.osType)
          ∨ (config.Arch ≠ "" ∧ stringsToLower config.Arch ≠ "all"
            ∧ stringsToLower config.Arch ≠ env.localArch)))
    ∨ env.loadErr ≠ none
    ∨ (∃ e, env.md5 = Except.error e)
    ∨ env.cmdExists = false
    ∨ (env.osType ≠ OSWin ∧ env.chmodErr ≠ none)

/-- The exit codes of the steps of `executePluginFromFile` before the
registry dump. -/
def codesBeforeDump (K : Consts) : List Int :=
  [K.PACKAGE_NOT_FOUND, K.PACKAGE_FORMART_ERR, K.UNZIP_ERR, K.PLUGIN_FORMAT_ERR,
    K.UNMARSHAL_ERR, K.LOAD_INSTALLEDPLUGINS_ERR, K.MD5_CHECK_FAIL,
    K.EXECUTABLE_PERMISSION_ERR]

/-- A trace without a registry dump. -/
def noDump (tr : List Event) : Prop := ∀ l, Event.dump l ∉ tr

/-! ## syncRunKillGroup -/

/-- What `ProcessCmd.SyncRun` and `ProcessCmd.Pid`, of package `process`
outside the sources at hand, answer in one call of `syncRunKillGroup`:
the exit code, the status code, the error with its message, and the pid. -/
structure SyncRunOutcome where
  exitCode : Int := 0
  status : Int := 0
  err : GoError := none
  pid : Int := 0
  deriving DecidableEq

/-- The calls `syncRunKillGroup` makes: the run of the command and the
system call `kill`. -/
inductive SysCall where
  | syncRun (workingDir commandName : String) (commandArguments : List String) (timeOut : Int)
  | kill (pid : Int) (sig : Nat)
  deriving DecidableEq

/-- The signal number of `syscall.SIGKILL`. -/
def SIGKILL : Nat := 9

/-- The function `syncRunKillGroup`: the returned triple and the calls made.
The writers handed over to `SyncRun` are left out. -/
def syncRunKillGroup (o : SyncRunOutcome) (workingDir commandName : String)
    (commandArguments : List String) (timeOut : Int) : (Int × Int × GoError) × List SysCall :=
  let calls := [SysCall.syncRun workingDir commandName commandArguments timeOut]
  match o.err with
  | some msg =>
    if msg = "timeout" then
      ((o.exitCode, o.status, o.err), calls ++ [SysCall.kill (-o.pid) SIGKILL])
    else ((o.exitCode, o.status, o.err), calls)
  | none => ((o.exitCode, o.status, o.err), calls)

/-! ## Task engine: the fetching gate -/

/-- Modelled from the spec: the type `FetchReason` is declared outside the
sources at hand, whose tests only pass its zero value; it is taken to be a
string type, the reasons being those the spec names. -/
abbrev FetchReason := String

/-- Modelled from the spec: the reason of a fetch started by a kick. -/
def FetchOnKick : FetchReason := "Kick"

/-- Modelled from the spec: the reason of a routine fetch. -/
def FetchRoutine : FetchReason := "Routine"

/-- Modelled from the spec: the process-wide state `Fetch` reads, declared
outside the sources at hand: the gate `isEnabledFetchingTask`, off when the
process starts, and whether `FetchingTaskLock` is held by someone else. -/
structure FetchState where
  enabled : Bool := false
  locked : Bool := false
  deriving DecidableEq

/-- Modelled from the spec: the function `isEnabledFetchingTask`, declared
outside the sources at hand, reads the gate. -/
def isEnabledFetchingTask (s : FetchState) : Bool := s.enabled

/-- Modelled from the spec: the function `EnableFetchingTask`, declared outside
the sources at hand, sets the gate. -/
def EnableFetchingTask (s : FetchState) : FetchState := { s with enabled := true }

/-- A call of `fetchTasks`, the only way `Fetch` reaches the server. -/
structure FetchCall where
  reason : FetchReason
  taskId : String
  taskType : Int
  isColdstart : Bool
  deriving DecidableEq

/-- Modelled from the spec: the function `Fetch` is declared outside the
sources at hand. Following steps 1 to 3 of the spec's fetch algorithm it
returns 0 when fetching is disabled, the sentinel when the lock is contended,
and otherwise what `fetchTasks` returns for the reason Kick or Routine. The
value is the result and the calls of `fetchTasks` made. -/
def Fetch (ErrUpdatingProcedureRunning : Int)
    (fetchTasks : FetchReason → String → Int → Bool → Int) (s : FetchState)
    (from_kick : Bool) (taskId : String) (taskType : Int) (isColdstart : Bool) :
    Int × List FetchCall :=
  if !isEnabledFetchingTask s then (0, [])
  else if s.locked then (ErrUpdatingProcedureRunning, [])
  else
    let reason := if from_kick then FetchOnKick else FetchRoutine
    (fetchTasks reason taskId taskType isColdstart, [⟨reason, taskId, taskType, isColdstart⟩])

/-- The struct `RunTaskInfo`, with the fields the tests set. -/
structure RunTaskInfo where
  TaskId : String := ""
  Repeat : String := ""
  deriving DecidableEq

/-- The struct `SendFileTaskInfo`, declared outside the sources at hand; the
tests only use its zero value, and the one field here stands for its fields. -/
structure SendFileTaskInfo where
  TaskId : String := ""
  deriving DecidableEq

/-- The struct `SessionTaskInfo`, declared outside the sources at hand; the
tests only use its zero value, and the one field here stands for its fields. -/
structure SessionTaskInfo where
  TaskId : String := ""
  deriving DecidableEq

/-- The struct `taskCollection`, with the fields the test `Test_fetchTasks`
sets. -/
structure taskCollection where
  runInfos : List RunTaskInfo := []
  stopInfos : List RunTaskInfo := []
  testInfos : List RunTaskInfo := []
  sendFiles : List SendFileTaskInfo := []
  sessionInfos : List SessionTaskInfo := []
  deriving DecidableEq

/-- The batch the test `Test_fetchTasks` makes `FetchTaskList` return: one
zero-valued item in each of the five lists. -/
def oneOfEach : taskCollection :=
  { runInfos := [{}], stopInfos := [{}], testInfos := [{}], sendFiles := [{}],
    sessionInfos := [{}] }

/-- The test `Test_fetchTasks`, case "normal", as a condition on `fetchTasks`,
which is declared outside the sources at hand and is given here the function
standing for `FetchTaskList` as its first argument: with `FetchTaskList`
patched to return `oneOfEach`, the call with the zero values returns 4. -/
def Test_fetchTasks
    (fetchTasks : (FetchReason → String → Int → Bool → taskCollection) →
      FetchReason → String → Int → Bool → Int) : Prop :=
  fetchTasks (fun _ _ _ _ => oneOfEach) "" "" 0 false = 4

/-- The number of items of a batch, one per item of each of the five lists. -/
def itemCount (b : taskCollection) : Int :=
  ((b.runInfos.length + b.stopInfos.length + b.testInfos.length + b.sendFiles.length
    + b.sessionInfos.length : Nat) : Int)

/-- Modelled from the spec: `fetchTasks` as steps 4 and 5 of the spec's fetch
algorithm word it, the function itself being declared outside the sources at
hand: it fetches the batch and returns the sum of the dispatched items, one
per item of the five lists. -/
def fetchTasksAsSpecified (FetchTaskList : FetchReason → String → Int → Bool → taskCollection)
    (reason : FetchReason) (taskId : String) (taskType : Int) (isColdstart : Bool) : Int :=
  itemCount (FetchTaskList reason taskId taskType isColdstart)

/-- What the claim says of `fetchTasks`: for every batch it returns the number
of items of the five lists. -/
def countsAllFive
    (fetchTasks : (FetchReason → String → Int → Bool → taskCollection) →
      FetchReason → String → Int → Bool → Int) : Prop :=
  ∀ FetchTaskList reason taskId taskType isColdstart,
    fetchTasks FetchTaskList reason taskId taskType isColdstart
      = itemCount (FetchTaskList reason taskId taskType isColdstart)

/-! ## Session client: writeLoopRawMode -/

/-- One round of the loop of `writeLoopRawMode`: the error of `br.Read` and the
bytes `buff[:size]` it read, whether `readLoop` has set `real_connected` since
the round before, and the surroundings of the sends of the round. The pauses
of `time.Sleep` are left out. -/
structure RawRound where
  readErr : GoError := none
  data : List Byte := []
  flagSet : Bool := false
  resendEnv : SendEnv := {}
  sendEnv : SendEnv := {}
  closeEnv : SendEnv := {}
  deriving DecidableEq

/-- How far `writeLoopRawMode` has come: still looping, returned with a code,
stuck in a send that never returns, or left by a panic. -/
inductive RawEnd where
  | looping
  | returned (code : Int)
  | blocked
  | panicked (msg : String)
  deriving DecidableEq

/-- What `writeLoopRawMode` has come to: the client, the variable
`resend_buff`, the payloads handed to `SendStreamDataMessage` in the order of
the calls, the frames written to the connection without error, and how the
loop ended. -/
structure RawResult where
  client : Client
  resend_buff : List Byte
  streamCalls : List (List Byte)
  sent : List Message
  ended : RawEnd
  deriving DecidableEq

/-- The end of `writeLoopRawMode` through `return openPoison(fname, c.poison)`. -/
def rawSuicide (c : Client) (buf : List Byte) (calls : List (List Byte)) (sent : List Message) :
    RawResult :=
  match openPoison c.poison with
  | Go.ret (code, p) => ⟨{ c with poison := p }, buf, calls, sent, RawEnd.returned code⟩
  | Go.panic msg => ⟨c, buf, calls, sent, RawEnd.panicked msg⟩

/-- The resend of `writeLoopRawMode`: when `resend_buff` holds bytes they are
handed to `SendStreamDataMessage`, whose error is dropped. The value is the
result of the send and the payloads handed over. -/
def rawResend (serialize : Message → Except String (List Byte)) (env : SendEnv) (c : Client)
    (buf : List Byte) : Option SendResult × List (List Byte) :=
  if buf.length > 0 then (SendStreamDataMessage serialize env c buf, [buf])
  else (some ⟨c, none, none⟩, [])

/-- The loop of `writeLoopRawMode`, run on its rounds, from the client, the
buffer, the payloads handed over and the frames written so far. -/
def rawLoop (serialize : Message → Except String (List Byte)) :
    Client → List Byte → List (List Byte) → List Message → List RawRound → RawResult
  | c, buf, calls, sent, [] => ⟨c, buf, calls, sent, RawEnd.looping⟩
  | c, buf, calls, sent, rd :: rest =>
    let c := if rd.flagSet then { c with real_connected := true } else c
    match rd.readErr with
    | some _ =>
      match SendCloseMessage serialize rd.closeEnv c with
      | none => ⟨c, buf, calls, sent, RawEnd.blocked⟩
      | some r => rawSuicide r.client buf calls (sent ++ r.sent.toList)
    | none =>
      if rd.data.length = 0 then rawLoop serialize c buf calls sent rest
      else if c.real_connected = true then
        match (rawResend serialize rd.resendEnv c buf).1 with
        | none =>
          ⟨c, buf, calls ++ (rawResend serialize rd.resendEnv c buf).2, sent, RawEnd.blocked⟩
        | some r1 =>
          match SendStreamDataMessage serialize rd.sendEnv r1.client rd.data with
          | none =>
            ⟨r1.client, [], calls ++ (rawResend serialize rd.resendEnv c buf).2 ++ [rd.data],
              sent ++ r1.sent.toList, RawEnd.blocked⟩
          | some r2 =>
            if r2.err ≠ none then
              rawSuicide r2.client []
                (calls ++ (rawResend serialize rd.resendEnv c buf).2 ++ [rd.data])
                (sent ++ r1.sent.toList ++ r2.sent.toList)
            else
              rawLoop serialize r2.client []
                (calls ++ (rawResend serialize rd.resendEnv c buf).2 ++ [rd.data])
                (sent ++ r1.sent.toList ++ r2.sent.toList) rest
      else rawLoop serialize c (if buf.length = 0 then rd.data else buf) calls sent rest

/-- The method `Client.writeLoopRawMode`, run on the rounds of its loop. -/
def writeLoopRawMode (serialize : Message → Except String (List Byte)) (c : Client)
    (rounds : List RawRound) : RawResult :=
  rawLoop serialize (if c.PortForward then { c with real_connected := true } else c)
    [] [] [] rounds

/-- The first chunk with a byte among the chunks read in the rounds, the
chunk without a byte when there is none. -/
def firstChunk : List RawRound → List Byte
  | [] => []
  | rd :: rest => if rd.data.length = 0 then firstChunk rest else rd.data

/-- A `Message.Serialize` for the examples: it never fails and gives the
payload behind one header byte. -/
def sampleSerialize (m : Message) : Except String (List Byte) := Except.ok (0 :: m.Payload)

/-! ## Session client: sends of concurrent goroutines -/

/-- The answer of the surroundings a call carries. -/
def SendCall.env : SendCall → SendEnv
  | SendCall.stream env _ => env
  | SendCall.resize env _ => env
  | SendCall.close env => env

/-- The message type of the frame a call builds. -/
def SendCall.kind : SendCall → MessageKind
  | SendCall.stream _ _ => MessageKind.InputStreamDataMessage
  | SendCall.resize _ _ => MessageKind.SetSizeDataMessage
  | SendCall.close _ => MessageKind.CloseDataChannel

/-- Whether the method clears `Connected` when `sendMessage` returns an error:
`SendStreamDataMessage` and `SendCloseMessage` do, `SendResizeDataMessage`
does not. -/
def SendCall.dropsConnected : SendCall → Bool
  | SendCall.stream _ _ => true
  | SendCall.resize _ _ => false
  | SendCall.close _ => true

/-- Whether the method starts with the check `len(inputData) == 0`:
`SendCloseMessage`, which builds its payload itself, has none. -/
def SendCall.checksEmpty : SendCall → Bool
  | SendCall.stream _ _ => true
  | SendCall.resize _ _ => true
  | SendCall.close _ => false

/-- Where a goroutine stands in a call of a send method. `Loop` starts
`termsizeLoop`, which calls `SendResizeDataMessage`, and the write loop, which
calls `SendStreamDataMessage` and `SendCloseMessage`, as separate goroutines
on the same `Client`; the send methods take `WriteMutex` only inside
`sendMessage`, so a step of another goroutine can fall between any two of:
building and serializing the frame (the counter is read here), `sendMessage`,
and the increment of the counter. -/
inductive SendStage where
  | called (call : SendCall)
  | built (call : SendCall) (agentMessage : Message) (msg : List Byte)
  | written
  | returned (err : GoError)
  deriving DecidableEq

/-- One step of a goroutine in a send method: the client afterwards, where the
goroutine then stands, and the frame written to the connection without error
by this step, if any. The value is `none` when the goroutine waits for
`WriteMutex`, which is held for good. -/
def SendStage.step (serialize : Message → Except String (List Byte)) (c : Client) :
    SendStage → Option (Client × SendStage × Option Message)
  | SendStage.called call =>
    if call.checksEmpty = true ∧ call.payload.length = 0 then
      some (c, SendStage.returned none, none)
    else
      match serialize (buildMessage call.kind call.env c call.payload) with
      | Except.error _ =>
        some (c, SendStage.returned (some "cannot serialize StreamData message"), none)
      | Except.ok msg =>
        some (c, SendStage.built call (buildMessage call.kind call.env c call.payload) msg, none)
  | SendStage.built call agentMessage msg =>
    match sendMessage c msg call.env.write with
    | none => none
    | some (c1, some e, _) =>
      some (if call.dropsConnected then { c1 with Connected := false } else c1,
        SendStage.returned (some e), none)
    | some (c1, none, wrote) =>
      some (c1, SendStage.written, if wrote then some agentMessage else none)
  | SendStage.written =>
    some ({ c with StreamDataSequenceNumber := c.StreamDataSequenceNumber + 1 },
      SendStage.returned none, none)
  | SendStage.returned err => some (c, SendStage.returned err, none)

/-- A call of a send method stepped to its return with no step of another
goroutine in between. -/
def stepsAlone (serialize : Message → Except String (List Byte)) (c : Client)
    (call : SendCall) : Option SendResult :=
  match (SendStage.called call).step serialize c with
  | none => none
  | some (c1, st1, s1) =>
    match st1.step serialize c1 with
    | none => none
    | some (c2, st2, s2) =>
      match st2.step serialize c2 with
      | some (c3, SendStage.returned err, s3) =>
        some ⟨c3, err, (s1.toList ++ s2.toList ++ s3.toList).head?⟩
      | _ => none

/-- Goroutines on one client, each in a call of a send method, stepped in the
order of a schedule: entry `i` of the schedule lets goroutine `i` take its
next step; a goroutine that waits for the mutex, or an entry that names no
goroutine, takes no step. The result is the client at the end, where each
goroutine stands, and the frames written to the connection without error, in
the order of the writes. -/
def runSchedule (serialize : Message → Except String (List Byte)) :
    Client → List SendStage → List Nat → Client × List SendStage × List Message
  | c, stages, [] => (c, stages, [])
  | c, stages, i :: rest =>
    match stages[i]? with
    | none => runSchedule serialize c stages rest
    | some st =>
      match st.step serialize c with
      | none => runSchedule serialize c stages rest
      | some (c1, st1, sent) =>
        let tail := runSchedule serialize c1 (stages.set i st1) rest
        (tail.1, tail.2.1, sent.toList ++ tail.2.2)

/-! ## Theorems: registry updates -/

theorem findByName_none (name : String) (l : List PluginInfo) :
    findByName name l = none ↔ name ∉ recordNames l := by
  induction l with
  | nil => simp [findByName, recordNames]
  | cons a rest ih =>
    unfold findByName
    by_cases hn : a.Name = name
    · simp [hn, recordNames]
    · have hn2 : ¬ name = a.Name := fun h => hn h.symm
      simp only [hn, if_false, Option.map_eq_none', ih, recordNames, List.map_cons,
        List.mem_cons, hn2, false_or]

theorem findByName_some (name : String) (l : List PluginInfo) :
    ∀ (idx : Nat) (p : PluginInfo), findByName name l = some (idx, p) →
      l[idx]? = some p ∧ p.Name = name
        ∧ ∀ (j : Nat) (q : PluginInfo), j < idx → l[j]? = some q → q.Name ≠ name := by
  induction l with
  | nil => intro idx p h; simp [findByName] at h
  | cons a rest ih =>
    intro idx p h
    unfold findByName at h
    by_cases hn : a.Name = name
    · simp only [hn, if_true, Option.some.injEq, Prod.mk.injEq] at h
      obtain ⟨rfl, rfl⟩ := h
      refine ⟨by simp, hn, ?_⟩
      intro j q hj
      omega
    · simp only [hn, if_false] at h
      cases hf : findByName name rest with
      | none => simp [hf] at h
      | some r =>
        obtain ⟨i, p0⟩ := r
        simp only [hf, Option.map_some', Option.some.injEq, Prod.mk.injEq] at h
        obtain ⟨rfl, rfl⟩ := h
        obtain ⟨h1, h2, h3⟩ := ih i p0 hf
        refine ⟨by simpa using h1, h2, ?_⟩
        intro j q hj hq
        cases j with
        | zero =>
          simp only [List.getElem?_cons_zero, Option.some.injEq] at hq
          subst hq
          exact hn
        | succ k =>
          simp only [List.getElem?_cons_succ] at hq
          exact h3 k q (by omega) hq

theorem recordNames_set (l : List PluginInfo) :
    ∀ (idx : Nat) (p q : PluginInfo), l[idx]? = some p → q.Name = p.Name →
      recordNames (l.set idx q) = recordNames l := by
  induction l with
  | nil => intro idx p q h; simp at h
  | cons a rest ih =>
    intro idx p q h hq
    cases idx with
    | zero =>
      simp only [List.getElem?_cons_zero, Option.some.injEq] at h
      subst h
      simp [recordNames, hq]
    | succ k =>
      simp only [List.getElem?_cons_succ] at h
      have := ih k p q h hq
      simp only [recordNames, List.set_cons_succ, List.map_cons] at this ⊢
      rw [this]

theorem recordNames_eraseIdx (l : List PluginInfo) :
    ∀ (idx : Nat) (p : PluginInfo), (recordNames l).Nodup → l[idx]? = some p →
      (recordNames (l.eraseIdx idx)).Nodup ∧ p.Name ∉ recordNames (l.eraseIdx idx) := by
  induction l with
  | nil => intro idx p _ h; simp at h
  | cons a rest ih =>
    intro idx p hnd h
    simp only [recordNames, List.map_cons, List.nodup_cons] at hnd
    cases idx with
    | zero =>
      simp only [List.getElem?_cons_zero, Option.some.injEq] at h
      subst h
      exact ⟨hnd.2, hnd.1⟩
    | succ k =>
      simp only [List.getElem?_cons_succ] at h
      obtain ⟨h1, h2⟩ := ih k p hnd.2 h
      have hsub : ∀ n, n ∈ recordNames (rest.eraseIdx k) → n ∈ recordNames rest := by
        intro n hn
        exact (List.Sublist.map _ (List.eraseIdx_sublist rest k)).subset hn
      have hpa : p.Name ≠ a.Name := by
        intro heq
        apply hnd.1
        rw [← heq]
        exact List.mem_map.2 ⟨p, List.getElem?_mem h, rfl⟩
      refine ⟨?_, ?_⟩
      · simp only [recordNames, List.eraseIdx_cons_succ, List.map_cons, List.nodup_cons]
        exact ⟨fun hm => hnd.1 (hsub _ hm), h1⟩
      · simp only [recordNames, List.eraseIdx_cons_succ, List.map_cons, List.mem_cons, not_or]
        exact ⟨hpa, h2⟩

theorem upsert_nodup (name : String) (q : PluginInfo) (l : List PluginInfo)
    (hq : q.Name = name) (hnd : (recordNames l).Nodup) : (recordNames (upsert name q l)).Nodup := by
  unfold upsert lookupInstalled
  cases hf : findByName name l with
  | none =>
    have hnot := (findByName_none name l).1 hf
    simp only [recordNames, List.map_append, List.map_cons, List.map_nil]
    rw [List.nodup_append]
    refine ⟨hnd, List.nodup_singleton _, ?_⟩
    intro a ha hb
    simp only [List.mem_singleton] at hb
    subst hb
    rw [hq] at ha
    exact hnot ha
  | some r =>
    obtain ⟨idx, p⟩ := r
    obtain ⟨hget, hname, _⟩ := findByName_some name l idx p hf
    by_cases hrem : p.IsRemoved = true
    · simp only [hrem, if_true, DeletePluginInfoByIdx]
      obtain ⟨h1, h2⟩ := recordNames_eraseIdx l idx p hnd hget
      simp only [recordNames, List.map_append, List.map_cons, List.map_nil]
      rw [List.nodup_append]
      refine ⟨h1, List.nodup_singleton _, ?_⟩
      intro a ha hb
      simp only [List.mem_singleton] at hb
      subst hb
      rw [hq, ← hname] at ha
      exact h2 ha
    · simp only [hrem, if_false]
      simp only [Bool.false_eq_true, if_false]
      rw [recordNames_set l idx p q hget (by rw [hq, hname])]
      exact hnd

theorem nodup_live_le_one (name : String) (l : List PluginInfo) (hnd : (recordNames l).Nodup) :
    (l.filter (fun p => decide (p.Name = name) && !p.IsRemoved)).length ≤ 1 := by
  induction l with
  | nil => simp
  | cons a rest ih =>
    simp only [recordNames, List.map_cons, List.nodup_cons] at hnd
    by_cases hn : a.Name = name
    · have hrest : rest.filter (fun p => decide (p.Name = name) && !p.IsRemoved) = [] := by
        rw [List.filter_eq_nil_iff]
        intro p hp hlive
        simp only [Bool.and_eq_true, decide_eq_true_eq] at hlive
        apply hnd.1
        rw [hn, ← hlive.1]
        exact List.mem_map.2 ⟨p, hp, rfl⟩
      rw [List.filter_cons]
      split
      · simp [hrest]
      · simp [hrest]
    · rw [List.filter_cons]
      simp only [hn, decide_False, Bool.false_and, Bool.false_eq_true, if_false]
      exact ih hnd.2

theorem recordFromConfig_name (config : pluginConfig) (found : Option (Nat × PluginInfo))
    (md5Str : String) (timeout : Int) :
    (recordFromConfig config found md5Str timeout).1.Name = config.Name
      ∧ (recordFromConfig config found md5Str timeout).1.Version = config.Version
      ∧ (recordFromConfig config found md5Str timeout).1.IsRemoved
        = (match found with
          | some (_, p) => p.IsRemoved
          | none => false) := by
  cases found with
  | none => simp [recordFromConfig, PluginInfo.SetPluginType]
  | some r => simp [recordFromConfig, PluginInfo.SetPluginType]

theorem storeFromFile_upsert (name : String) (l : List PluginInfo) (plugin : PluginInfo) :
    ∃ q, q.Name = plugin.Name
      ∧ (storeFromFile (lookupInstalled name l).1 (lookupInstalled name l).2 plugin).1
        = upsert name q l := by
  unfold storeFromFile upsert
  cases h : (lookupInstalled name l).2 with
  | none =>
    exact ⟨{ plugin with PluginID := "local_" ++ plugin.Name ++ "_" ++ plugin.Version }, rfl, rfl⟩
  | some r => exact ⟨plugin, rfl, rfl⟩

theorem installFromFile_persisted (K : Consts) (dir : String) (env : FromFileEnv)
    (persisted installedPlugins : List PluginInfo) (found : Option (Nat × PluginInfo))
    (config : pluginConfig) (file unzipdir dirName pre : String) (paramList : List String)
    (timeout : Int) (before : List Event) :
    ((installFromFile K dir env persisted installedPlugins found config file unzipdir dirName
          pre paramList timeout before).persisted = persisted
        ∧ ((installFromFile K dir env persisted installedPlugins found config file unzipdir
            dirName pre paramList timeout before).err ≠ none))
      ∨ ∃ md5Str, env.md5 = Except.ok md5Str
        ∧ (installFromFile K dir env persisted installedPlugins found config file unzipdir dirName
            pre paramList timeout before).persisted
          = (storeFromFile installedPlugins found
              (recordFromConfig config found md5Str timeout).1).1 := by
  unfold installFromFile
  cases hm : env.md5 with
  | error e => left; simp
  | ok md5Str =>
    by_cases hc : env.cmdExists = true
    · simp only [hc, Bool.not_true, Bool.false_eq_true, if_false]
      by_cases hch : env.osType ≠ OSWin ∧ env.chmodErr ≠ none
      · left
        rw [if_pos hch]
        exact ⟨rfl, hch.2⟩
      · rw [if_neg hch]
        cases hd : env.dumpErr with
        | some x => left; simp
        | none => right; exact ⟨md5Str, rfl, rfl⟩
    · left
      simp [hc]

theorem executePluginFromFile_persisted (K : Consts) (cmp : String → String → Int)
    (dir : String) (pm : PluginManager) (env : FromFileEnv) (persisted : List PluginInfo)
    (file : String) (paramList : List String) (timeout : Int) (r : Result)
    (h : executePluginFromFile K cmp dir pm env persisted file paramList timeout = some r) :
    (r.persisted = persisted
        ∧ (pm.Yes = true → K.PLUGIN_FORMAT_ERR ≠ 0 → ¬ (r.exitCode = 0 ∧ r.err = none)))
      ∨ ∃ config md5Str, env.config = Except.ok config ∧ env.md5 = Except.ok md5Str
        ∧ r.persisted
          = (storeFromFile (lookupInstalled config.Name persisted).1
              (lookupInstalled config.Name persisted).2
              (recordFromConfig config (lookupInstalled config.Name persisted).2 md5Str
                timeout).1).1 := by
  unfold executePluginFromFile at h
  by_cases h1 : env.fileExists = true
  swap
  · simp only [h1, Bool.not_false, Bool.not_eq_true, if_true, Option.some.injEq] at h
    subst h; left; simp
  simp only [h1, Bool.not_true, Bool.false_eq_true, if_false] at h
  cases h2 : splitPackagePath file with
  | none =>
    simp only [h2, Option.some.injEq] at h
    subst h; left; simp
  | some pr =>
    obtain ⟨pluginName, unzipdir⟩ := pr
    simp only [h2] at h
    cases h3 : env.unzipErr with
    | some e =>
      simp only [h3, Option.some.injEq] at h
      subst h; left; simp
    | none =>
      simp only [h3] at h
      by_cases h4 : (!env.configTop) = true ∧ (!env.configNested) = true
      · rw [if_pos h4] at h
        simp only [Option.some.injEq] at h
        subst h; left
        exact ⟨rfl, fun _ hK hc => hK hc.1⟩
      rw [if_neg h4] at h
      cases h5 : env.config with
      | error e =>
        simp only [h5, Option.some.injEq] at h
        subst h; left; simp
      | ok config =>
        simp only [h5] at h
        by_cases h6 : config.OsType ≠ "" ∧ stringsToLower config.OsType ≠ env.osType
        · rw [if_pos h6] at h
          simp only [Option.some.injEq] at h
          subst h; left; simp
        rw [if_neg h6] at h
        by_cases h7 : config.Arch ≠ "" ∧ stringsToLower config.Arch ≠ "all"
            ∧ stringsToLower config.Arch ≠ env.localArch
        · rw [if_pos h7] at h
          simp only [Option.some.injEq] at h
          subst h; left; simp
        rw [if_neg h7] at h
        cases h8 : env.loadErr with
        | some e =>
          simp only [h8, Option.some.injEq] at h
          subst h; left; simp
        | none =>
          simp only [h8] at h
          split at h
          · exact absurd h (by simp)
          · split at h
            · rename_i hasked
              simp only [Option.some.injEq] at h; subst h; left
              refine ⟨rfl, fun hy _ _ => ?_⟩
              have := hasked.1
              revert this
              cases (lookupInstalled config.Name persisted).2 with
              | none => simp
              | some x => simp [hy]
            · simp only [Option.some.injEq] at h
              subst h
              rcases installFromFile_persisted K dir env persisted
                (lookupInstalled config.Name persisted).1
                (lookupInstalled config.Name persisted).2 config file _ _ _ paramList
                timeout _ with hl | ⟨md5Str, hm1, hm2⟩
              · left
                exact ⟨hl.1, fun _ _ hc => hl.2 hc.2⟩
              · right
                exact ⟨config, md5Str, rfl, hm1, hm2⟩

theorem executePluginFromFile_returns (K : Consts) (cmp : String → String → Int)
    (dir : String) (pm : PluginManager) (env : FromFileEnv) (persisted : List PluginInfo)
    (file : String) (paramList : List String) (timeout : Int) (hyes : pm.Yes = true) :
    ∃ r, executePluginFromFile K cmp dir pm env persisted file paramList timeout = some r := by
  simp only [executePluginFromFile, hyes, Bool.not_true, Bool.and_false]
  repeat' split
  all_goals first
    | exact ⟨_, rfl⟩
    | (rename_i h
       have h1 := h.1
       split at h1 <;> simp at h1)

theorem storeOnline_persisted (K : Consts) (dir : String) (env : OnlineEnv)
    (persisted : List PluginInfo) (onlineInfo : PluginInfo) (config : pluginConfig)
    (cmdPath : String) (paramList : List String) (timeout : Int) (before : List Event) :
    (storeOnline K dir env persisted onlineInfo config cmdPath paramList timeout
          before).persisted = persisted
      ∨ (storeOnline K dir env persisted onlineInfo config cmdPath paramList timeout
          before).persisted = upsert onlineInfo.Name onlineInfo persisted := by
  unfold storeOnline
  cases hl : env.loadErr2 with
  | some x => left; rfl
  | none =>
    cases hd : env.dumpErr with
    | some y => left; rfl
    | none =>
      right
      simp only [upsert]
      cases hk : (lookupInstalled onlineInfo.Name persisted).2 with
      | none => rfl
      | some r => rfl

theorem pullPackage_error (K : Consts) (dir : String) (env : OnlineEnv)
    (persisted : List PluginInfo) (onlineInfo : PluginInfo) (pluginName : String)
    (before : List Event) :
    (∀ r, pullPackage K dir env persisted onlineInfo pluginName before = Except.error r →
        r.persisted = persisted
          ∧ Event.download onlineInfo.Url (filepathJoin [dir, pluginName ++ ".zip"]) ∈ r.trace)
      ∧ (∀ c tr, pullPackage K dir env persisted onlineInfo pluginName before = Except.ok (c, tr) →
          Event.download onlineInfo.Url (filepathJoin [dir, pluginName ++ ".zip"]) ∈ tr) := by
  constructor
  · intro r h
    simp only [pullPackage] at h
    repeat' split at h
    all_goals first
      | (simp only [Except.error.injEq] at h; subst h; simp)
      | exact Except.noConfusion h
  · intro c tr h
    simp only [pullPackage] at h
    repeat' split at h
    all_goals first
      | exact Except.noConfusion h
      | (simp only [Except.ok.injEq, Prod.mk.injEq] at h; obtain ⟨_, rfl⟩ := h; simp)

theorem checkPackage_error (K : Consts) (dir : String) (env : OnlineEnv)
    (persisted : List PluginInfo) (onlineInfo : PluginInfo) (config0 : pluginConfig)
    (timeout : Int) (before : List Event) :
    (∀ r, checkPackage K dir env persisted onlineInfo config0 timeout before = Except.error r →
        r.persisted = persisted ∧ ∀ e ∈ before, e ∈ r.trace)
      ∧ (∀ o c t p tr, checkPackage K dir env persisted onlineInfo config0 timeout before
            = Except.ok (o, c, t, p, tr) → ∀ e ∈ before, e ∈ tr) := by
  constructor
  · intro r h
    simp only [checkPackage] at h
    repeat' split at h
    all_goals first
      | exact Except.noConfusion h
      | (simp only [Except.error.injEq] at h; subst h
         exact ⟨rfl, fun e he => by simp [he]⟩)
  · intro o c t p tr h
    simp only [checkPackage] at h
    repeat' split at h
    all_goals first
      | exact Except.noConfusion h
      | (simp only [Except.ok.injEq, Prod.mk.injEq] at h
         obtain ⟨_, _, _, _, rfl⟩ := h
         intro e he
         simp [he])

theorem installOnline_persisted (K : Consts) (dir : String) (env : OnlineEnv)
    (persisted : List PluginInfo) (onlineInfo : PluginInfo) (pluginName : String)
    (paramList : List String) (timeout : Int) (before : List Event) :
    (installOnline K dir env persisted onlineInfo pluginName paramList timeout
          before).persisted = persisted
      ∨ ∃ q, (installOnline K dir env persisted onlineInfo pluginName paramList timeout
          before).persisted = upsert q.Name q persisted := by
  unfold installOnline
  split
  · rename_i r hr
    exact Or.inl ((pullPackage_error K dir env persisted onlineInfo pluginName before).1 r hr).1
  · split
    · rename_i r hr
      exact Or.inl ((checkPackage_error K dir env persisted onlineInfo _ timeout _).1 r hr).1
    · rcases storeOnline_persisted K dir env persisted _ _ _ paramList _ _ with h | h
      · exact Or.inl h
      · exact Or.inr ⟨_, h⟩

theorem executePluginOnlineOrLocal_persisted (K : Consts) (cmp : String → String → Int)
    (dir : String) (env : OnlineEnv) (persisted : List PluginInfo)
    (pluginName pluginVersion : String) (paramList : List String) (timeout : Int)
    (isLocal : Bool) :
    (executePluginOnlineOrLocal K cmp dir env persisted pluginName pluginVersion paramList
          timeout isLocal).persisted = persisted
      ∨ ∃ q, (executePluginOnlineOrLocal K cmp dir env persisted pluginName pluginVersion
          paramList timeout isLocal).persisted = upsert q.Name q persisted := by
  simp only [executePluginOnlineOrLocal]
  repeat' split
  all_goals first
    | (left; rfl)
    | exact installOnline_persisted K dir env persisted _ pluginName paramList timeout _

/-! ## Theorems: RemovePlugin -/

theorem findNotRemoved_none (pluginName : String) (l : List PluginInfo) :
    findNotRemoved pluginName l = none ↔ ∀ q ∈ l, ¬ isLive pluginName q := by
  induction l with
  | nil => simp [findNotRemoved]
  | cons p rest ih =>
    unfold findNotRemoved
    by_cases hr : p.IsRemoved = true
    · simp [hr, ih, isLive]
    · by_cases hn : p.Name = pluginName
      · simp [hr, hn, isLive]
      · simp [hr, hn, ih, isLive]

theorem findNotRemoved_some (pluginName : String) (l : List PluginInfo) :
    ∀ (idx : Nat) (p : PluginInfo), findNotRemoved pluginName l = some (idx, p) →
      l[idx]? = some p ∧ isLive pluginName p
        ∧ ∀ (j : Nat) (q : PluginInfo), j < idx → l[j]? = some q → ¬ isLive pluginName q := by
  induction l with
  | nil => intro idx p h; simp [findNotRemoved] at h
  | cons a rest ih =>
    intro idx p h
    unfold findNotRemoved at h
    have step : ∀ (hskip : ¬ isLive pluginName a),
        (findNotRemoved pluginName rest).map (fun r => (r.1 + 1, r.2)) = some (idx, p) →
        (a :: rest)[idx]? = some p ∧ isLive pluginName p
          ∧ ∀ (j : Nat) (q : PluginInfo), j < idx → (a :: rest)[j]? = some q →
            ¬ isLive pluginName q := by
      intro hskip hm
      cases hf : findNotRemoved pluginName rest with
      | none => simp [hf] at hm
      | some r =>
        obtain ⟨i, p0⟩ := r
        simp only [hf, Option.map_some', Option.some.injEq, Prod.mk.injEq] at hm
        obtain ⟨rfl, rfl⟩ := hm
        obtain ⟨h1, h2, h3⟩ := ih i p0 hf
        refine ⟨by simpa using h1, h2, ?_⟩
        intro j q hj hq
        cases j with
        | zero =>
          simp only [List.getElem?_cons_zero, Option.some.injEq] at hq
          subst hq
          exact hskip
        | succ k =>
          simp only [List.getElem?_cons_succ] at hq
          exact h3 k q (by omega) hq
    by_cases hr : a.IsRemoved = true
    · simp only [hr, if_true] at h
      exact step (by simp [isLive, hr]) h
    · by_cases hn : a.Name = pluginName
      · simp only [hr, hn, if_true] at h
        simp only [Bool.false_eq_true, if_false, Option.some.injEq, Prod.mk.injEq] at h
        obtain ⟨rfl, rfl⟩ := h
        refine ⟨by simp, ⟨hn, by simpa using hr⟩, ?_⟩
        intro j q hj
        omega
      · simp only [hr, hn, if_false] at h
        simp only [Bool.false_eq_true, if_false] at h
        exact step (by simp [isLive, hn]) h

theorem retryWhileErr_events (ev : Event) (posts : Nat → GoError) (n : Nat) :
    ∀ (i : Nat) (err : GoError), ∀ e ∈ (retryWhileErr ev posts n i err).2, e = ev := by
  induction n with
  | zero => intro i err e he; simp [retryWhileErr] at he
  | succ k ih =>
    intro i err e he
    cases err with
    | none => simp [retryWhileErr] at he
    | some x =>
      simp only [retryWhileErr, List.mem_cons] at he
      rcases he with he | he
      · exact he
      · exact ih _ _ e he

theorem reportPluginStatus_events (K : Consts) (env : ReportEnv) (n v s : String) :
    ∀ e ∈ (ReportPluginStatus K env n v s).2, ∃ n1 v1 s1, e = Event.httpPostStatus n1 v1 s1 := by
  intro e he
  unfold ReportPluginStatus at he
  cases hm : env.marshalErr with
  | some x => simp [hm] at he
  | none =>
    simp only [hm, List.mem_cons] at he
    rcases he with he | he
    · exact ⟨_, _, _, he⟩
    · exact ⟨_, _, _, retryWhileErr_events _ _ _ _ _ e he⟩

theorem removeTail_spec (K : Consts) (dir : String) (env : RemoveEnv) (persisted : List PluginInfo)
    (idx : Nat) (p : PluginInfo) (code : Int) (before : List Event) :
    Event.dump (persisted.set idx { p with IsRemoved := true })
        ∈ (removeTail K dir env persisted idx p code before).trace
      ∧ ((removeTail K dir env persisted idx p code before).err = none →
          (removeTail K dir env persisted idx p code before).persisted
              = persisted.set idx { p with IsRemoved := true }
            ∧ (removeTail K dir env persisted idx p code before).exitCode = code)
      ∧ (∀ rep : ReportEnv,
          (removeTail K dir { env with report := rep } persisted idx p code before).exitCode
              = (removeTail K dir env persisted idx p code before).exitCode
            ∧ (removeTail K dir { env with report := rep } persisted idx p code before).err
              = (removeTail K dir env persisted idx p code before).err
            ∧ (removeTail K dir { env with report := rep } persisted idx p code before).persisted
              = (removeTail K dir env persisted idx p code before).persisted)
      ∧ (∀ e ∈ (removeTail K dir env persisted idx p code before).trace,
          e ∈ before ∨ (∃ l, e = Event.dump l) ∨ (∃ n v s, e = Event.httpPostStatus n v s)
            ∨ ∃ path, e = Event.removeAll path) := by
  unfold removeTail
  cases hd : env.dumpErr with
  | some x =>
    refine ⟨by simp, by simp, by simp [hd], ?_⟩
    intro e he
    simp only [List.mem_append, List.mem_singleton] at he
    rcases he with he | he
    · exact Or.inl he
    · exact Or.inr (Or.inl ⟨_, he⟩)
  | none =>
    cases hr : env.removeAllErr with
    | some y =>
      refine ⟨by simp, by simp, by simp [hd, hr], ?_⟩
      intro e he
      simp only [List.mem_append, List.mem_singleton] at he
      rcases he with ((he | he) | he) | he
      · exact Or.inl he
      · exact Or.inr (Or.inl ⟨_, he⟩)
      · exact Or.inr (Or.inr (Or.inl (reportPluginStatus_events _ _ _ _ _ e he)))
      · exact Or.inr (Or.inr (Or.inr ⟨_, he⟩))
    | none =>
      refine ⟨by simp, by simp, by simp [hd, hr], ?_⟩
      intro e he
      simp only [List.mem_append, List.mem_singleton] at he
      rcases he with ((he | he) | he) | he
      · exact Or.inl he
      · exact Or.inr (Or.inl ⟨_, he⟩)
      · exact Or.inr (Or.inr (Or.inl (reportPluginStatus_events _ _ _ _ _ e he)))
      · exact Or.inr (Or.inr (Or.inr ⟨_, he⟩))

theorem executePlugin_events (K : Consts) (o : RunOutcome) (cmdPath : String)
    (ps : List String) (t : Int) (penv : List String) (quiet : Bool) :
    ∀ e ∈ (executePlugin K o cmdPath ps t penv quiet).2.2,
      e = Event.syncRun cmdPath ps t penv quiet := by
  intro e he
  unfold executePlugin at he
  split at he
  · simp at he
  · simpa using he

theorem removePlugin_found (K : Consts) (dir : String) (env : RemoveEnv)
    (persisted : List PluginInfo) (pluginName : String) (idx : Nat) (p : PluginInfo)
    (hload : env.loadErr = none) (hfind : findNotRemoved pluginName persisted = some (idx, p)) :
    RemovePlugin K dir env persisted pluginName
      = if p.PluginType = PLUGIN_PERSIST then
          if (uninstallRun K dir env p).1 ≠ 0 ∨ (uninstallRun K dir env p).2.1 ≠ none then
            ⟨(uninstallRun K dir env p).1, (uninstallRun K dir env p).2.1, persisted,
              (stopRun K dir env p).2.2 ++ (uninstallRun K dir env p).2.2⟩
          else
            removeTail K dir env persisted idx p (uninstallRun K dir env p).1
              ((stopRun K dir env p).2.2 ++ (uninstallRun K dir env p).2.2)
        else removeTail K dir env persisted idx p 0 [] := by
  simp only [RemovePlugin, hload, hfind, stopRun, uninstallRun]

theorem removePlugin_missing (K : Consts) (dir : String) (env : RemoveEnv)
    (persisted : List PluginInfo) (pluginName : String)
    (hload : env.loadErr = none) (hfind : findNotRemoved pluginName persisted = none) :
    RemovePlugin K dir env persisted pluginName
      = ⟨K.PACKAGE_NOT_FOUND,
          some ("Plugin " ++ pluginName ++ " not found in installed_plugins"), persisted, []⟩ := by
  simp only [RemovePlugin, hload, hfind]

theorem stop_uninstall_no_dump (K : Consts) (dir : String) (env : RemoveEnv) (p : PluginInfo) :
    ∀ e ∈ (stopRun K dir env p).2.2 ++ (uninstallRun K dir env p).2.2,
      ∃ c ps t pe q, e = Event.syncRun c ps t pe q := by
  intro e he
  rcases List.mem_append.1 he with h | h
  · exact ⟨_, _, _, _, _, executePlugin_events _ _ _ _ _ _ _ e h⟩
  · exact ⟨_, _, _, _, _, executePlugin_events _ _ _ _ _ _ _ e h⟩

theorem removePlugin_persisted (K : Consts) (dir : String) (env : RemoveEnv)
    (persisted : List PluginInfo) (pluginName : String) :
    (RemovePlugin K dir env persisted pluginName).persisted = persisted
      ∨ ∃ idx p, persisted[idx]? = some p
        ∧ (RemovePlugin K dir env persisted pluginName).persisted
          = persisted.set idx { p with IsRemoved := true } := by
  rcases Option.eq_none_or_eq_some env.loadErr with hload | ⟨x, hload⟩
  · cases hf : findNotRemoved pluginName persisted with
    | none =>
      left
      rw [removePlugin_missing K dir env persisted pluginName hload hf]
    | some r =>
      obtain ⟨idx, p⟩ := r
      obtain ⟨hget, _, _⟩ := findNotRemoved_some pluginName persisted idx p hf
      have hshape : ∀ code before,
          (removeTail K dir env persisted idx p code before).persisted = persisted
            ∨ (removeTail K dir env persisted idx p code before).persisted
              = persisted.set idx { p with IsRemoved := true } := by
        intro code before
        unfold removeTail
        cases env.dumpErr with
        | some y => left; rfl
        | none =>
          cases env.removeAllErr with
          | some z => right; rfl
          | none => right; rfl
      simp only [RemovePlugin, hload, hf]
      repeat' split
      all_goals first
        | (left; rfl)
        | (rcases hshape _ _ with h | h
           · exact Or.inl h
           · exact Or.inr ⟨idx, p, hget, h⟩)
  · left
    simp [RemovePlugin, hload]

theorem persistedAfter_nodup (K : Consts) (cmp : String → String → Int) (dir : String)
    (persisted : List PluginInfo) (call : Call) (hnd : (recordNames persisted).Nodup) :
    (recordNames (Call.persistedAfter K cmp dir persisted call)).Nodup := by
  cases call with
  | fromFile pm env file paramList timeout =>
    simp only [Call.persistedAfter]
    cases hexec : executePluginFromFile K cmp dir pm env persisted file paramList timeout with
    | none => exact hnd
    | some r =>
      rcases executePluginFromFile_persisted K cmp dir pm env persisted file paramList timeout r
        hexec with hl | ⟨config, md5Str, _, _, hr⟩
      · simp only [hl.1]
        exact hnd
      · obtain ⟨q, hq, hup⟩ := storeFromFile_upsert config.Name persisted
          (recordFromConfig config (lookupInstalled config.Name persisted).2 md5Str timeout).1
        simp only [hr, hup]
        exact upsert_nodup config.Name q persisted
          (by rw [hq]; exact (recordFromConfig_name config _ md5Str timeout).1) hnd
  | onlineOrLocal env pluginName pluginVersion paramList timeout isLocal =>
    simp only [Call.persistedAfter]
    rcases executePluginOnlineOrLocal_persisted K cmp dir env persisted pluginName pluginVersion
      paramList timeout isLocal with h | ⟨q, h⟩
    · rw [h]; exact hnd
    · rw [h]; exact upsert_nodup q.Name q persisted rfl hnd
  | remove env pluginName =>
    simp only [Call.persistedAfter]
    rcases removePlugin_persisted K dir env persisted pluginName with h | ⟨idx, p, hget, h⟩
    · rw [h]; exact hnd
    · rw [h, recordNames_set persisted idx p { p with IsRemoved := true } hget rfl]
      exact hnd

theorem runCalls_nodup (K : Consts) (cmp : String → String → Int) (dir : String)
    (calls : List Call) :
    ∀ persisted : List PluginInfo, (recordNames persisted).Nodup →
      (recordNames (runCalls K cmp dir persisted calls)).Nodup := by
  induction calls with
  | nil => intro persisted h; exact h
  | cons call rest ih =>
    intro persisted h
    exact ih _ (persistedAfter_nodup K cmp dir persisted call h)

/-- C1: starting from an empty installed-plugin list, after any finite sequence
of `executePluginFromFile`, `executePluginOnlineOrLocal` and `RemovePlugin`
calls, whatever the surroundings answer to each (so each succeeding or
failing), the persisted list holds for every plugin name at most one record
with isRemoved = false; indeed no two of its records share a name. -/
theorem registry_unique (K : Consts) (cmp : String → String → Int) (dir : String)
    (calls : List Call) (name : String) :
    ((runCalls K cmp dir [] calls).filter
        (fun p => decide (p.Name = name) && !p.IsRemoved)).length ≤ 1
      ∧ (recordNames (runCalls K cmp dir [] calls)).Nodup := by
  have hnd := runCalls_nodup K cmp dir calls [] (by simp [recordNames])
  exact ⟨nodup_live_le_one name _ hnd, hnd⟩

theorem lookupInstalled_live (name : String) (l : List PluginInfo) (i : Nat) (p : PluginInfo)
    (hget : l[i]? = some p) (hname : p.Name = name) (hlive : p.IsRemoved = false)
    (huniq : ∀ (j : Nat) (q : PluginInfo), l[j]? = some q → q.Name = name → j = i) :
    lookupInstalled name l = (l, some (i, p)) := by
  unfold lookupInstalled
  cases hf : findByName name l with
  | none =>
    exact absurd (List.mem_map.2 ⟨p, List.getElem?_mem hget, hname⟩)
      ((findByName_none name l).1 hf)
  | some r =>
    obtain ⟨j, q⟩ := r
    obtain ⟨h1, h2, _⟩ := findByName_some name l j q hf
    have hji := huniq j q h1 h2
    subst hji
    rw [hget] at h1
    simp only [Option.some.injEq] at h1
    subst h1
    simp [hlive]

/-- C2: for a registry whose only record named N is at index i and is not
removed, and a package whose config has name N and version V (whatever the
installed version and whatever the version comparison says), a call of
`executePluginFromFile` with Yes = true returns, and when it returns success
(exit code 0, nil error) the registry has the same length, every other
position is unchanged, and the record at index i is the only one named N, has
version V and isRemoved = false. -/
theorem fromFile_upgrade_in_place (K : Consts) (cmp : String → String → Int) (dir : String)
    (pm : PluginManager) (env : FromFileEnv) (persisted : List PluginInfo) (file : String)
    (paramList : List String) (timeout : Int) (config : pluginConfig) (i : Nat) (p : PluginInfo)
    (hyes : pm.Yes = true) (hK : K.PLUGIN_FORMAT_ERR ≠ 0)
    (hcfg : env.config = Except.ok config)
    (hget : persisted[i]? = some p) (hname : p.Name = config.Name) (hlive : p.IsRemoved = false)
    (huniq : ∀ (j : Nat) (q : PluginInfo), persisted[j]? = some q → q.Name = config.Name → j = i) :
    ∃ r, executePluginFromFile K cmp dir pm env persisted file paramList timeout = some r
      ∧ (r.exitCode = 0 → r.err = none →
          r.persisted.length = persisted.length
            ∧ (∃ q, r.persisted[i]? = some q ∧ q.Name = config.Name
                ∧ q.Version = config.Version ∧ q.IsRemoved = false)
            ∧ (∀ (j : Nat) (q : PluginInfo), r.persisted[j]? = some q →
                q.Name = config.Name → j = i)
            ∧ (∀ j, j ≠ i → r.persisted[j]? = persisted[j]?)) := by
  have hlook := lookupInstalled_live config.Name persisted i p hget hname hlive huniq
  have hlt : i < persisted.length := by
    by_contra hge
    rw [List.getElem?_eq_none (by omega)] at hget
    exact Option.noConfusion hget
  obtain ⟨r, hexec⟩ := executePluginFromFile_returns K cmp dir pm env persisted file paramList
    timeout hyes
  refine ⟨r, hexec, ?_⟩
  have hmain : r.exitCode = 0 → r.err = none →
      r.persisted.length = persisted.length
        ∧ (∃ q, r.persisted[i]? = some q ∧ q.Name = config.Name
            ∧ q.Version = config.Version ∧ q.IsRemoved = false)
        ∧ (∀ (j : Nat) (q : PluginInfo), r.persisted[j]? = some q →
            q.Name = config.Name → j = i)
        ∧ (∀ j, j ≠ i → r.persisted[j]? = persisted[j]?) := by
    intro hc he
    rcases executePluginFromFile_persisted K cmp dir pm env persisted file paramList timeout r
      hexec with hl | ⟨config1, md5Str, hcfg1, _, hr⟩
    · exact absurd ⟨hc, he⟩ (hl.2 hyes hK)
    · rw [hcfg] at hcfg1
      simp only [Except.ok.injEq] at hcfg1
      subst hcfg1
      rw [hlook] at hr
      simp only [storeFromFile] at hr
      obtain ⟨hn, hv, hrm⟩ := recordFromConfig_name config (some (i, p)) md5Str timeout
      simp only at hrm
      rw [hr]
      refine ⟨by simp, ⟨_, by simp [hlt], hn, hv, by rw [hrm]; exact hlive⟩, ?_, ?_⟩
      · intro j q hj hq
        by_contra hji
        rw [List.getElem?_set_ne (Ne.symm hji)] at hj
        exact hji (huniq j q hj hq)
      · intro j hj
        exact List.getElem?_set_ne (Ne.symm hj)
  exact hmain

/-- Witness of C2: installing A version "1" on an empty registry gives the
registry `installedA1`, and installing A version "2" on it, the comparison
calling the package older, ends with a single record for A, at index 0, whose
version is "2" and which is not removed. -/
theorem fromFile_upgrade_in_place_witness :
    (Option.map (fun r => (r.exitCode, r.err, r.persisted))
        (executePluginFromFile sampleConsts (fun _ _ => -1) "/plugins" {}
          { config := Except.ok (sampleConfig "A" "1") } [] "/tmp/A.zip" [] 60)
        = some (0, none, installedA1))
      ∧ ∃ r, executePluginFromFile sampleConsts (fun _ _ => -1) "/plugins" {}
          { config := Except.ok (sampleConfig "A" "2") } installedA1 "/tmp/A.zip" [] 60 = some r
        ∧ (r.exitCode = 0 → r.err = none →
          r.persisted.length = installedA1.length
            ∧ (∃ q, r.persisted[0]? = some q ∧ q.Name = (sampleConfig "A" "2").Name
                ∧ q.Version = (sampleConfig "A" "2").Version ∧ q.IsRemoved = false)
            ∧ (∀ (j : Nat) (q : PluginInfo), r.persisted[j]? = some q →
                q.Name = (sampleConfig "A" "2").Name → j = 0)
            ∧ (∀ j, j ≠ 0 → r.persisted[j]? = installedA1[j]?)) :=
  ⟨by decide,
    fromFile_upgrade_in_place sampleConsts (fun _ _ => -1) "/plugins" {}
      { config := Except.ok (sampleConfig "A" "2") } installedA1 "/tmp/A.zip" [] 60
      (sampleConfig "A" "2") 0
      { PluginID := "local_A_1", Name := "A", Arch := "all", OSType := "linux", Version := "1",
        Publisher := "aliyun", Url := "local", Md5 := "d41d8cd98f00b204e9800998ecf8427e",
        RunPath := "run.sh", Timeout := "30", PluginType_ := JsonAny.str "Once",
        HeartbeatInterval := 60, IsRemoved := false }
      rfl (by decide) rfl rfl rfl rfl
      (by
        intro j q hj _
        by_contra hne
        rw [List.getElem?_eq_none (by simp [installedA1]; omega)] at hj
        exact Option.noConfusion hj)⟩

/-! ## Theorems: executePluginOnlineOrLocal -/

theorem getOnlinePluginInfo_events (env : OnlineEnv) (name version : String) :
    ∀ e ∈ (getOnlinePluginInfo env name version).2,
      e = Event.pluginListRequest name version false := by
  intro e he
  simp only [getOnlinePluginInfo, getPackageInfo] at he
  repeat' split at he
  all_goals
    simp only [List.mem_cons] at he
    rcases he with he | he
    · exact he
    · exact retryWhileErr_events _ _ _ _ _ e he

theorem runAndCheck_events (K : Consts) (run : RunOutcome) (check : CheckEnv)
    (pt pn pv cmdPath : String) (paramList : List String) (timeout : Int) (penv : List String) :
    ∀ e ∈ (runAndCheck K run check pt pn pv cmdPath paramList timeout penv).2.2,
      (∃ c ps t pe q, e = Event.syncRun c ps t pe q)
        ∨ ∃ n v s, e = Event.httpPostStatus n v s := by
  intro e he
  simp only [runAndCheck, CheckAndReportPlugin] at he
  repeat' split at he
  all_goals (try simp only [List.mem_append] at he)
  all_goals first
    | exact Or.inl ⟨_, _, _, _, _, executePlugin_events _ _ _ _ _ _ _ e he⟩
    | (rcases he with he | he
       · exact Or.inl ⟨_, _, _, _, _, executePlugin_events _ _ _ _ _ _ _ e he⟩
       · exact Or.inl ⟨_, _, _, _, _, executePlugin_events _ _ _ _ _ _ _ e he⟩)
    | (rcases he with he | he | he
       · exact Or.inl ⟨_, _, _, _, _, executePlugin_events _ _ _ _ _ _ _ e he⟩
       · exact Or.inl ⟨_, _, _, _, _, executePlugin_events _ _ _ _ _ _ _ e he⟩
       · exact Or.inr (reportPluginStatus_events _ _ _ _ _ e he))

theorem runLocalPackage_events (K : Consts) (dir : String) (env : OnlineEnv)
    (persisted : List PluginInfo) (l : PluginInfo) (paramList : List String) (timeout : Int)
    (before : List Event) :
    ∀ e ∈ (runLocalPackage K dir env persisted l paramList timeout before).trace,
      e ∈ before ∨ (∃ c ps t pe q, e = Event.syncRun c ps t pe q)
        ∨ ∃ n v s, e = Event.httpPostStatus n v s := by
  intro e he
  simp only [runLocalPackage, List.mem_append] at he
  rcases he with he | he
  · exact Or.inl he
  · exact Or.inr (runAndCheck_events _ _ _ _ _ _ _ _ _ _ e he)

theorem storeOnline_trace (K : Consts) (dir : String) (env : OnlineEnv)
    (persisted : List PluginInfo) (onlineInfo : PluginInfo) (config : pluginConfig)
    (cmdPath : String) (paramList : List String) (timeout : Int) (before : List Event) :
    ∀ e ∈ before,
      e ∈ (storeOnline K dir env persisted onlineInfo config cmdPath paramList timeout
        before).trace := by
  intro e he
  simp only [storeOnline]
  repeat' split
  all_goals simp [he]

theorem installOnline_downloads (K : Consts) (dir : String) (env : OnlineEnv)
    (persisted : List PluginInfo) (o : PluginInfo) (pluginName : String)
    (paramList : List String) (timeout : Int) (before : List Event) :
    Event.download o.Url (filepathJoin [dir, pluginName ++ ".zip"])
      ∈ (installOnline K dir env persisted o pluginName paramList timeout before).trace := by
  unfold installOnline
  split
  · rename_i r hr
    exact ((pullPackage_error K dir env persisted o pluginName before).1 r hr).2
  · rename_i config0 tr hp
    have hd := (pullPackage_error K dir env persisted o pluginName before).2 config0 tr hp
    split
    · rename_i r hr
      exact ((checkPackage_error K dir env persisted o config0 timeout tr).1 r hr).2 _ hd
    · rename_i o1 c1 t1 p1 tr1 hc
      exact storeOnline_trace K dir env persisted o1 c1 p1 paramList t1 tr1 _
        ((checkPackage_error K dir env persisted o config0 timeout tr).2 o1 c1 t1 p1 tr1 hc _ hd)

theorem runLocalPackage_no_download (K : Consts) (dir : String) (env : OnlineEnv)
    (persisted : List PluginInfo) (l : PluginInfo) (name version : String)
    (paramList : List String) (timeout : Int) (url path : String) :
    Event.download url path
      ∉ (runLocalPackage K dir env persisted l paramList timeout
        (getOnlinePluginInfo env name version).2).trace := by
  intro hmem
  rcases runLocalPackage_events K dir env persisted l paramList timeout _ _ hmem with
    h | ⟨c, ps, t, pe, q, h⟩ | ⟨n, v, s, h⟩
  · exact Event.noConfusion (getOnlinePluginInfo_events env name version _ h)
  · exact Event.noConfusion h
  · exact Event.noConfusion h

/-- C8, as stated, fails: with a Persist plugin A installed and not removed,
whose `--uninstall` run ends with the exit code that equals
`PACKAGE_NOT_FOUND` and an error, `RemovePlugin` returns `PACKAGE_NOT_FOUND`
with a non-nil error and does not rewrite the registry, although the loaded
list holds a record named A with isRemoved = false. -/
theorem uninstall_code_collision :
    (RemovePlugin sampleConsts "/plugins"
        { uninstall := { exitCode := sampleConsts.PACKAGE_NOT_FOUND, err := some "exit status" } }
        [{ Name := "A", Version := "1", PluginType_ := JsonAny.str "Persist" }] "A").exitCode
        = sampleConsts.PACKAGE_NOT_FOUND
      ∧ (RemovePlugin sampleConsts "/plugins"
        { uninstall := { exitCode := sampleConsts.PACKAGE_NOT_FOUND, err := some "exit status" } }
        [{ Name := "A", Version := "1", PluginType_ := JsonAny.str "Persist" }] "A").err ≠ none
      ∧ (RemovePlugin sampleConsts "/plugins"
        { uninstall := { exitCode := sampleConsts.PACKAGE_NOT_FOUND, err := some "exit status" } }
        [{ Name := "A", Version := "1", PluginType_ := JsonAny.str "Persist" }] "A").trace
        = [Event.syncRun "/plugins/A/1" ["--stop"] 60
            ["PLUGIN_DIR=/plugins/A/1", "PRE_PLUGIN_DIR="] false,
          Event.syncRun "/plugins/A/1" ["--uninstall"] 60
            ["PLUGIN_DIR=/plugins/A/1", "PRE_PLUGIN_DIR="] false]
      ∧ (RemovePlugin sampleConsts "/plugins"
        { uninstall := { exitCode := sampleConsts.PACKAGE_NOT_FOUND, err := some "exit status" } }
        [{ Name := "A", Version := "1", PluginType_ := JsonAny.str "Persist" }] "A").persisted
        = [{ Name := "A", Version := "1", PluginType_ := JsonAny.str "Persist" }]
      ∧ ¬ (∀ q ∈ [({ Name := "A", Version := "1", PluginType_ := JsonAny.str "Persist" } :
              PluginInfo)], ¬ (q.Name = "A" ∧ q.IsRemoved = false)) := by
  decide

/-- C8, amended: when the registry loads, `RemovePlugin(name)` returns
`PACKAGE_NOT_FOUND` with a non-nil error, without rewriting the registry and
without running anything, whenever the loaded list has no record with that
name and isRemoved = false; and it returns `PACKAGE_NOT_FOUND` with a non-nil
error without rewriting the registry if and only if either there is no such
record, or the record found is a Persist plugin whose `--uninstall` invocation
itself ends with the exit code `PACKAGE_NOT_FOUND` and an error. Consequently,
when at most one record of the list is named so and not removed, a second
`RemovePlugin` after a successful one fails with `PACKAGE_NOT_FOUND`. -/
theorem removePlugin_not_found (K : Consts) (dir : String) (env env2 : RemoveEnv)
    (persisted : List PluginInfo) (pluginName : String)
    (hload : env.loadErr = none) (hload2 : env2.loadErr = none) :
    ((∀ q ∈ persisted, ¬ isLive pluginName q) →
        (RemovePlugin K dir env persisted pluginName).exitCode = K.PACKAGE_NOT_FOUND
          ∧ (RemovePlugin K dir env persisted pluginName).err ≠ none
          ∧ (RemovePlugin K dir env persisted pluginName).persisted = persisted
          ∧ (RemovePlugin K dir env persisted pluginName).trace = [])
      ∧ (((RemovePlugin K dir env persisted pluginName).exitCode = K.PACKAGE_NOT_FOUND
            ∧ (RemovePlugin K dir env persisted pluginName).err ≠ none
            ∧ ∀ l, Event.dump l ∉ (RemovePlugin K dir env persisted pluginName).trace)
          ↔ ((∀ q ∈ persisted, ¬ isLive pluginName q)
            ∨ ∃ idx p, findNotRemoved pluginName persisted = some (idx, p)
                ∧ p.PluginType = PLUGIN_PERSIST
                ∧ (uninstallRun K dir env p).1 = K.PACKAGE_NOT_FOUND
                ∧ (uninstallRun K dir env p).2.1 ≠ none))
      ∧ ((∀ (i j : Nat) (a b : PluginInfo), persisted[i]? = some a → persisted[j]? = some b →
            isLive pluginName a → isLive pluginName b → i = j) →
          (RemovePlugin K dir env persisted pluginName).exitCode = 0 →
          (RemovePlugin K dir env persisted pluginName).err = none →
          (RemovePlugin K dir env2 (RemovePlugin K dir env persisted pluginName).persisted
              pluginName).exitCode = K.PACKAGE_NOT_FOUND
            ∧ (RemovePlugin K dir env2 (RemovePlugin K dir env persisted pluginName).persisted
              pluginName).err ≠ none
            ∧ (RemovePlugin K dir env2 (RemovePlugin K dir env persisted pluginName).persisted
              pluginName).persisted = (RemovePlugin K dir env persisted pluginName).persisted) := by
  have hmiss : ∀ (e : RemoveEnv) (l : List PluginInfo), e.loadErr = none →
      (∀ q ∈ l, ¬ isLive pluginName q) →
      (RemovePlugin K dir e l pluginName).exitCode = K.PACKAGE_NOT_FOUND
        ∧ (RemovePlugin K dir e l pluginName).err ≠ none
        ∧ (RemovePlugin K dir e l pluginName).persisted = l
        ∧ (RemovePlugin K dir e l pluginName).trace = [] := by
    intro e l he h
    rw [removePlugin_missing K dir e l pluginName he ((findNotRemoved_none _ _).2 h)]
    simp
  refine ⟨hmiss env persisted hload, ?_, ?_⟩
  · constructor
    · rintro ⟨hc, he, hd⟩
      cases hf : findNotRemoved pluginName persisted with
      | none => exact Or.inl ((findNotRemoved_none _ _).1 hf)
      | some r =>
        obtain ⟨idx, p⟩ := r
        right
        refine ⟨idx, p, rfl, ?_⟩
        rw [removePlugin_found K dir env persisted pluginName idx p hload hf] at hc he hd
        by_cases hp : p.PluginType = PLUGIN_PERSIST
        · simp only [hp, if_true] at hc he hd
          by_cases hu : (uninstallRun K dir env p).1 ≠ 0 ∨ (uninstallRun K dir env p).2.1 ≠ none
          · simp only [hu, if_true] at hc he hd
            exact ⟨hp, hc, he⟩
          · simp only [hu, if_false] at hd
            exact absurd (removeTail_spec K dir env persisted idx p _ _).1 (hd _)
        · simp only [hp, if_false] at hd
          exact absurd (removeTail_spec K dir env persisted idx p _ _).1 (hd _)
    · rintro (h | ⟨idx, p, hf, hp, hc, he⟩)
      · obtain ⟨h1, h2, _, h4⟩ := hmiss env persisted hload h
        exact ⟨h1, h2, by simp [h4]⟩
      · rw [removePlugin_found K dir env persisted pluginName idx p hload hf]
        have hu : (uninstallRun K dir env p).1 ≠ 0 ∨ (uninstallRun K dir env p).2.1 ≠ none :=
          Or.inr he
        simp only [hp, hu, if_true]
        refine ⟨hc, he, ?_⟩
        intro l hl
        obtain ⟨c, ps, t, pe, q, hq⟩ := stop_uninstall_no_dump K dir env p _ hl
        exact Event.noConfusion hq
  · intro huniq hc he
    suffices hs : ∀ q ∈ (RemovePlugin K dir env persisted pluginName).persisted,
        ¬ isLive pluginName q by
      obtain ⟨h1, h2, h3, _⟩ := hmiss env2 _ hload2 hs
      exact ⟨h1, h2, h3⟩
    cases hf : findNotRemoved pluginName persisted with
    | none =>
      rw [removePlugin_missing K dir env persisted pluginName hload hf] at he
      simp at he
    | some r =>
      obtain ⟨idx, p⟩ := r
      obtain ⟨hget, hlive, _⟩ := findNotRemoved_some pluginName persisted idx p hf
      have hset : (RemovePlugin K dir env persisted pluginName).persisted
          = persisted.set idx { p with IsRemoved := true } := by
        rw [removePlugin_found K dir env persisted pluginName idx p hload hf] at hc he ⊢
        by_cases hp : p.PluginType = PLUGIN_PERSIST
        · simp only [hp, if_true] at hc he ⊢
          by_cases hu : (uninstallRun K dir env p).1 ≠ 0 ∨ (uninstallRun K dir env p).2.1 ≠ none
          · simp only [hu, if_true] at hc he
            rcases hu with hu | hu
            · exact absurd hc hu
            · exact absurd he hu
          · simp only [hu, if_false] at he ⊢
            exact ((removeTail_spec K dir env persisted idx p _ _).2.1 he).1
        · simp only [hp, if_false] at he ⊢
          exact ((removeTail_spec K dir env persisted idx p _ _).2.1 he).1
      rw [hset]
      intro q hq
      obtain ⟨j, hj, hqj⟩ := List.getElem_of_mem hq
      have hj2 : j < persisted.length := by simpa using hj
      by_cases hji : idx = j
      · subst hji
        have : q = { p with IsRemoved := true } := by
          rw [← hqj]; simp
        subst this
        simp [isLive]
      · intro hql
        have hqj2 : persisted[j]? = some q := by
          rw [← hqj, List.getElem_set_ne hji]
          exact List.getElem?_eq_getElem hj2
        exact hji (huniq idx j p q hget hqj2 hlive hql)

/-- Witness of the amended C8: removing the Once plugin A twice. -/
theorem removePlugin_not_found_witness :
    (RemovePlugin sampleConsts "/plugins" {}
        (RemovePlugin sampleConsts "/plugins" {} [{ Name := "A", Version := "1" }] "A").persisted
        "A").exitCode = sampleConsts.PACKAGE_NOT_FOUND :=
  ((removePlugin_not_found sampleConsts "/plugins" {} {} [{ Name := "A", Version := "1" }] "A"
    rfl rfl).2.2
    (by
      intro i j a b hi hj _ _
      have h1 : i < 1 := by
        by_contra hc
        rw [List.getElem?_eq_none (by simp; omega)] at hi
        exact Option.noConfusion hi
      have h2 : j < 1 := by
        by_contra hc
        rw [List.getElem?_eq_none (by simp; omega)] at hj
        exact Option.noConfusion hj
      omega)
    (by decide) (by decide)).1

/-- C9: for the record `RemovePlugin` finds, when it is a Persist plugin the
outcome of the `--stop` invocation has no bearing on the returned exit code,
error and registry; a `--uninstall` invocation that returns a non-zero exit
code or an error makes `RemovePlugin` return that exit code and error with the
registry as it was, no dump, no status report and no directory removal; and
both invocations are made, `--stop` first, when the command file exists. When
the record is not a Persist plugin no process is run at all. -/
theorem removePlugin_persist_uninstall (K : Consts) (dir : String) (env : RemoveEnv)
    (persisted : List PluginInfo) (pluginName : String) (idx : Nat) (p : PluginInfo)
    (hload : env.loadErr = none) (hfind : findNotRemoved pluginName persisted = some (idx, p)) :
    (p.PluginType = PLUGIN_PERSIST →
        (∀ s : RunOutcome,
          (RemovePlugin K dir { env with stop := s } persisted pluginName).exitCode
              = (RemovePlugin K dir env persisted pluginName).exitCode
            ∧ (RemovePlugin K dir { env with stop := s } persisted pluginName).err
              = (RemovePlugin K dir env persisted pluginName).err
            ∧ (RemovePlugin K dir { env with stop := s } persisted pluginName).persisted
              = (RemovePlugin K dir env persisted pluginName).persisted)
        ∧ ((uninstallRun K dir env p).1 ≠ 0 ∨ (uninstallRun K dir env p).2.1 ≠ none →
            (RemovePlugin K dir env persisted pluginName).exitCode = (uninstallRun K dir env p).1
              ∧ (RemovePlugin K dir env persisted pluginName).err
                = (uninstallRun K dir env p).2.1
              ∧ (RemovePlugin K dir env persisted pluginName).persisted = persisted
              ∧ ∀ e ∈ (RemovePlugin K dir env persisted pluginName).trace,
                  ∃ c ps t pe q, e = Event.syncRun c ps t pe q)
        ∧ (env.stop.cmdExists = true → env.uninstall.cmdExists = true →
            ∃ rest, (RemovePlugin K dir env persisted pluginName).trace
              = Event.syncRun (filepathJoin [dir, p.Name, p.Version, p.RunPath]) ["--stop"]
                  ((Atoi p.Timeout).getD 60)
                  ["PLUGIN_DIR=" ++ filepathJoin [dir, p.Name, p.Version], "PRE_PLUGIN_DIR="]
                  false
                :: Event.syncRun (filepathJoin [dir, p.Name, p.Version, p.RunPath])
                  ["--uninstall"] ((Atoi p.Timeout).getD 60)
                  ["PLUGIN_DIR=" ++ filepathJoin [dir, p.Name, p.Version], "PRE_PLUGIN_DIR="]
                  false
                :: rest))
      ∧ (p.PluginType ≠ PLUGIN_PERSIST →
          ∀ c ps t pe q,
            Event.syncRun c ps t pe q ∉ (RemovePlugin K dir env persisted pluginName).trace) := by
  have hfound := removePlugin_found K dir env persisted pluginName idx p hload hfind
  refine ⟨?_, ?_⟩
  · intro hp
    refine ⟨?_, ?_, ?_⟩
    · intro s
      have hs := removePlugin_found K dir { env with stop := s } persisted pluginName idx p
        hload hfind
      rw [hs, hfound]
      have hu : uninstallRun K dir { env with stop := s } p = uninstallRun K dir env p := rfl
      simp only [hp, if_true, hu]
      by_cases hu2 : (uninstallRun K dir env p).1 ≠ 0 ∨ (uninstallRun K dir env p).2.1 ≠ none
      · simp only [hu2, if_true, and_self]
      · simp only [hu2, if_false]
        simp only [removeTail]
        cases hd : env.dumpErr with
        | some x => simp
        | none =>
          cases hr : env.removeAllErr with
          | some y => simp
          | none => simp
    · intro hu
      rw [hfound, if_pos hp, if_pos hu]
      exact ⟨rfl, rfl, rfl, stop_uninstall_no_dump K dir env p⟩
    · intro h1 h2
      rw [hfound]
      simp only [hp, if_true]
      by_cases hu : (uninstallRun K dir env p).1 ≠ 0 ∨ (uninstallRun K dir env p).2.1 ≠ none
      · simp only [hu, if_true]
        exact ⟨[], by simp [stopRun, uninstallRun, executePlugin, h1, h2]⟩
      · simp only [hu, if_false, removeTail]
        cases hd : env.dumpErr with
        | some x => exact ⟨_, by simp [stopRun, uninstallRun, executePlugin, h1, h2]; rfl⟩
        | none =>
          cases hr : env.removeAllErr with
          | some y => exact ⟨_, by simp [stopRun, uninstallRun, executePlugin, h1, h2]; rfl⟩
          | none => exact ⟨_, by simp [stopRun, uninstallRun, executePlugin, h1, h2]; rfl⟩
  · intro hp c ps t pe q hmem
    rw [hfound] at hmem
    simp only [hp, if_false] at hmem
    rcases (removeTail_spec K dir env persisted idx p 0 []).2.2.2 _ hmem with
      h | ⟨l, h⟩ | ⟨n, v, s, h⟩ | ⟨path, h⟩
    · simp at h
    · exact Event.noConfusion h
    · exact Event.noConfusion h
    · exact Event.noConfusion h

/-- Witness of C9: a Persist plugin whose `--uninstall` run exits with 3. -/
theorem removePlugin_persist_uninstall_witness :
    (RemovePlugin sampleConsts "/plugins"
        { uninstall := { exitCode := 3, err := some "exit status 3" } }
        [{ Name := "A", Version := "1", RunPath := "run.sh",
           PluginType_ := JsonAny.str "Persist" }] "A").exitCode
      = (uninstallRun sampleConsts "/plugins"
          { uninstall := { exitCode := 3, err := some "exit status 3" } }
          { Name := "A", Version := "1", RunPath := "run.sh",
            PluginType_ := JsonAny.str "Persist" }).1 :=
  (((removePlugin_persist_uninstall sampleConsts "/plugins"
      { uninstall := { exitCode := 3, err := some "exit status 3" } }
      [{ Name := "A", Version := "1", RunPath := "run.sh",
         PluginType_ := JsonAny.str "Persist" }] "A" 0
      { Name := "A", Version := "1", RunPath := "run.sh", PluginType_ := JsonAny.str "Persist" }
      rfl (by decide)).1 (by decide)).2.1 (Or.inl (by decide))).1

/-- C10: when `RemovePlugin(name)` succeeds (exit code 0 and nil error), the
persisted list is the loaded list with isRemoved set on the first record that
is named so and not removed: same length, that record otherwise unchanged,
every other position unchanged, and that list is the one dumped. Whatever the
status report does, it changes neither the returned exit code nor the returned
error nor the persisted list. -/
theorem removePlugin_success_frame (K : Consts) (dir : String) (env : RemoveEnv)
    (persisted : List PluginInfo) (pluginName : String) :
    ((RemovePlugin K dir env persisted pluginName).exitCode = 0 →
        (RemovePlugin K dir env persisted pluginName).err = none →
        ∃ idx p, persisted[idx]? = some p ∧ isLive pluginName p
          ∧ (∀ (j : Nat) (q : PluginInfo), j < idx → persisted[j]? = some q →
              ¬ isLive pluginName q)
          ∧ (RemovePlugin K dir env persisted pluginName).persisted
              = persisted.set idx { p with IsRemoved := true }
          ∧ (RemovePlugin K dir env persisted pluginName).persisted.length = persisted.length
          ∧ (RemovePlugin K dir env persisted pluginName).persisted[idx]?
              = some { p with IsRemoved := true }
          ∧ (∀ j, j ≠ idx →
              (RemovePlugin K dir env persisted pluginName).persisted[j]? = persisted[j]?)
          ∧ Event.dump (RemovePlugin K dir env persisted pluginName).persisted
              ∈ (RemovePlugin K dir env persisted pluginName).trace)
      ∧ (∀ rep : ReportEnv,
          (RemovePlugin K dir { env with report := rep } persisted pluginName).exitCode
              = (RemovePlugin K dir env persisted pluginName).exitCode
            ∧ (RemovePlugin K dir { env with report := rep } persisted pluginName).err
              = (RemovePlugin K dir env persisted pluginName).err
            ∧ (RemovePlugin K dir { env with report := rep } persisted pluginName).persisted
              = (RemovePlugin K dir env persisted pluginName).persisted) := by
  constructor
  · intro hc he
    cases hload : env.loadErr with
    | some x => simp [RemovePlugin, hload] at he
    | none =>
      cases hf : findNotRemoved pluginName persisted with
      | none =>
        rw [removePlugin_missing K dir env persisted pluginName hload hf] at he
        simp at he
      | some r =>
        obtain ⟨idx, p⟩ := r
        obtain ⟨hget, hlive, hfirst⟩ := findNotRemoved_some pluginName persisted idx p hf
        have hlt : idx < persisted.length := by
          by_contra hge
          rw [List.getElem?_eq_none (by omega)] at hget
          exact Option.noConfusion hget
        have key : (RemovePlugin K dir env persisted pluginName).persisted
              = persisted.set idx { p with IsRemoved := true }
            ∧ Event.dump (persisted.set idx { p with IsRemoved := true })
              ∈ (RemovePlugin K dir env persisted pluginName).trace := by
          rw [removePlugin_found K dir env persisted pluginName idx p hload hf] at hc he ⊢
          by_cases hp : p.PluginType = PLUGIN_PERSIST
          · simp only [hp, if_true] at hc he ⊢
            by_cases hu : (uninstallRun K dir env p).1 ≠ 0 ∨ (uninstallRun K dir env p).2.1 ≠ none
            · simp only [hu, if_true] at hc he
              rcases hu with hu | hu
              · exact absurd hc hu
              · exact absurd he hu
            · simp only [hu, if_false] at he ⊢
              exact ⟨((removeTail_spec K dir env persisted idx p _ _).2.1 he).1,
                (removeTail_spec K dir env persisted idx p _ _).1⟩
          · simp only [hp, if_false] at he ⊢
            exact ⟨((removeTail_spec K dir env persisted idx p _ _).2.1 he).1,
              (removeTail_spec K dir env persisted idx p _ _).1⟩
        refine ⟨idx, p, hget, hlive, hfirst, key.1, ?_, ?_, ?_, ?_⟩
        · rw [key.1]; simp
        · rw [key.1]; simp [hlt]
        · intro j hj
          rw [key.1]
          exact List.getElem?_set_ne (Ne.symm hj)
        · rw [key.1]; exact key.2
  · intro rep
    rcases Option.eq_none_or_eq_some env.loadErr with hload | ⟨x, hload⟩
    · cases hf : findNotRemoved pluginName persisted with
      | none =>
        rw [removePlugin_missing K dir env persisted pluginName hload hf,
          removePlugin_missing K dir { env with report := rep } persisted pluginName hload hf]
        exact ⟨rfl, rfl, rfl⟩
      | some r =>
        obtain ⟨idx, p⟩ := r
        rw [removePlugin_found K dir env persisted pluginName idx p hload hf,
          removePlugin_found K dir { env with report := rep } persisted pluginName idx p hload hf]
        have hu : uninstallRun K dir { env with report := rep } p = uninstallRun K dir env p := rfl
        have hs : stopRun K dir { env with report := rep } p = stopRun K dir env p := rfl
        rw [hu, hs]
        by_cases hp : p.PluginType = PLUGIN_PERSIST
        · simp only [hp, if_true]
          by_cases hu2 : (uninstallRun K dir env p).1 ≠ 0 ∨ (uninstallRun K dir env p).2.1 ≠ none
          · simp only [hu2, if_true, and_self]
          · simp only [hu2, if_false]
            exact (removeTail_spec K dir env persisted idx p _ _).2.2.1 rep
        · simp only [hp, if_false]
          exact (removeTail_spec K dir env persisted idx p _ _).2.2.1 rep
    · simp [RemovePlugin, hload]

/-- Witness of C10: removing B from a list of three records while the status
report fails on every attempt. -/
theorem removePlugin_success_frame_witness :
    ∃ idx p, [({ Name := "A" } : PluginInfo), { Name := "B", IsRemoved := true },
          { Name := "B", Version := "2" }][idx]? = some p
      ∧ (RemovePlugin sampleConsts "/plugins"
          { report := { posts := fun _ => some "unreachable" } }
          [{ Name := "A" }, { Name := "B", IsRemoved := true }, { Name := "B", Version := "2" }]
          "B").persisted
        = [({ Name := "A" } : PluginInfo), { Name := "B", IsRemoved := true },
            { Name := "B", Version := "2" }].set idx { p with IsRemoved := true } := by
  obtain ⟨idx, p, h1, _, _, h4, _⟩ :=
    (removePlugin_success_frame sampleConsts "/plugins"
      { report := { posts := fun _ => some "unreachable" } }
      [{ Name := "A" }, { Name := "B", IsRemoved := true }, { Name := "B", Version := "2" }]
      "B").1 (by decide) (by decide)
  exact ⟨idx, p, h1, h4⟩

/-! ## Theorems: session client -/

theorem openPoison_closed (p : ChanState) :
    openPoison p = Go.ret (committedSuicide, ChanState.isClosed) := by
  cases p <;> rfl

theorem openPoisonMany_closed (n : Nat) :
    openPoisonMany n ChanState.isClosed
      = Go.ret (List.replicate n committedSuicide, ChanState.isClosed) := by
  induction n with
  | zero => rfl
  | succ k ih => simp [openPoisonMany, openPoison_closed, ih, List.replicate_succ]

/-- C6: `openPoison` may be called any number of times on the same poison
channel, open or already closed at the first call: no call panics, every call
returns `committedSuicide`, the first call leaves the channel closed and every
later call leaves it closed. -/
theorem openPoison_close_once (n : Nat) (p : ChanState) :
    openPoisonMany (n + 1) p
        = Go.ret (List.replicate (n + 1) committedSuicide, ChanState.isClosed)
      ∧ openPoison p = Go.ret (committedSuicide, ChanState.isClosed)
      ∧ die ChanState.isClosed = some killed := by
  refine ⟨?_, openPoison_closed p, rfl⟩
  simp [openPoisonMany, openPoison_closed, openPoisonMany_closed, List.replicate_succ]

theorem readLoopSuicide_eq (c : Client) (output : List (List Byte)) :
    readLoopSuicide c output
      = ⟨{ c with poison := ChanState.isClosed }, output, Go.ret (some committedSuicide)⟩ := by
  simp [readLoopSuicide, openPoison_closed]

theorem processStatus_fatal (b : Byte) (rest : List Byte) (h : b = 2 ∨ b = 5) :
    ∃ e w, ProcessStatusDataChannel (b :: rest) = Go.ret (some e, w) := by
  have h52 : ((5 : Byte).val : Int) ≠ 2 := by decide
  have h55 : ((5 : Byte).val : Int) = 5 := by decide
  rcases h with h | h <;> subst h
  · exact ⟨"Failed to connect. code 2", [2 :: rest],
      by simp [ProcessStatusDataChannel, bytesToIntU]⟩
  · exact ⟨"Connection closed. code 5", [sessionClosed],
      by simp [ProcessStatusDataChannel, bytesToIntU, h52, h55]⟩

theorem processStatus_keepalive (rest : List Byte) :
    ProcessStatusDataChannel ((3 : Byte) :: rest) = Go.ret (none, []) := by
  have h32 : ((3 : Byte).val : Int) ≠ 2 := by decide
  have h35 : ((3 : Byte).val : Int) ≠ 5 := by decide
  simp [ProcessStatusDataChannel, bytesToIntU, h32, h35]

theorem readLoop_fatal (validate : Message → GoError) (c : Client) (out : List (List Byte))
    (m : Message) (evs : List ReadEvent) (b : Byte) (rest : List Byte)
    (hk : m.MessageType = MessageKind.StatusDataChannel) (hv : validate m = none)
    (hp : m.Payload = b :: rest) (hb : b = 2 ∨ b = 5) :
    (readLoop validate c out (ReadEvent.received ⟨m, none⟩ :: evs)).client.poison
        = ChanState.isClosed
      ∧ (readLoop validate c out (ReadEvent.received ⟨m, none⟩ :: evs)).ended
        = Go.ret (some committedSuicide) := by
  obtain ⟨e, w, hw⟩ := processStatus_fatal b rest hb
  simp [readLoop, hk, hv, hp, hw, readLoopSuicide_eq]

/-- C5: for a status frame that arrives without read error and passes
validation, a payload whose first byte is 2 or 5 makes
`ProcessStatusDataChannel` return a non-nil error and `readLoop` close poison
and return; a payload whose first byte is 3 makes it return nil, and
`readLoop` goes on with the next round, client and output unchanged. -/
theorem status_fatal_or_keepalive (validate : Message → GoError) (c : Client)
    (out : List (List Byte)) (m : Message) (evs : List ReadEvent) (rest : List Byte)
    (hk : m.MessageType = MessageKind.StatusDataChannel) (hv : validate m = none) :
    (∀ b : Byte, (b = 2 ∨ b = 5) → m.Payload = b :: rest →
        (∃ e w, ProcessStatusDataChannel m.Payload = Go.ret (some e, w))
        ∧ (readLoop validate c out (ReadEvent.received ⟨m, none⟩ :: evs)).client.poison
            = ChanState.isClosed
        ∧ (readLoop validate c out (ReadEvent.received ⟨m, none⟩ :: evs)).ended
            = Go.ret (some committedSuicide))
      ∧ (m.Payload = (3 : Byte) :: rest →
        ProcessStatusDataChannel m.Payload = Go.ret (none, [])
        ∧ readLoop validate c out (ReadEvent.received ⟨m, none⟩ :: evs)
            = readLoop validate c out evs) := by
  constructor
  · intro b hb hp
    refine ⟨?_, readLoop_fatal validate c out m evs b rest hk hv hp hb⟩
    rw [hp]
    exact processStatus_fatal b rest hb
  · intro hp
    have h3 := processStatus_keepalive rest
    refine ⟨by rw [hp]; exact h3, ?_⟩
    simp [readLoop, hk, hv, hp, h3]

/-- Witness of C5 on the frames with payloads [2] and [3]. -/
theorem status_fatal_or_keepalive_witness :
    (readLoop (fun _ => none) (NewClient false false false) []
        [ReadEvent.received ⟨statusFrame [2], none⟩]).client.poison = ChanState.isClosed
      ∧ readLoop (fun _ => none) (NewClient false false false) []
          [ReadEvent.received ⟨statusFrame [3], none⟩]
        = readLoop (fun _ => none) (NewClient false false false) [] [] :=
  ⟨((status_fatal_or_keepalive (fun _ => none) (NewClient false false false) []
      (statusFrame [2]) [] [] rfl rfl).1 2 (Or.inl rfl) rfl).2.1,
    ((status_fatal_or_keepalive (fun _ => none) (NewClient false false false) []
      (statusFrame [3]) [] [] rfl rfl).2 rfl).2⟩

theorem sendMessage_spec (c c1 : Client) (input : List Byte) (w : WriteOutcome) (e : GoError)
    (wrote : Bool) (h : sendMessage c input w = some (c1, e, wrote)) :
    c1.StreamDataSequenceNumber = c.StreamDataSequenceNumber
      ∧ (wrote = true → e = none ∧ c1 = c ∧ c.writeLocked = false)
      ∧ (c.writeLocked = true → c1 = c ∧ e ≠ none)
      ∧ (wrote = false → e = none → c1.writeLocked = true) := by
  unfold sendMessage at h
  split at h
  · simp only [Option.some.injEq, Prod.mk.injEq] at h
    obtain ⟨rfl, rfl, rfl⟩ := h
    simp
  · split at h
    · exact absurd h (by simp)
    · rename_i hl
      cases w <;> simp only [Option.some.injEq, Prod.mk.injEq] at h <;>
        obtain ⟨rfl, rfl, rfl⟩ := h <;> simp_all

theorem sendFrame_spec (serialize : Message → Except String (List Byte)) (d : Bool)
    (env : SendEnv) (c : Client) (msg : Message) (r : SendResult)
    (h : sendFrame serialize d env c msg = some r) :
    (∀ m, r.sent = some m →
        m = msg ∧ r.err = none
          ∧ r.client.StreamDataSequenceNumber = c.StreamDataSequenceNumber + 1)
      ∧ (r.err ≠ none → r.sent = none
          ∧ r.client.StreamDataSequenceNumber = c.StreamDataSequenceNumber)
      ∧ (r.sent = none →
          r.client.StreamDataSequenceNumber = c.StreamDataSequenceNumber
            ∨ r.client.writeLocked = true)
      ∧ (c.writeLocked = true → r.sent = none ∧ r.client.writeLocked = true) := by
  unfold sendFrame at h
  split at h
  · simp only [Option.some.injEq] at h
    subst h
    simp
  · split at h
    · exact absurd h (by simp)
    · rename_i c1 e w hs
      have hsp := sendMessage_spec _ _ _ _ _ _ hs
      simp only [Option.some.injEq] at h
      subst h
      refine ⟨by simp, ?_, ?_, ?_⟩
      · intro _
        refine ⟨rfl, ?_⟩
        split <;> simp [hsp.1]
      · intro _
        left
        split <;> simp [hsp.1]
      · intro hl
        have h3 := (hsp.2.2.1 hl).1
        subst h3
        refine ⟨rfl, ?_⟩
        split <;> simp [hl]
    · rename_i c1 wrote hs
      have hsp := sendMessage_spec _ _ _ _ _ _ hs
      simp only [Option.some.injEq] at h
      subst h
      refine ⟨?_, by simp, ?_, ?_⟩
      · intro m hm
        cases wrote
        · simp at hm
        · simp only [if_true, Option.some.injEq] at hm
          exact ⟨hm.symm, rfl, by simp [hsp.1]⟩
      · intro hn
        cases wrote
        · right
          exact hsp.2.2.2 rfl rfl
        · simp at hn
      · intro hl
        exact absurd rfl (hsp.2.2.1 hl).2

theorem sendCall_spec (serialize : Message → Except String (List Byte)) (c : Client)
    (call : SendCall) (r : SendResult) (h : call.run serialize c = some r) :
    (∀ m, r.sent = some m →
        m.SequenceNumber = c.StreamDataSequenceNumber ∧ r.err = none
          ∧ r.client.StreamDataSequenceNumber = c.StreamDataSequenceNumber + 1)
      ∧ (r.err ≠ none ∨ call.payload = [] →
          r.sent = none ∧ r.client.StreamDataSequenceNumber = c.StreamDataSequenceNumber)
      ∧ (r.sent = none →
          r.client.StreamDataSequenceNumber = c.StreamDataSequenceNumber
            ∨ r.client.writeLocked = true)
      ∧ (c.writeLocked = true → r.sent = none ∧ r.client.writeLocked = true) := by
  cases call with
  | stream env d =>
    simp only [SendCall.run, SendStreamDataMessage] at h
    split at h
    · simp only [Option.some.injEq] at h
      subst h
      simp
    · rename_i hd
      have hs := sendFrame_spec _ _ _ _ _ _ h
      refine ⟨?_, ?_, hs.2.2.1, hs.2.2.2⟩
      · intro m hm
        obtain ⟨h1, h2, h3⟩ := hs.1 m hm
        exact ⟨by rw [h1]; rfl, h2, h3⟩
      · rintro (he | he)
        · exact hs.2.1 he
        · exact absurd (by simp [SendCall.payload] at he; simp [he]) hd
  | resize env d =>
    simp only [SendCall.run, SendResizeDataMessage] at h
    split at h
    · simp only [Option.some.injEq] at h
      subst h
      simp
    · rename_i hd
      have hs := sendFrame_spec _ _ _ _ _ _ h
      refine ⟨?_, ?_, hs.2.2.1, hs.2.2.2⟩
      · intro m hm
        obtain ⟨h1, h2, h3⟩ := hs.1 m hm
        exact ⟨by rw [h1]; rfl, h2, h3⟩
      · rintro (he | he)
        · exact hs.2.1 he
        · exact absurd (by simp [SendCall.payload] at he; simp [he]) hd
  | close env =>
    simp only [SendCall.run, SendCloseMessage] at h
    have hs := sendFrame_spec _ _ _ _ _ _ h
    refine ⟨?_, ?_, hs.2.2.1, hs.2.2.2⟩
    · intro m hm
      obtain ⟨h1, h2, h3⟩ := hs.1 m hm
      exact ⟨by rw [h1]; rfl, h2, h3⟩
    · rintro (he | he)
      · exact hs.2.1 he
      · simp [SendCall.payload, closePayload] at he

theorem runSends_locked (serialize : Message → Except String (List Byte))
    (calls : List SendCall) :
    ∀ c : Client, c.writeLocked = true → (runSends serialize c calls).2 = [] := by
  induction calls with
  | nil => intro c _; rfl
  | cons call rest ih =>
    intro c hl
    simp only [runSends]
    split
    · rfl
    · rename_i r hr
      obtain ⟨h1, h2⟩ := (sendCall_spec serialize c call r hr).2.2.2 hl
      simp [h1, ih r.client h2]

theorem runSends_numbers (serialize : Message → Except String (List Byte))
    (calls : List SendCall) :
    ∀ (c : Client) (n : Nat) (m : Message), (runSends serialize c calls).2[n]? = some m →
      m.SequenceNumber = c.StreamDataSequenceNumber + n := by
  induction calls with
  | nil => intro c n m h; simp [runSends] at h
  | cons call rest ih =>
    intro c n m h
    simp only [runSends] at h
    split at h
    · simp at h
    · rename_i r hr
      have hs := sendCall_spec serialize c call r hr
      cases hsent : r.sent with
      | none =>
        simp only [hsent, Option.toList, List.nil_append] at h
        rcases hs.2.2.1 hsent with h1 | h1
        · rw [← h1]
          exact ih r.client n m h
        · rw [runSends_locked serialize rest r.client h1] at h
          simp at h
      | some f =>
        simp only [hsent, Option.toList, List.singleton_append] at h
        obtain ⟨h1, _, h3⟩ := hs.1 f hsent
        cases n with
        | zero =>
          simp only [List.getElem?_cons_zero, Option.some.injEq] at h
          subst h
          simp [h1]
        | succ k =>
          simp only [List.getElem?_cons_succ] at h
          have := ih r.client k m h
          rw [this, h3]
          push_cast
          ring

/-- C7, as stated, fails: for a shell client (not port-forward) in raw mode
that is connected, the status frame with payload [0x02] makes `readLoop` close
poison, and `Loop` then does not return to its caller: its deferred function
ends the process with exit status 1. -/
theorem loop_shell_does_not_return :
    (readLoop (fun _ => none) { NewClient false true false with Connected := true } []
        [ReadEvent.received ⟨statusFrame [2], none⟩]).client.poison = ChanState.isClosed
      ∧ (Loop {} { NewClient false true false with Connected := true }
          ChanState.isClosed).1 = LoopEnd.exited 1
      ∧ (Loop {} { NewClient false true false with Connected := true }
          ChanState.isClosed).1 ≠ LoopEnd.returned none := by
  decide

/-- C7, amended: when the peer sends a valid status frame with payload [0x02],
`readLoop` closes poison; `Loop`, once connected and with the terminal set up,
then restores the terminal in non-raw mode (in raw mode it never touched it)
and, in port-forward mode, returns nil to its caller, while in shell mode its
deferred function ends the process with exit status 1 instead of returning. -/
theorem loop_after_fatal_status (validate : Message → GoError) (env : LoopEnv) (c : Client)
    (m : Message) (evs : List ReadEvent)
    (hk : m.MessageType = MessageKind.StatusDataChannel) (hv : validate m = none)
    (hp : m.Payload = [2])
    (hconn : c.Connected = true ∨ env.connectErr = none)
    (hterm : c.rawmode = false → env.darwin = false →
      env.consoleErr = none ∧ env.setRawErr = none) :
    (readLoop validate c [] (ReadEvent.received ⟨m, none⟩ :: evs)).client.poison
        = ChanState.isClosed
      ∧ (Loop env c (readLoop validate c [] (ReadEvent.received ⟨m, none⟩ :: evs)).client.poison).1
        = (if c.PortForward then LoopEnd.returned none else LoopEnd.exited 1)
      ∧ (c.rawmode = false →
          (Loop env c ChanState.isClosed).2.getLast? = some LoopEvent.restoreTerminal)
      ∧ (c.rawmode = true → (Loop env c ChanState.isClosed).2 = [LoopEvent.startLoops]) := by
  have hclosed := (readLoop_fatal validate c [] m evs 2 [] hk hv hp (Or.inl rfl)).1
  have hfirst : ¬ (c.Connected = false ∧ ¬ env.connectErr = none) := by
    rintro ⟨h1, h2⟩
    rcases hconn with h | h
    · rw [h1] at h; exact Bool.noConfusion h
    · exact h2 h
  refine ⟨hclosed, ?_, ?_, ?_⟩
  · rw [hclosed]
    cases hr : c.rawmode
    · cases hd : env.darwin
      · obtain ⟨h1, h2⟩ := hterm hr hd
        cases hpf : c.PortForward <;> simp [Loop, loopDeferred, hfirst, hr, hd, h1, h2, hpf]
      · cases hpf : c.PortForward <;> simp [Loop, loopDeferred, hfirst, hr, hd, hpf]
    · cases hpf : c.PortForward <;> simp [Loop, loopDeferred, hfirst, hr, hpf]
  · intro hr
    cases hd : env.darwin
    · obtain ⟨h1, h2⟩ := hterm hr hd
      cases hpf : c.PortForward <;> simp [Loop, loopDeferred, hfirst, hr, hd, h1, h2, hpf]
    · cases hpf : c.PortForward <;> simp [Loop, loopDeferred, hfirst, hr, hd, hpf]
  · intro hr
    cases hpf : c.PortForward <;> simp [Loop, loopDeferred, hfirst, hr, hpf]

/-- Witness of the amended C7 on a connected port-forward client in non-raw mode. -/
theorem loop_after_fatal_status_witness :
    (Loop {} { NewClient true false false with Connected := true }
        (readLoop (fun _ => none) { NewClient true false false with Connected := true } []
          [ReadEvent.received ⟨statusFrame [2], none⟩]).client.poison).1
      = (if ({ NewClient true false false with Connected := true } : Client).PortForward
          then LoopEnd.returned none else LoopEnd.exited 1) :=
  (loop_after_fatal_status (fun _ => none) {}
    { NewClient true false false with Connected := true } (statusFrame [2]) [] rfl rfl rfl
    (Or.inl rfl) (fun _ _ => ⟨rfl, rfl⟩)).2.1

/-! ## Theorems: plugin type, executePlugin, ReportPluginStatus -/

/-- C11, as stated, fails: a `pluginType` field that is JSON null, a value of
a JSON type other than string and number, is stored as `nil` like an absent
field, and `PluginType` returns Once for it, not Unknown. -/
theorem pluginType_null_is_once :
    (configWithType (sampleConfig "A" "1") (some JsonValue.null)).PluginType.1 = PLUGIN_ONCE
      ∧ PLUGIN_ONCE ≠ PLUGIN_UNKNOWN := by
  decide

/-- C11, amended: `pluginConfig.PluginType` returns Once when the JSON
pluginType field is the string "Once" or the number 1, or is absent or null;
Persist when it is the string "Persist" or the number 2; Unknown for every
other value (any other string, any other number, a boolean, an array or an
object); and calling it again returns the same result and leaves the config
as the first call left it. -/
theorem pluginType_of_json (pc : pluginConfig) (field : Option JsonValue) :
    ((field = some (JsonValue.string "Once") ∨ field = some (JsonValue.number 1)
          ∨ field = none ∨ field = some JsonValue.null) →
        (configWithType pc field).PluginType.1 = PLUGIN_ONCE)
      ∧ ((field = some (JsonValue.string "Persist") ∨ field = some (JsonValue.number 2)) →
        (configWithType pc field).PluginType.1 = PLUGIN_PERSIST)
      ∧ (((∃ s, field = some (JsonValue.string s) ∧ s ≠ "Once" ∧ s ≠ "Persist")
          ∨ (∃ q, field = some (JsonValue.number q) ∧ q ≠ 1 ∧ q ≠ 2)
          ∨ (∃ b, field = some (JsonValue.bool b))
          ∨ field = some JsonValue.array ∨ field = some JsonValue.object) →
        (configWithType pc field).PluginType.1 = PLUGIN_UNKNOWN)
      ∧ (configWithType pc field).PluginType.2.PluginType
        = (configWithType pc field).PluginType := by
  have hne : ∀ j : JsonAny, decodePluginType j ≠ "" := by
    intro j
    cases j <;> simp only [decodePluginType] <;> repeat' split
    all_goals decide
  refine ⟨?_, ?_, ?_, ?_⟩
  · rintro (h | h | h | h) <;> subst h <;>
      simp [configWithType, pluginConfig.PluginType, unmarshalAny, decodePluginType,
        PLUGIN_ONCE, PLUGIN_ONCE_INT]
  · rintro (h | h) <;> subst h <;>
      simp [configWithType, pluginConfig.PluginType, unmarshalAny, decodePluginType,
        PLUGIN_ONCE, PLUGIN_PERSIST, PLUGIN_ONCE_INT, PLUGIN_PERSIST_INT]
  · rintro (⟨s, h, h1, h2⟩ | ⟨q, h, h1, h2⟩ | ⟨b, h⟩ | h | h)
    · subst h
      simp [configWithType, pluginConfig.PluginType, unmarshalAny, decodePluginType,
        PLUGIN_ONCE, PLUGIN_PERSIST, h1, h2]
    · subst h
      simp [configWithType, pluginConfig.PluginType, unmarshalAny, decodePluginType,
        PLUGIN_ONCE, PLUGIN_ONCE_INT, PLUGIN_PERSIST_INT, h1, h2]
    · subst h
      simp [configWithType, pluginConfig.PluginType, unmarshalAny, decodePluginType,
        PLUGIN_ONCE]
    · subst h
      simp [configWithType, pluginConfig.PluginType, unmarshalAny, decodePluginType,
        PLUGIN_ONCE]
    · subst h
      simp [configWithType, pluginConfig.PluginType, unmarshalAny, decodePluginType,
        PLUGIN_ONCE]
  · have h := hne (unmarshalAny field)
    simp [configWithType, pluginConfig.PluginType, h]

/-- C19: `executePlugin` returns `EXECUTE_FAILED` when the process runner
reports status Fail, `EXECUTE_TIMEOUT` when it reports Timeout and the exit
code of the child unchanged when it reports Success, in each case with the
error of the runner and after one run; when the command file does not exist
it returns `PLUGIN_FORMAT_ERR` with a non-nil error and runs nothing. -/
theorem executePlugin_classification (K : Consts) (cmdPath : String) (ps : List String)
    (t : Int) (penv : List String) (quiet : Bool) (code : Int) (e : GoError) (o : RunOutcome) :
    executePlugin K { cmdExists := true, exitCode := code, status := ProcStatus.Fail, err := e }
          cmdPath ps t penv quiet
        = (K.EXECUTE_FAILED, e, [Event.syncRun cmdPath ps t penv quiet])
      ∧ executePlugin K
          { cmdExists := true, exitCode := code, status := ProcStatus.Timeout, err := e }
          cmdPath ps t penv quiet
        = (K.EXECUTE_TIMEOUT, e, [Event.syncRun cmdPath ps t penv quiet])
      ∧ executePlugin K
          { cmdExists := true, exitCode := code, status := ProcStatus.Success, err := e }
          cmdPath ps t penv quiet
        = (code, e, [Event.syncRun cmdPath ps t penv quiet])
      ∧ (executePlugin K { o with cmdExists := false } cmdPath ps t penv quiet).1
        = K.PLUGIN_FORMAT_ERR
      ∧ (executePlugin K { o with cmdExists := false } cmdPath ps t penv quiet).2.1 ≠ none
      ∧ (executePlugin K { o with cmdExists := false } cmdPath ps t penv quiet).2.2 = [] := by
  simp [executePlugin]

theorem cut_spec (s : String) (n : Nat) :
    (s.length ≤ n → (if s.length > n then stringsPrefixTo s n else s) = s)
      ∧ (s.length > n →
          (if s.length > n then stringsPrefixTo s n else s).toList = s.toList.take n)
      ∧ (if s.length > n then stringsPrefixTo s n else s).length ≤ n
      ∧ ∃ rest, s.toList = (if s.length > n then stringsPrefixTo s n else s).toList ++ rest := by
  by_cases h : s.length > n
  · rw [if_pos h]
    refine ⟨fun h2 => absurd h (by omega), fun _ => rfl, ?_, ?_⟩
    · show (s.toList.take n).length ≤ n
      simp
    · exact ⟨s.toList.drop n, (List.take_append_drop n s.toList).symm⟩
  · rw [if_neg h]
    exact ⟨fun _ => rfl, fun h2 => absurd h2 h, by omega, ⟨[], by simp⟩⟩

/-- C20: every post `ReportPluginStatus` makes carries the status string
unchanged, a name that is the input name when that is at most
`PLUGIN_NAME_MAXLEN` long and its first `PLUGIN_NAME_MAXLEN` bytes otherwise,
and a version cut likewise at `PLUGIN_VERSION_MAXLEN`; so the reported name
and version are prefixes of the inputs no longer than the maxima. When the
body marshals, at least one post is made. -/
theorem report_truncation (K : Consts) (env : ReportEnv) (name version status : String) :
    (env.marshalErr = none → (ReportPluginStatus K env name version status).2 ≠ [])
      ∧ ∀ e ∈ (ReportPluginStatus K env name version status).2,
          ∃ n1 v1, e = Event.httpPostStatus n1 v1 status
            ∧ (name.length ≤ K.PLUGIN_NAME_MAXLEN → n1 = name)
            ∧ (name.length > K.PLUGIN_NAME_MAXLEN →
                n1.toList = name.toList.take K.PLUGIN_NAME_MAXLEN)
            ∧ n1.length ≤ K.PLUGIN_NAME_MAXLEN
            ∧ (∃ rest, name.toList = n1.toList ++ rest)
            ∧ (version.length ≤ K.PLUGIN_VERSION_MAXLEN → v1 = version)
            ∧ (version.length > K.PLUGIN_VERSION_MAXLEN →
                v1.toList = version.toList.take K.PLUGIN_VERSION_MAXLEN)
            ∧ v1.length ≤ K.PLUGIN_VERSION_MAXLEN
            ∧ (∃ rest, version.toList = v1.toList ++ rest) := by
  constructor
  · intro hm
    simp [ReportPluginStatus, hm]
  · intro e he
    obtain ⟨a1, a2, a3, a4⟩ := cut_spec name K.PLUGIN_NAME_MAXLEN
    obtain ⟨b1, b2, b3, b4⟩ := cut_spec version K.PLUGIN_VERSION_MAXLEN
    refine ⟨_, _, ?_, a1, a2, a3, a4, b1, b2, b3, b4⟩
    unfold ReportPluginStatus at he
    cases hm : env.marshalErr with
    | some x => simp [hm] at he
    | none =>
      simp only [hm, List.mem_cons] at he
      rcases he with he | he
      · exact he
      · exact retryWhileErr_events _ _ _ _ _ e he

/-! ## Theorems: ShowPluginStatus -/

theorem showStatusLoop_spec (K : Consts) (dir : String) (runs : Nat → RunOutcome)
    (l : List PluginInfo) :
    ∀ (i : Nat) (acc : List PluginStatus) (tr : List Event),
      showStatusLoop K dir runs i l acc tr
        = (acc ++ (l.enumFrom i).filterMap (statusEntry K dir runs),
            tr ++ (l.enumFrom i).flatMap (statusRuns K dir runs)) := by
  induction l with
  | nil => intro i acc tr; simp [showStatusLoop]
  | cons p rest ih =>
    intro i acc tr
    simp only [showStatusLoop, List.enumFrom_cons, List.filterMap_cons, List.flatMap_cons]
    by_cases hp : p.PluginType = PLUGIN_PERSIST
    · by_cases hr : p.IsRemoved = true
      · simp [hp, hr, ih, statusEntry, statusRuns]
      · have hr2 : p.IsRemoved = false := by simpa using hr
        simp [hp, hr2, ih, statusEntry, statusRuns]
    · simp [hp, ih, statusEntry, statusRuns]

theorem statusEntry_count (K : Consts) (dir : String) (runs : Nat → RunOutcome)
    (l : List PluginInfo) :
    ∀ i : Nat, ((l.enumFrom i).filterMap (statusEntry K dir runs)).length
      = (l.filter (fun p => decide (p.PluginType = PLUGIN_PERSIST))).length := by
  induction l with
  | nil => intro i; simp
  | cons p rest ih =>
    intro i
    simp only [List.enumFrom_cons, List.filterMap_cons, List.filter_cons]
    by_cases hp : p.PluginType = PLUGIN_PERSIST
    · simp [statusEntry, hp, ih]
    · simp [statusEntry, hp, ih]

/-- C18: when the registry loads, the status list of `ShowPluginStatus` holds,
in registry order, exactly the entries the spec gives record by record: one
for each record of type Persist and none for any other record, REMOVED for a
soft-deleted record, PERSIST_RUNNING when the `--status` run returns exit code
0 and no error, PERSIST_FAIL in every other case; and the runs made are, in
the same order, those of the Persist records that are not soft-deleted, so a
soft-deleted plugin is not run. -/
theorem showPluginStatus_entries (K : Consts) (dir : String) (env : ShowEnv)
    (persisted : List PluginInfo) (hload : env.loadErr = none) :
    (ShowPluginStatus K dir env persisted).statusList
        = persisted.enum.filterMap (statusEntry K dir env.runs)
      ∧ (ShowPluginStatus K dir env persisted).trace
        = persisted.enum.flatMap (statusRuns K dir env.runs)
      ∧ (ShowPluginStatus K dir env persisted).statusList.length
        = (persisted.filter (fun p => decide (p.PluginType = PLUGIN_PERSIST))).length := by
  have hloop := showStatusLoop_spec K dir env.runs persisted 0 [] []
  have hlist : (ShowPluginStatus K dir env persisted).statusList
      = persisted.enum.filterMap (statusEntry K dir env.runs) := by
    simp [ShowPluginStatus, hload, hloop, List.enum]
  refine ⟨hlist, by simp [ShowPluginStatus, hload, hloop, List.enum], ?_⟩
  rw [hlist, List.enum]
  exact statusEntry_count K dir env.runs persisted 0

/-- Witness of C18: the status list for a registry with a Once record, a
running Persist record, a soft-deleted Persist record and a failing one. -/
theorem showPluginStatus_entries_witness :
    (ShowPluginStatus sampleConsts "/plugins"
        { runs := fun i => if i = 3 then { exitCode := 1, err := some "exit status 1" } else {} }
        sampleRegistry).statusList
        = sampleRegistry.enum.filterMap (statusEntry sampleConsts "/plugins"
            (fun i => if i = 3 then { exitCode := 1, err := some "exit status 1" } else {}))
      ∧ (ShowPluginStatus sampleConsts "/plugins"
        { runs := fun i => if i = 3 then { exitCode := 1, err := some "exit status 1" } else {} }
        sampleRegistry).statusList
        = [⟨"svc", "2", PERSIST_RUNNING⟩, ⟨"gone", "3", REMOVED⟩, ⟨"bad", "4", PERSIST_FAIL⟩] :=
  ⟨(showPluginStatus_entries sampleConsts "/plugins"
      { runs := fun i => if i = 3 then { exitCode := 1, err := some "exit status 1" } else {} }
      sampleRegistry rfl).1, by decide⟩

/-! ## Theorems: checks of executePluginFromFile and of the download branch -/

theorem fromFile_missing_file (K : Consts) (cmp : String → String → Int) (dir : String)
    (pm : PluginManager) (env : FromFileEnv) (persisted : List PluginInfo) (file : String)
    (paramList : List String) (timeout : Int) (h : env.fileExists = false) :
    executePluginFromFile K cmp dir pm env persisted file paramList timeout
      = some ⟨K.PACKAGE_NOT_FOUND, some ("File not exist: " ++ file), persisted, []⟩ := by
  simp [executePluginFromFile, h]

/-- C12, the code at the failing inputs: for the existing files
`/tmp/a.zip.bak` and `/tmp/a.zipx`, whose names do not end in ".zip",
`executePluginFromFile` does not return `PACKAGE_FORMART_ERR`: it takes "a" as
the plugin name and unzips the file (here the unzip fails and the call returns
`UNZIP_ERR`), since it looks for ".zip" anywhere after the first character of
the name; `/tmp/a.txt` is refused with `PACKAGE_FORMART_ERR` before any call,
and a missing file gives `PACKAGE_NOT_FOUND`. -/
theorem zip_name_checked_by_substring :
    executePluginFromFile sampleConsts sampleCompare "/plugins" {}
        { unzipErr := some "zip: not a valid zip file", config := Except.error "unread" }
        installedA1 "/tmp/a.zip.bak" [] 60
        = some ⟨sampleConsts.UNZIP_ERR, some "zip: not a valid zip file", installedA1,
            [Event.unzip "/tmp/a.zip.bak" "/tmp/a"]⟩
      ∧ executePluginFromFile sampleConsts sampleCompare "/plugins" {}
        { unzipErr := some "zip: not a valid zip file", config := Except.error "unread" }
        installedA1 "/tmp/a.zipx" [] 60
        = some ⟨sampleConsts.UNZIP_ERR, some "zip: not a valid zip file", installedA1,
            [Event.unzip "/tmp/a.zipx" "/tmp/a"]⟩
      ∧ sampleConsts.UNZIP_ERR ≠ sampleConsts.PACKAGE_FORMART_ERR
      ∧ executePluginFromFile sampleConsts sampleCompare "/plugins" {}
        { unzipErr := some "zip: not a valid zip file", config := Except.error "unread" }
        installedA1 "/tmp/a.txt" [] 60
        = some ⟨sampleConsts.PACKAGE_FORMART_ERR,
            some "Package file not a zip file: /tmp/a.txt", installedA1, []⟩
      ∧ executePluginFromFile sampleConsts sampleCompare "/plugins" {}
        { fileExists := false, config := Except.error "unread" } installedA1 "/tmp/a.zip" [] 60
        = some ⟨sampleConsts.PACKAGE_NOT_FOUND, some "File not exist: /tmp/a.zip",
            installedA1, []⟩ := by
  decide

/-- C14, the code at the failing input: a catalog record for the requested
name whose arch is empty and whose osType is the host OS is selected by
`getOnlinePluginInfo` as matching the host, is downloaded and unzipped, and is
then rejected with `PLUGIN_FORMAT_ERR` by the arch check of the download
branch, the registry staying as it was; the same record with arch "all" is
installed. -/
theorem empty_arch_selected_then_rejected :
    (selectOnline "A" "amd64" [onlineWithArch ""]).1 = some (onlineWithArch "")
      ∧ (executePluginOnlineOrLocal sampleConsts sampleCompare "/plugins"
          (onlineEnvFor (onlineWithArch "")) [] "A" "" [] 60 false).exitCode
        = sampleConsts.PLUGIN_FORMAT_ERR
      ∧ (executePluginOnlineOrLocal sampleConsts sampleCompare "/plugins"
          (onlineEnvFor (onlineWithArch "")) [] "A" "" [] 60 false).err
        = some "Plugin arch not suit for this system"
      ∧ (executePluginOnlineOrLocal sampleConsts sampleCompare "/plugins"
          (onlineEnvFor (onlineWithArch "")) [] "A" "" [] 60 false).persisted = []
      ∧ Event.download "https://host/A.zip" "/plugins/A.zip"
        ∈ (executePluginOnlineOrLocal sampleConsts sampleCompare "/plugins"
          (onlineEnvFor (onlineWithArch "")) [] "A" "" [] 60 false).trace
      ∧ (executePluginOnlineOrLocal sampleConsts sampleCompare "/plugins"
          (onlineEnvFor (onlineWithArch "all")) [] "A" "" [] 60 false).exitCode = 0
      ∧ (executePluginOnlineOrLocal sampleConsts sampleCompare "/plugins"
          (onlineEnvFor (onlineWithArch "all")) [] "A" "" [] 60 false).persisted
        = [{ onlineWithArch "all" with HeartbeatInterval := 60 }] := by
  decide

theorem onlineOrLocal_shape (K : Consts) (cmp : String → String → Int) (dir : String)
    (env : OnlineEnv) (persisted : List PluginInfo) (pluginName pluginVersion : String)
    (paramList : List String) (timeout : Int) (isLocal : Bool) :
    (executePluginOnlineOrLocal K cmp dir env persisted pluginName pluginVersion paramList
          timeout isLocal).trace = []
      ∨ (executePluginOnlineOrLocal K cmp dir env persisted pluginName pluginVersion paramList
          timeout isLocal).trace = (getOnlinePluginInfo env pluginName pluginVersion).2
      ∨ (∃ l, getLocalPluginInfo env.loadErr persisted pluginName pluginVersion
            = Except.ok (some l)
          ∧ (executePluginOnlineOrLocal K cmp dir env persisted pluginName pluginVersion
              paramList timeout isLocal
            = runLocalPackage K dir env persisted l paramList timeout []
            ∨ executePluginOnlineOrLocal K cmp dir env persisted pluginName pluginVersion
              paramList timeout isLocal
            = runLocalPackage K dir env persisted l paramList timeout
                (getOnlinePluginInfo env pluginName pluginVersion).2))
      ∨ ∃ o other, (getOnlinePluginInfo env pluginName pluginVersion).1
            = Except.ok (some o, other)
          ∧ executePluginOnlineOrLocal K cmp dir env persisted pluginName pluginVersion
              paramList timeout isLocal
            = installOnline K dir env persisted o pluginName paramList timeout
                (getOnlinePluginInfo env pluginName pluginVersion).2 := by
  cases isLocal with
  | true =>
    cases hl : getLocalPluginInfo env.loadErr persisted pluginName pluginVersion with
    | error e => left; simp [executePluginOnlineOrLocal, hl]
    | ok li =>
      cases li with
      | none => left; simp [executePluginOnlineOrLocal, hl]
      | some l =>
        right; right; left
        exact ⟨l, rfl, Or.inl (by simp [executePluginOnlineOrLocal, hl])⟩
  | false =>
    cases hl : getLocalPluginInfo env.loadErr persisted pluginName pluginVersion with
    | error e => left; simp [executePluginOnlineOrLocal, hl]
    | ok li =>
      cases hq : (getOnlinePluginInfo env pluginName pluginVersion).1 with
      | error e => right; left; simp [executePluginOnlineOrLocal, hl, hq]
      | ok pr =>
        obtain ⟨oi, other⟩ := pr
        cases li with
        | none =>
          cases oi with
          | none => right; left; simp [executePluginOnlineOrLocal, hl, hq]
          | some o =>
            right; right; right
            exact ⟨o, other, rfl, by simp [executePluginOnlineOrLocal, hl, hq]⟩
        | some l =>
          cases oi with
          | none =>
            right; right; left
            exact ⟨l, rfl, Or.inr (by simp [executePluginOnlineOrLocal, hl, hq])⟩
          | some o =>
            by_cases hc : cmp l.Version o.Version = 0
            · right; right; left
              exact ⟨l, rfl, Or.inr (by simp [executePluginOnlineOrLocal, hl, hq, hc])⟩
            · right; right; right
              exact ⟨o, other, rfl, by simp [executePluginOnlineOrLocal, hl, hq, hc]⟩

theorem onlineOrLocal_download_eq (K : Consts) (cmp : String → String → Int) (dir : String)
    (env : OnlineEnv) (persisted : List PluginInfo) (pluginName pluginVersion : String)
    (paramList : List String) (timeout : Int) (localInfo : Option PluginInfo) (o : PluginInfo)
    (other : List String)
    (hl : getLocalPluginInfo env.loadErr persisted pluginName pluginVersion
      = Except.ok localInfo)
    (hq : (getOnlinePluginInfo env pluginName pluginVersion).1 = Except.ok (some o, other))
    (hb : localInfo = none ∨ ∃ l, localInfo = some l ∧ cmp l.Version o.Version ≠ 0) :
    executePluginOnlineOrLocal K cmp dir env persisted pluginName pluginVersion paramList
        timeout false
      = installOnline K dir env persisted o pluginName paramList timeout
          (getOnlinePluginInfo env pluginName pluginVersion).2 := by
  rcases hb with h | ⟨l, h, hc⟩
  · subst h
    simp [executePluginOnlineOrLocal, hl, hq]
  · subst h
    simp [executePluginOnlineOrLocal, hl, hq, hc]

/-- C15, as stated, fails: with A version "1" installed, A version "2" in the
catalog and a downloaded package whose md5 differs from the catalog md5,
`executePluginOnlineOrLocal` returns `MD5_CHECK_FAIL` after one download and
one md5 computation; it does not download or check again. -/
theorem md5_mismatch_not_retried :
    executePluginOnlineOrLocal sampleConsts sampleCompare "/plugins"
        { listBody := Except.ok [onlineA2], md5 := Except.ok "ffffffffffffffffffffffffffffffff",
          config := Except.ok (sampleConfig "A" "2") } installedA1 "A" "" [] 60 false
      = ⟨sampleConsts.MD5_CHECK_FAIL, some "Md5 not macth", installedA1,
          [Event.pluginListRequest "A" "" false,
            Event.download "https://host/A.zip" "/plugins/A.zip",
            Event.computeMd5 "/plugins/A.zip"]⟩ := by
  decide

/-- C15, amended: when the download branch is taken and the download has
succeeded (at once or on a retry), an md5 of the downloaded package that
differs from the catalog md5, both lower-cased, makes
`executePluginOnlineOrLocal` return `MD5_CHECK_FAIL` with a non-nil error at
once: the registry is unchanged and the calls made are the catalog request,
the downloads and one md5 computation. Only a failed download is tried again,
at most twice; when the first download succeeds there is exactly one. -/
theorem md5_mismatch_fails_at_once (K : Consts) (cmp : String → String → Int) (dir : String)
    (env : OnlineEnv) (persisted : List PluginInfo) (pluginName pluginVersion : String)
    (paramList : List String) (timeout : Int) (localInfo : Option PluginInfo) (o : PluginInfo)
    (other : List String) (md5Str : String)
    (hl : getLocalPluginInfo env.loadErr persisted pluginName pluginVersion
      = Except.ok localInfo)
    (hq : (getOnlinePluginInfo env pluginName pluginVersion).1 = Except.ok (some o, other))
    (hb : localInfo = none ∨ ∃ l, localInfo = some l ∧ cmp l.Version o.Version ≠ 0)
    (hd : (retryWhileErr (Event.download o.Url (filepathJoin [dir, pluginName ++ ".zip"]))
      env.download 2 0 (env.download 0)).1 = none)
    (hm : env.md5 = Except.ok md5Str)
    (hne : stringsToLower md5Str ≠ stringsToLower o.Md5) :
    executePluginOnlineOrLocal K cmp dir env persisted pluginName pluginVersion paramList
          timeout false
        = ⟨K.MD5_CHECK_FAIL, some "Md5 not macth", persisted,
            (getOnlinePluginInfo env pluginName pluginVersion).2
              ++ Event.download o.Url (filepathJoin [dir, pluginName ++ ".zip"])
                :: (retryWhileErr (Event.download o.Url (filepathJoin [dir, pluginName ++ ".zip"]))
                    env.download 2 0 (env.download 0)).2
              ++ [Event.computeMd5 (filepathJoin [dir, pluginName ++ ".zip"])]⟩
      ∧ (retryWhileErr (Event.download o.Url (filepathJoin [dir, pluginName ++ ".zip"]))
          env.download 2 0 (env.download 0)).2.length ≤ 2
      ∧ (env.download 0 = none →
          (retryWhileErr (Event.download o.Url (filepathJoin [dir, pluginName ++ ".zip"]))
            env.download 2 0 (env.download 0)).2 = []) := by
  refine ⟨?_, ?_, ?_⟩
  · rw [onlineOrLocal_download_eq K cmp dir env persisted pluginName pluginVersion paramList
      timeout localInfo o other hl hq hb]
    simp only [installOnline, pullPackage, hd, hm]
    rw [if_pos hne]
  · simp only [retryWhileErr]
    repeat' split
    all_goals simp
  · intro h0
    simp [retryWhileErr, h0]

/-- Witness of the amended C15: the mismatch of `md5_mismatch_not_retried`. -/
theorem md5_mismatch_fails_at_once_witness :
    (executePluginOnlineOrLocal sampleConsts sampleCompare "/plugins"
        { listBody := Except.ok [onlineA2], md5 := Except.ok "ffffffffffffffffffffffffffffffff",
          config := Except.ok (sampleConfig "A" "2") } installedA1 "A" "" [] 60 false).exitCode
      = sampleConsts.MD5_CHECK_FAIL :=
  congrArg Result.exitCode
    (md5_mismatch_fails_at_once sampleConsts sampleCompare "/plugins"
      { listBody := Except.ok [onlineA2], md5 := Except.ok "ffffffffffffffffffffffffffffffff",
        config := Except.ok (sampleConfig "A" "2") } installedA1 "A" "" [] 60
      (some { PluginID := "local_A_1", Name := "A", Arch := "all", OSType := "linux",
              Version := "1", Publisher := "aliyun", Url := "local",
              Md5 := "d41d8cd98f00b204e9800998ecf8427e", RunPath := "run.sh", Timeout := "30",
              PluginType_ := JsonAny.str "Once", HeartbeatInterval := 60, IsRemoved := false })
      onlineA2 [] "ffffffffffffffffffffffffffffffff" rfl rfl
      (Or.inr ⟨_, rfl, by decide⟩) rfl rfl (by decide)).1

/-! ## Theorems: the run that ends an install -/

theorem noRun_append (a b : List Event) (ha : noRun a) (hb : noRun b) : noRun (a ++ b) := by
  intro e he
  rcases List.mem_append.1 he with h | h
  · exact ha e h
  · exact hb e h

theorem runAndCheck_runs (K : Consts) (run : RunOutcome) (check : CheckEnv)
    (pt pn pv cmdPath : String) (paramList : List String) (timeout : Int) (penv : List String) :
    (∀ c ps t pe q,
        Event.syncRun c ps t pe q
            ∈ (runAndCheck K run check pt pn pv cmdPath paramList timeout penv).2.2 →
          c = cmdPath ∧ t = timeout ∧ pe = penv
            ∧ (q = false → ps = paramList)
            ∧ (q = true → ps = ["--status"] ∧ pt = PLUGIN_PERSIST
                ∧ needReportStatus K paramList = true))
      ∧ (run.cmdExists = true →
          Event.syncRun cmdPath paramList timeout penv false
            ∈ (runAndCheck K run check pt pn pv cmdPath paramList timeout penv).2.2)
      ∧ (check.run.cmdExists = true → pt = PLUGIN_PERSIST →
          needReportStatus K paramList = true →
          Event.syncRun cmdPath ["--status"] timeout penv true
            ∈ (runAndCheck K run check pt pn pv cmdPath paramList timeout penv).2.2) := by
  refine ⟨?_, ?_, ?_⟩
  · intro c ps t pe q hmem
    simp only [runAndCheck, CheckAndReportPlugin] at hmem
    by_cases hcond : pt = PLUGIN_PERSIST ∧ needReportStatus K paramList = true
    · rw [if_pos hcond] at hmem
      have hcase : Event.syncRun c ps t pe q
            ∈ (executePlugin K run cmdPath paramList timeout penv false).2.2
          ∨ Event.syncRun c ps t pe q
            ∈ (executePlugin K check.run cmdPath ["--status"] timeout penv true).2.2
          ∨ ∃ st, Event.syncRun c ps t pe q
            ∈ (ReportPluginStatus K check.report pn pv st).2 := by
        repeat' split at hmem
        all_goals (try simp only [List.mem_append] at hmem)
        all_goals first
          | (rcases hmem with h | h
             · exact Or.inl h
             · exact Or.inr (Or.inl h))
          | (rcases hmem with h | h | h
             · exact Or.inl h
             · exact Or.inr (Or.inl h)
             · exact Or.inr (Or.inr ⟨_, h⟩))
      rcases hcase with h | h | ⟨st, h⟩
      · have := executePlugin_events _ _ _ _ _ _ _ _ h
        simp only [Event.syncRun.injEq] at this
        obtain ⟨rfl, rfl, rfl, rfl, rfl⟩ := this
        exact ⟨rfl, rfl, rfl, fun _ => rfl, fun h => Bool.noConfusion h⟩
      · have := executePlugin_events _ _ _ _ _ _ _ _ h
        simp only [Event.syncRun.injEq] at this
        obtain ⟨rfl, rfl, rfl, rfl, rfl⟩ := this
        exact ⟨rfl, rfl, rfl, fun h => Bool.noConfusion h, fun _ => ⟨rfl, hcond.1, hcond.2⟩⟩
      · obtain ⟨n1, v1, s1, h1⟩ := reportPluginStatus_events _ _ _ _ _ _ h
        exact Event.noConfusion h1
    · rw [if_neg hcond] at hmem
      have := executePlugin_events _ _ _ _ _ _ _ _ hmem
      simp only [Event.syncRun.injEq] at this
      obtain ⟨rfl, rfl, rfl, rfl, rfl⟩ := this
      exact ⟨rfl, rfl, rfl, fun _ => rfl, fun h => Bool.noConfusion h⟩
  · intro hrun
    have h1 : Event.syncRun cmdPath paramList timeout penv false
        ∈ (executePlugin K run cmdPath paramList timeout penv false).2.2 := by
      simp [executePlugin, hrun]
    simp only [runAndCheck]
    split
    · exact List.mem_append_left _ h1
    · exact h1
  · intro hcheck hpt hneed
    have h1 : Event.syncRun cmdPath ["--status"] timeout penv true
        ∈ (executePlugin K check.run cmdPath ["--status"] timeout penv true).2.2 := by
      simp [executePlugin, hcheck]
    simp only [runAndCheck, CheckAndReportPlugin]
    rw [if_pos ⟨hpt, hneed⟩]
    apply List.mem_append_right
    split
    · exact h1
    · exact List.mem_append_left _ h1

theorem noRun_single (e : Event) (h : ¬ isPluginCall e) : noRun [e] := by
  intro x hx
  rw [List.mem_singleton] at hx
  subst hx
  exact h

theorem decode_str_persist (x : String) :
    decodePluginType (JsonAny.str x) = PLUGIN_PERSIST ↔ x = PLUGIN_PERSIST := by
  simp only [decodePluginType]
  by_cases h1 : x = PLUGIN_ONCE
  · subst h1
    simp only [if_true]
  · rw [if_neg h1]
    by_cases h2 : x = PLUGIN_PERSIST
    · simp [h2]
    · rw [if_neg h2]
      constructor
      · intro h
        exact absurd h (by decide)
      · intro h
        exact absurd h h2

theorem installFromFile_shape (K : Consts) (dir : String) (env : FromFileEnv)
    (persisted installed : List PluginInfo) (found : Option (Nat × PluginInfo))
    (config : pluginConfig) (file unzipdir dirName pre : String) (paramList : List String)
    (timeout : Int) (before : List Event) (hb : noRun before) :
    (noRun (installFromFile K dir env persisted installed found config file unzipdir dirName
          pre paramList timeout before).trace
        ∧ (installFromFile K dir env persisted installed found config file unzipdir dirName
          pre paramList timeout before).trace ≠ before)
      ∨ ∃ front t, noRun front
          ∧ (installFromFile K dir env persisted installed found config file unzipdir dirName
              pre paramList timeout before).trace
            = front ++ (fromFileRun K dir env config paramList t pre).2.2 := by
  have hmd5 : ¬ isPluginCall (Event.computeMd5 file) := by
    intro h
    exact h
  have hcopy : ∀ x y, ¬ isPluginCall (Event.copyDir x y) := by
    intro x y h
    exact h
  have hchmod : ∀ x, ¬ isPluginCall (Event.chmod x) := by
    intro x h
    exact h
  have hdump : ∀ x, ¬ isPluginCall (Event.dump x) := by
    intro x h
    exact h
  have hrm : ∀ x, ¬ isPluginCall (Event.removeAll x) := by
    intro x h
    exact h
  have hlen : ∀ (a b : List Event), b ≠ [] → a ++ b ≠ a := by
    intro a b hb h
    have := congrArg List.length h
    simp only [List.length_append] at this
    exact hb (List.length_eq_zero.1 (by omega))
  unfold installFromFile
  cases hm : env.md5 with
  | error e =>
    left
    exact ⟨noRun_append _ _ hb (noRun_single _ hmd5), hlen _ _ (by simp)⟩
  | ok md5Str =>
    dsimp only
    have h1 : noRun (before ++ [Event.computeMd5 file,
        Event.copyDir dirName (filepathJoin [dir, (recordFromConfig config found md5Str timeout).1.Name,
          (recordFromConfig config found md5Str timeout).1.Version])]) := by
      apply noRun_append _ _ hb
      intro e he
      simp only [List.mem_cons, List.mem_singleton, List.not_mem_nil, or_false] at he
      rcases he with he | he
      · subst he; exact hmd5
      · subst he; exact hcopy _ _
    by_cases hc : env.cmdExists = true
    · simp only [hc, Bool.not_true, Bool.false_eq_true, if_false]
      by_cases hch : env.osType ≠ OSWin ∧ env.chmodErr ≠ none
      · rw [if_pos hch, if_pos hch.1]
        left
        refine ⟨noRun_append _ _ h1 (noRun_single _ (hchmod _)), ?_⟩
        rw [List.append_assoc]
        exact hlen _ _ (by simp)
      · rw [if_neg hch]
        rcases Option.eq_none_or_eq_some env.dumpErr with hd | ⟨e, hd⟩
        · rw [hd]
          dsimp only
          right
          have hname : (storeFromFile installed found
                (recordFromConfig config found md5Str timeout).1).2.Name = config.Name
              ∧ (storeFromFile installed found
                (recordFromConfig config found md5Str timeout).1).2.Version = config.Version
              ∧ (storeFromFile installed found
                (recordFromConfig config found md5Str timeout).1).2.PluginType
                  = decodePluginType (JsonAny.str config.PluginType.1)
              ∧ (recordFromConfig config found md5Str timeout).1.Name = config.Name
              ∧ (recordFromConfig config found md5Str timeout).1.Version = config.Version := by
            cases found <;>
              simp [storeFromFile, recordFromConfig, PluginInfo.SetPluginType,
                PluginInfo.PluginType]
          obtain ⟨e1, e2, e3, e4, e5⟩ := hname
          rw [e1, e2, e3, e4, e5]
          rw [e4, e5] at h1
          apply Exists.intro
          refine ⟨(recordFromConfig config found md5Str timeout).2, ?hno, ?heq⟩
          case heq => rfl
          case hno =>
            apply noRun_append
            · apply noRun_append
              · split
                · exact noRun_append _ _ h1 (noRun_single _ (hchmod _))
                · exact h1
              · exact noRun_single _ (hdump _)
            · exact noRun_single _ (hrm _)
        · rw [hd]
          dsimp only
          left
          constructor
          · apply noRun_append
            · split
              · exact noRun_append _ _ h1 (noRun_single _ (hchmod _))
              · exact h1
            · exact noRun_single _ (hdump _)
          · split
            · rw [List.append_assoc, List.append_assoc]
              exact hlen _ _ (by simp)
            · rw [List.append_assoc]
              exact hlen _ _ (by simp)
    · have hc2 : env.cmdExists = false := by
        cases h : env.cmdExists
        · rfl
        · exact absurd h hc
      simp only [hc2, Bool.not_false, if_true]
      left
      exact ⟨h1, hlen _ _ (by simp)⟩

theorem installFromFile_md5 (K : Consts) (dir : String) (env : FromFileEnv)
    (persisted installed : List PluginInfo) (found : Option (Nat × PluginInfo))
    (config : pluginConfig) (file unzipdir dirName pre : String) (paramList : List String)
    (timeout : Int) (before : List Event) :
    Event.computeMd5 file
      ∈ (installFromFile K dir env persisted installed found config file unzipdir dirName
          pre paramList timeout before).trace := by
  simp only [installFromFile]
  repeat' split
  all_goals simp

/-! ## Theorems: the OS type and arch check of executePluginFromFile -/

/-- C13, as stated, fails in both directions. On a linux host a package whose
config has the empty osType, which differs from "linux", is not rejected by
`executePluginFromFile`: it is installed and run, the call returning exit
code 0 and no error with the record written to the registry. And a package
whose osType and arch match the host but whose command file is missing is
rejected with `PLUGIN_FORMAT_ERR` and a non-nil error, the registry
unchanged, after its md5 was computed and its files were copied. -/
theorem empty_osType_is_accepted :
    stringsToLower "" ≠ ({ config := Except.ok (sampleConfig "A" "1") } : FromFileEnv).osType
      ∧ (executePluginFromFile sampleConsts sampleCompare "/plugins" {}
          { config := Except.ok { sampleConfig "A" "1" with OsType := "" } } [] "/tmp/A.zip"
          [] 60).map (fun r => (r.exitCode, r.err, r.persisted.map (fun p => (p.Name, p.OSType))))
        = some (0, none, [("A", "")])
      ∧ executePluginFromFile sampleConsts sampleCompare "/plugins" {}
          { config := Except.ok (sampleConfig "A" "1"), cmdExists := false } [] "/tmp/A.zip"
          [] 60
        = some ⟨sampleConsts.PLUGIN_FORMAT_ERR, some "Cmd file not exist: /plugins/A/1/run.sh", [],
            [Event.unzip "/tmp/A.zip" "/tmp/A", Event.computeMd5 "/tmp/A.zip",
              Event.copyDir "/tmp/A" "/plugins/A/1"]⟩ := by
  decide

/-- C13, amended: for a package that passed the earlier steps (the file
exists, its name passes the ".zip" check, it unzips, `config.json` is there
and unmarshals), `executePluginFromFile` returns `PLUGIN_FORMAT_ERR` with a
non-nil error right after the unzip, the registry unchanged and nothing else
done, if and only if the config osType is not empty and its lower-cased form
differs from the host OS type, or the config arch is not empty and its
lower-cased form is neither "all" nor the host arch. An empty osType passes,
as an empty arch does. The exit code of a failed registry load is taken to
differ from `PLUGIN_FORMAT_ERR`. -/
theorem fromFile_os_arch_check (K : Consts) (cmp : String → String → Int) (dir : String)
    (pm : PluginManager) (env : FromFileEnv) (persisted : List PluginInfo) (file : String)
    (paramList : List String) (timeout : Int) (name unzipdir : String) (config : pluginConfig)
    (hfile : env.fileExists = true)
    (hsplit : splitPackagePath file = some (name, unzipdir))
    (hunzip : env.unzipErr = none)
    (hthere : env.configTop = true ∨ env.configNested = true)
    (hconfig : env.config = Except.ok config)
    (hK : K.LOAD_INSTALLEDPLUGINS_ERR ≠ K.PLUGIN_FORMAT_ERR) :
    (∃ r, executePluginFromFile K cmp dir pm env persisted file paramList timeout = some r
        ∧ r.exitCode = K.PLUGIN_FORMAT_ERR ∧ r.err ≠ none ∧ r.persisted = persisted
        ∧ r.trace = [Event.unzip file unzipdir])
      ↔ ((config.OsType ≠ "" ∧ stringsToLower config.OsType ≠ env.osType)
        ∨ (config.Arch ≠ "" ∧ stringsToLower config.Arch ≠ "all"
          ∧ stringsToLower config.Arch ≠ env.localArch)) := by
  have hcfg : ¬ ((!env.configTop) = true ∧ (!env.configNested) = true) := by
    rintro ⟨h1, h2⟩
    rcases hthere with h | h
    · rw [h] at h1; exact Bool.noConfusion h1
    · rw [h] at h2; exact Bool.noConfusion h2
  unfold executePluginFromFile
  simp only [hfile, Bool.not_true, Bool.false_eq_true, if_false, hsplit, hunzip]
  rw [if_neg hcfg]
  simp only [hconfig]
  by_cases hos : config.OsType ≠ "" ∧ stringsToLower config.OsType ≠ env.osType
  · rw [if_pos hos]
    constructor
    · intro _
      exact Or.inl hos
    · intro _
      exact ⟨_, rfl, rfl, by simp, rfl, rfl⟩
  · rw [if_neg hos]
    by_cases har : config.Arch ≠ "" ∧ stringsToLower config.Arch ≠ "all"
        ∧ stringsToLower config.Arch ≠ env.localArch
    · rw [if_pos har]
      constructor
      · intro _
        exact Or.inr har
      · intro _
        exact ⟨_, rfl, rfl, by simp, rfl, rfl⟩
    · rw [if_neg har]
      constructor
      · rintro ⟨r, hr, hcode, herr, -, htr⟩
        exfalso
        rcases Option.eq_none_or_eq_some env.loadErr with hl | ⟨e, hl⟩
        · rw [hl] at hr
          dsimp only at hr
          split at hr
          · exact Option.noConfusion hr
          · split at hr
            · have := Option.some.inj hr
              subst this
              exact herr rfl
            · have := Option.some.inj hr
              subst this
              have hmem := installFromFile_md5 K dir env persisted
                (lookupInstalled config.Name persisted).1 (lookupInstalled config.Name persisted).2
                config file unzipdir
                (if env.configTop = true then unzipdir else filepathJoin [unzipdir, name])
                (match (lookupInstalled config.Name persisted).2 with
                  | some (_, p) => filepathJoin [dir, p.Name, p.Version]
                  | none => "")
                paramList timeout [Event.unzip file unzipdir]
              rw [htr] at hmem
              simp at hmem
        · rw [hl] at hr
          dsimp only at hr
          have := Option.some.inj hr
          subst this
          exact hK hcode
      · rintro (h | h)
        · exact absurd h hos
        · exact absurd h har

/-- Witness of the amended C13: on a linux/amd64 host the package A whose
config says osType "Windows" is rejected right after the unzip. -/
theorem fromFile_os_arch_check_witness :
    ∃ r, executePluginFromFile sampleConsts sampleCompare "/plugins" {}
          { config := Except.ok { sampleConfig "A" "1" with OsType := "Windows" } } []
          "/tmp/A.zip" [] 60 = some r
      ∧ r.exitCode = sampleConsts.PLUGIN_FORMAT_ERR ∧ r.err ≠ none ∧ r.persisted = []
      ∧ r.trace = [Event.unzip "/tmp/A.zip" "/tmp/A"] :=
  (fromFile_os_arch_check sampleConsts sampleCompare "/plugins" {}
    { config := Except.ok { sampleConfig "A" "1" with OsType := "Windows" } } []
    "/tmp/A.zip" [] 60 "A" "/tmp/A" { sampleConfig "A" "1" with OsType := "Windows" }
    rfl (by decide) rfl (Or.inl rfl) rfl (by decide)).2 (Or.inl (by decide))

/-! ## Theorems: environment and status check of the plugin runs -/

theorem noRun_nil : noRun [] := by
  intro e he
  exact absurd he (List.not_mem_nil e)

theorem noRun_unzip (x y : String) : noRun [Event.unzip x y] := by
  apply noRun_single
  intro h
  exact h

theorem executePluginFromFile_cases (K : Consts) (cmp : String → String → Int)
    (dir : String) (pm : PluginManager) (env : FromFileEnv) (persisted : List PluginInfo)
    (file : String) (paramList : List String) (timeout : Int) (r : Result)
    (h : executePluginFromFile K cmp dir pm env persisted file paramList timeout = some r) :
    noRun r.trace
      ∨ ∃ config unzipdir dirName, env.config = Except.ok config
        ∧ r = installFromFile K dir env persisted (lookupInstalled config.Name persisted).1
            (lookupInstalled config.Name persisted).2 config file unzipdir dirName
            (replacedDir dir config.Name persisted) paramList timeout
            [Event.unzip file unzipdir] := by
  unfold executePluginFromFile at h
  by_cases h1 : env.fileExists = true
  swap
  · simp only [h1, Bool.not_false, Bool.not_eq_true, if_true, Option.some.injEq] at h
    subst h; left; exact noRun_nil
  simp only [h1, Bool.not_true, Bool.false_eq_true, if_false] at h
  cases h2 : splitPackagePath file with
  | none =>
    simp only [h2, Option.some.injEq] at h
    subst h; left; exact noRun_nil
  | some pr =>
    obtain ⟨pluginName, unzipdir⟩ := pr
    simp only [h2] at h
    cases h3 : env.unzipErr with
    | some e =>
      simp only [h3, Option.some.injEq] at h
      subst h; left; exact noRun_unzip _ _
    | none =>
      simp only [h3] at h
      by_cases h4 : (!env.configTop) = true ∧ (!env.configNested) = true
      · rw [if_pos h4] at h
        simp only [Option.some.injEq] at h
        subst h; left; exact noRun_unzip _ _
      rw [if_neg h4] at h
      cases h5 : env.config with
      | error e =>
        simp only [h5, Option.some.injEq] at h
        subst h; left; exact noRun_unzip _ _
      | ok config =>
        simp only [h5] at h
        by_cases h6 : config.OsType ≠ "" ∧ stringsToLower config.OsType ≠ env.osType
        · rw [if_pos h6] at h
          simp only [Option.some.injEq] at h
          subst h; left; exact noRun_unzip _ _
        rw [if_neg h6] at h
        by_cases h7 : config.Arch ≠ "" ∧ stringsToLower config.Arch ≠ "all"
            ∧ stringsToLower config.Arch ≠ env.localArch
        · rw [if_pos h7] at h
          simp only [Option.some.injEq] at h
          subst h; left; exact noRun_unzip _ _
        rw [if_neg h7] at h
        cases h8 : env.loadErr with
        | some e =>
          simp only [h8, Option.some.injEq] at h
          subst h; left; exact noRun_unzip _ _
        | none =>
          simp only [h8] at h
          split at h
          · exact absurd h (by simp)
          · split at h
            · simp only [Option.some.injEq] at h
              subst h; left; exact noRun_unzip _ _
            · simp only [Option.some.injEq] at h
              subst h
              right
              exact ⟨config, unzipdir, _, rfl, rfl⟩

theorem executePluginFromFile_shape (K : Consts) (cmp : String → String → Int)
    (dir : String) (pm : PluginManager) (env : FromFileEnv) (persisted : List PluginInfo)
    (file : String) (paramList : List String) (timeout : Int) (r : Result)
    (h : executePluginFromFile K cmp dir pm env persisted file paramList timeout = some r) :
    noRun r.trace
      ∨ ∃ config front t, env.config = Except.ok config ∧ noRun front
        ∧ r.trace = front
          ++ (fromFileRun K dir env config paramList t
              (replacedDir dir config.Name persisted)).2.2 := by
  rcases executePluginFromFile_cases K cmp dir pm env persisted file paramList timeout r h with
    h | ⟨config, unzipdir, dirName, hc, hr⟩
  · exact Or.inl h
  · subst hr
    rcases installFromFile_shape K dir env persisted (lookupInstalled config.Name persisted).1
      (lookupInstalled config.Name persisted).2 config file unzipdir dirName
      (replacedDir dir config.Name persisted) paramList timeout [Event.unzip file unzipdir]
      (noRun_unzip _ _) with h | ⟨front, t, h1, h2⟩
    · exact Or.inl h.1
    · exact Or.inr ⟨config, front, t, hc, h1, h2⟩

theorem storeOnline_shape (K : Consts) (dir : String) (env : OnlineEnv)
    (persisted : List PluginInfo) (onlineInfo : PluginInfo) (config : pluginConfig)
    (cmdPath : String) (paramList : List String) (timeout : Int) (before : List Event)
    (hb : noRun before) :
    noRun (storeOnline K dir env persisted onlineInfo config cmdPath paramList timeout
        before).trace
      ∨ ∃ front, noRun front
        ∧ (storeOnline K dir env persisted onlineInfo config cmdPath paramList timeout
            before).trace
          = front ++ (runAndCheck K env.run env.check config.PluginType.1 config.Name
              config.Version cmdPath paramList timeout
              (pluginEnv (filepathJoin [dir, config.Name, config.Version])
                (replacedDir dir onlineInfo.Name persisted))).2.2 := by
  have hdump : ∀ x, noRun [Event.dump x] := by
    intro x
    apply noRun_single
    intro h
    exact h
  unfold storeOnline
  rcases Option.eq_none_or_eq_some env.loadErr2 with hl | ⟨e, hl⟩
  · rw [hl]
    dsimp only
    rcases Option.eq_none_or_eq_some env.dumpErr with hd | ⟨e, hd⟩
    · rw [hd]
      dsimp only
      right
      apply Exists.intro
      refine ⟨?hno, ?heq⟩
      case heq =>
        have hpre : (match (lookupInstalled onlineInfo.Name persisted).2 with
              | none => ((lookupInstalled onlineInfo.Name persisted).1 ++ [onlineInfo], "")
              | some (idx, plugininfo) =>
                ((lookupInstalled onlineInfo.Name persisted).1.set idx onlineInfo,
                  filepathJoin [dir, plugininfo.Name, plugininfo.Version])).2
            = replacedDir dir onlineInfo.Name persisted := by
          unfold replacedDir
          cases (lookupInstalled onlineInfo.Name persisted).2 with
          | none => rfl
          | some x => rfl
        rw [hpre]
        rfl
      case hno => exact noRun_append _ _ hb (hdump _)
    · rw [hd]
      dsimp only
      left
      exact noRun_append _ _ hb (hdump _)
  · rw [hl]
    left
    exact hb

theorem pullPackage_noRun (K : Consts) (dir : String) (env : OnlineEnv)
    (persisted : List PluginInfo) (onlineInfo : PluginInfo) (pluginName : String)
    (before : List Event) (hb : noRun before) :
    (∀ r, pullPackage K dir env persisted onlineInfo pluginName before = Except.error r →
        noRun r.trace)
      ∧ (∀ c tr, pullPackage K dir env persisted onlineInfo pluginName before = Except.ok (c, tr) →
          env.config = Except.ok c ∧ noRun tr) := by
  have hd : noRun (Event.download onlineInfo.Url (filepathJoin [dir, pluginName ++ ".zip"])
      :: (retryWhileErr (Event.download onlineInfo.Url (filepathJoin [dir, pluginName ++ ".zip"]))
          env.download 2 0 (env.download 0)).2) := by
    intro e he
    have : e = Event.download onlineInfo.Url (filepathJoin [dir, pluginName ++ ".zip"]) := by
      rcases List.mem_cons.1 he with h | h
      · exact h
      · exact retryWhileErr_events _ _ _ _ _ e h
    subst this
    intro h
    exact h
  have hmd5 : ∀ x, noRun [Event.computeMd5 x] := by
    intro x
    apply noRun_single
    intro h
    exact h
  have hrm : ∀ x, noRun [Event.removeAll x] := by
    intro x
    apply noRun_single
    intro h
    exact h
  constructor
  · intro r h
    simp only [pullPackage] at h
    repeat' split at h
    all_goals first
      | exact Except.noConfusion h
      | (simp only [Except.error.injEq] at h
         subst h
         repeat' first
           | exact hb
           | exact hd
           | exact hmd5 _
           | exact hrm _
           | exact noRun_unzip _ _
           | apply noRun_append)
  · intro c tr h
    simp only [pullPackage] at h
    repeat' split at h
    all_goals first
      | exact Except.noConfusion h
      | (simp only [Except.ok.injEq, Prod.mk.injEq] at h
         obtain ⟨rfl, rfl⟩ := h
         refine ⟨by assumption, ?_⟩
         repeat' first
           | exact hb
           | exact hd
           | exact hmd5 _
           | exact hrm _
           | exact noRun_unzip _ _
           | apply noRun_append)

theorem checkPackage_values (K : Consts) (dir : String) (env : OnlineEnv)
    (persisted : List PluginInfo) (onlineInfo : PluginInfo) (config0 : pluginConfig)
    (timeout : Int) (before : List Event) (hb : noRun before) :
    (∀ r, checkPackage K dir env persisted onlineInfo config0 timeout before = Except.error r →
        noRun r.trace)
      ∧ (∀ o c t p tr, checkPackage K dir env persisted onlineInfo config0 timeout before
            = Except.ok (o, c, t, p, tr) →
          o.Name = onlineInfo.Name ∧ c.PluginType.1 = config0.PluginType.1
            ∧ c.Name = config0.Name ∧ c.Version = config0.Version
            ∧ t = (Atoi config0.Timeout).getD timeout
            ∧ p = filepathJoin [filepathJoin [dir, onlineInfo.Name, onlineInfo.Version],
                config0.RunPath]
            ∧ noRun tr) := by
  have hchmod : ∀ x, noRun [Event.chmod x] := by
    intro x
    apply noRun_single
    intro h
    exact h
  constructor
  · intro r h
    simp only [checkPackage] at h
    repeat' split at h
    all_goals first
      | exact Except.noConfusion h
      | (simp only [Except.error.injEq] at h
         subst h
         repeat' first
           | exact hb
           | exact hchmod _
           | apply noRun_append)
  · intro o c t p tr h
    simp only [checkPackage] at h
    repeat' split at h
    all_goals first
      | exact Except.noConfusion h
      | (simp only [Except.ok.injEq, Prod.mk.injEq] at h
         obtain ⟨rfl, rfl, rfl, rfl, rfl⟩ := h
         refine ⟨rfl, ?_, ?_, ?_, ?_, ?_, ?_⟩
         · first
             | rfl
             | (simp only [pluginConfig.PluginType]; split <;> rfl)
         · rfl
         · rfl
         · rfl
         · rfl
         · repeat' first
             | exact hb
             | exact hchmod _
             | apply noRun_append)

theorem installOnline_shape (K : Consts) (dir : String) (env : OnlineEnv)
    (persisted : List PluginInfo) (o : PluginInfo) (pluginName : String)
    (paramList : List String) (timeout : Int) (before : List Event) (hb : noRun before) :
    noRun (installOnline K dir env persisted o pluginName paramList timeout before).trace
      ∨ ∃ config front, env.config = Except.ok config ∧ noRun front
        ∧ (installOnline K dir env persisted o pluginName paramList timeout before).trace
          = front ++ (downloadRun K dir env persisted o config paramList timeout).2.2 := by
  unfold installOnline
  split
  · rename_i r hr
    exact Or.inl ((pullPackage_noRun K dir env persisted o pluginName before hb).1 r hr)
  · rename_i config0 tr hp
    obtain ⟨hc, htr⟩ := (pullPackage_noRun K dir env persisted o pluginName before hb).2
      config0 tr hp
    split
    · rename_i r hr
      exact Or.inl ((checkPackage_values K dir env persisted o config0 timeout tr htr).1 r hr)
    · rename_i o1 c1 t1 p1 tr1 hck
      obtain ⟨e1, e2, e3, e4, e5, e6, h7⟩ :=
        (checkPackage_values K dir env persisted o config0 timeout tr htr).2 o1 c1 t1 p1 tr1 hck
      rcases storeOnline_shape K dir env persisted o1 c1 p1 paramList t1 tr1 h7 with
        h | ⟨front, h1, h2⟩
      · exact Or.inl h
      · right
        refine ⟨config0, front, hc, h1, ?_⟩
        rw [h2, e1, e2, e3, e4, e5, e6]
        rfl

theorem runLocalPackage_shape (K : Consts) (dir : String) (env : OnlineEnv)
    (persisted : List PluginInfo) (l : PluginInfo) (paramList : List String) (timeout : Int)
    (before : List Event) :
    (runLocalPackage K dir env persisted l paramList timeout before).trace
      = before ++ (localRun K dir env l paramList timeout).2.2 := rfl

theorem getLocalPluginInfo_found (loadErr : GoError) (persisted : List PluginInfo)
    (name version : String) (l : PluginInfo)
    (h : getLocalPluginInfo loadErr persisted name version = Except.ok (some l)) :
    l ∈ persisted ∧ l.Name = name ∧ l.IsRemoved = false
      ∧ (version = "" ∨ version = l.Version) := by
  unfold getLocalPluginInfo at h
  cases loadErr with
  | some e => exact Except.noConfusion h
  | none =>
    simp only [Except.ok.injEq] at h
    have hmem := List.mem_of_find?_eq_some h
    have hp := List.find?_some h
    simp only [decide_eq_true_eq] at hp
    exact ⟨hmem, hp.1, hp.2.1, hp.2.2⟩

theorem getOnlinePluginInfo_noRun (env : OnlineEnv) (name version : String) :
    noRun (getOnlinePluginInfo env name version).2 := by
  intro e he
  rw [getOnlinePluginInfo_events env name version e he]
  intro h
  exact h

theorem runAndCheck_posts (K : Consts) (run : RunOutcome) (check : CheckEnv)
    (pt pn pv cmdPath : String) (paramList : List String) (timeout : Int) (penv : List String)
    (n v st : String)
    (h : Event.httpPostStatus n v st
      ∈ (runAndCheck K run check pt pn pv cmdPath paramList timeout penv).2.2) :
    pt = PLUGIN_PERSIST ∧ needReportStatus K paramList = true := by
  by_cases hcond : pt = PLUGIN_PERSIST ∧ needReportStatus K paramList = true
  · exact hcond
  · simp only [runAndCheck] at h
    rw [if_neg hcond] at h
    exact Event.noConfusion (executePlugin_events _ _ _ _ _ _ _ _ h)

theorem shape_env (K : Consts) (run : RunOutcome) (check : CheckEnv)
    (pt pn pv cmdPath : String) (paramList : List String) (timeout : Int) (penv : List String)
    (front tr : List Event) (hf : noRun front)
    (htr : tr = front ++ (runAndCheck K run check pt pn pv cmdPath paramList timeout penv).2.2)
    (c : String) (ps : List String) (t : Int) (pe : List String) (q : Bool)
    (h : Event.syncRun c ps t pe q ∈ tr) : pe = penv ∧ c = cmdPath := by
  rw [htr] at h
  rcases List.mem_append.1 h with h | h
  · exact absurd trivial (hf _ h)
  · have := (runAndCheck_runs K run check pt pn pv cmdPath paramList timeout penv).1 c ps t pe q h
    exact ⟨this.2.2.1, this.1⟩

theorem shape_status (K : Consts) (run : RunOutcome) (check : CheckEnv)
    (pt pn pv cmdPath : String) (paramList : List String) (timeout : Int) (penv : List String)
    (front tr : List Event) (hf : noRun front)
    (htr : tr = front ++ (runAndCheck K run check pt pn pv cmdPath paramList timeout penv).2.2) :
    (hasStatusCheck tr → pt = PLUGIN_PERSIST ∧ needReportStatus K paramList = true)
      ∧ (check.run.cmdExists = true → pt = PLUGIN_PERSIST →
          needReportStatus K paramList = true → hasStatusCheck tr)
      ∧ (∀ n v st, Event.httpPostStatus n v st ∈ tr →
          pt = PLUGIN_PERSIST ∧ needReportStatus K paramList = true) := by
  refine ⟨?_, ?_, ?_⟩
  · rintro ⟨c, t, pe, h⟩
    rw [htr] at h
    rcases List.mem_append.1 h with h | h
    · exact absurd trivial (hf _ h)
    · have := (runAndCheck_runs K run check pt pn pv cmdPath paramList timeout penv).1
        c ["--status"] t pe true h
      exact ⟨(this.2.2.2.2 rfl).2.1, (this.2.2.2.2 rfl).2.2⟩
  · intro hc hpt hneed
    refine ⟨cmdPath, timeout, penv, ?_⟩
    rw [htr]
    exact List.mem_append_right _
      ((runAndCheck_runs K run check pt pn pv cmdPath paramList timeout penv).2.2 hc hpt hneed)
  · intro n v st h
    rw [htr] at h
    rcases List.mem_append.1 h with h | h
    · exact absurd trivial (hf _ h)
    · exact runAndCheck_posts K run check pt pn pv cmdPath paramList timeout penv n v st h

theorem replacedDir_spec (dir name : String) (persisted : List PluginInfo) :
    (findByName name persisted = none → replacedDir dir name persisted = "")
      ∧ (∀ i p, findByName name persisted = some (i, p) →
          replacedDir dir name persisted
            = if p.IsRemoved = true then "" else filepathJoin [dir, p.Name, p.Version]) := by
  constructor
  · intro h
    simp [replacedDir, lookupInstalled, h]
  · intro i p h
    by_cases hr : p.IsRemoved = true
    · simp [replacedDir, lookupInstalled, h, hr]
    · simp [replacedDir, lookupInstalled, h, hr]

/-- The environment of the runs: every process run by `executePluginFromFile`
and by `executePluginOnlineOrLocal`, the plugin itself and its `--status`
check, gets exactly two environment entries, in this order. The first is `PLUGIN_DIR=`
followed by PLUGINDIR joined with the name and the version the plugin is run
under: those of the package's `config.json` for an install from a file or from
the catalog, those of the local record for a local run. The second is
`PRE_PLUGIN_DIR=` followed by PLUGINDIR joined with the name and the version of
the record the install replaced, the first record with that name when it is
not removed, and by the empty string when there is no such record or it is
removed, and always for a local run. The command run lies in the `PLUGIN_DIR`
directory for an install from a file and for a local run; for an install from
the catalog it lies in the directory the package was unzipped to, the one of
the catalog record's name and version. -/
theorem plugin_run_environment (K : Consts) (cmp : String → String → Int) (dir : String)
    (pm : PluginManager) (fenv : FromFileEnv) (oenv : OnlineEnv) (persisted : List PluginInfo)
    (file pluginName pluginVersion : String) (paramList : List String) (timeout : Int)
    (isLocal : Bool) :
    (∀ r c ps t pe q,
        executePluginFromFile K cmp dir pm fenv persisted file paramList timeout = some r →
        Event.syncRun c ps t pe q ∈ r.trace →
        ∃ config, fenv.config = Except.ok config
          ∧ pe = ["PLUGIN_DIR=" ++ filepathJoin [dir, config.Name, config.Version],
              "PRE_PLUGIN_DIR=" ++ replacedDir dir config.Name persisted]
          ∧ c = filepathJoin [filepathJoin [dir, config.Name, config.Version], config.RunPath])
      ∧ (∀ c ps t pe q,
          Event.syncRun c ps t pe q
            ∈ (executePluginOnlineOrLocal K cmp dir oenv persisted pluginName pluginVersion
                paramList timeout isLocal).trace →
          (∃ l before,
              getLocalPluginInfo oenv.loadErr persisted pluginName pluginVersion
                = Except.ok (some l)
              ∧ executePluginOnlineOrLocal K cmp dir oenv persisted pluginName pluginVersion
                  paramList timeout isLocal
                = runLocalPackage K dir oenv persisted l paramList timeout before
              ∧ pe = ["PLUGIN_DIR=" ++ filepathJoin [dir, l.Name, l.Version],
                  "PRE_PLUGIN_DIR=" ++ ""]
              ∧ c = filepathJoin [filepathJoin [dir, l.Name, l.Version], l.RunPath])
            ∨ ∃ o other config,
              (getOnlinePluginInfo oenv pluginName pluginVersion).1 = Except.ok (some o, other)
              ∧ executePluginOnlineOrLocal K cmp dir oenv persisted pluginName pluginVersion
                  paramList timeout isLocal
                = installOnline K dir oenv persisted o pluginName paramList timeout
                    (getOnlinePluginInfo oenv pluginName pluginVersion).2
              ∧ oenv.config = Except.ok config
              ∧ pe = ["PLUGIN_DIR=" ++ filepathJoin [dir, config.Name, config.Version],
                  "PRE_PLUGIN_DIR=" ++ replacedDir dir o.Name persisted]
              ∧ c = filepathJoin [filepathJoin [dir, o.Name, o.Version], config.RunPath])
      ∧ (∀ name,
          (findByName name persisted = none → replacedDir dir name persisted = "")
            ∧ (∀ i p, findByName name persisted = some (i, p) →
                replacedDir dir name persisted
                  = if p.IsRemoved = true then ""
                    else filepathJoin [dir, p.Name, p.Version])) := by
  refine ⟨?_, ?_, fun name => replacedDir_spec dir name persisted⟩
  · intro r c ps t pe q hr hmem
    rcases executePluginFromFile_shape K cmp dir pm fenv persisted file paramList timeout r hr
      with h | ⟨config, front, t1, hc, hf, htr⟩
    · exact absurd trivial (h _ hmem)
    · obtain ⟨h1, h2⟩ := shape_env K _ _ _ _ _ _ _ _ _ front r.trace hf htr c ps t pe q hmem
      exact ⟨config, hc, h1, h2⟩
  · intro c ps t pe q hmem
    rcases onlineOrLocal_shape K cmp dir oenv persisted pluginName pluginVersion paramList
      timeout isLocal with h | h | ⟨l, hl, h⟩ | ⟨o, other, ho, h⟩
    · rw [h] at hmem
      exact absurd hmem (List.not_mem_nil _)
    · rw [h] at hmem
      exact absurd trivial (getOnlinePluginInfo_noRun oenv pluginName pluginVersion _ hmem)
    · left
      rcases h with h | h
      · rw [h] at hmem
        obtain ⟨h1, h2⟩ := shape_env K _ _ _ _ _ _ _ _ _ [] _ noRun_nil
          (runLocalPackage_shape K dir oenv persisted l paramList timeout []) c ps t pe q hmem
        exact ⟨l, [], hl, h, h1, h2⟩
      · rw [h] at hmem
        obtain ⟨h1, h2⟩ := shape_env K _ _ _ _ _ _ _ _ _ _ _
          (getOnlinePluginInfo_noRun oenv pluginName pluginVersion)
          (runLocalPackage_shape K dir oenv persisted l paramList timeout _) c ps t pe q hmem
        exact ⟨l, _, hl, h, h1, h2⟩
    · right
      rw [h] at hmem
      rcases installOnline_shape K dir oenv persisted o pluginName paramList timeout _
        (getOnlinePluginInfo_noRun oenv pluginName pluginVersion) with
        hno | ⟨config, front, hc, hf, htr⟩
      · exact absurd trivial (hno _ hmem)
      · obtain ⟨h1, h2⟩ := shape_env K _ _ _ _ _ _ _ _ _ front _ hf htr c ps t pe q hmem
        exact ⟨o, other, config, ho, h, hc, h1, h2⟩

theorem needReportStatus_iff (K : Consts) (ps : List String) :
    needReportStatus K ps = true ↔ ∃ p ∈ ps, p ∈ K.NEED_REFRESH_STATUS_API := by
  simp only [needReportStatus, List.any_eq_true, decide_eq_true_eq]
  constructor
  · rintro ⟨p, hp, pp, hpp, rfl⟩
    exact ⟨p, hp, hpp⟩
  · rintro ⟨p, hp, hpp⟩
    exact ⟨p, hp, p, hpp, rfl⟩

/-- When the status check is made: `needReportStatus` is true exactly when
some parameter equals some element of `NEED_REFRESH_STATUS_API`, so it is
false for the empty list. When
`executePluginFromFile` or `executePluginOnlineOrLocal` has run the plugin, a
follow-up `--status` run is made only if the plugin type is Persist and
`needReportStatus` holds of the parameters, and it is made in that case
whenever the command file is there at the check; a status report is posted
only in that case. The plugin type is the one of the package's `config.json`
for an install from a file or from the catalog, the one of the local record
for a local run. -/
theorem status_check_condition (K : Consts) (cmp : String → String → Int) (dir : String)
    (pm : PluginManager) (fenv : FromFileEnv) (oenv : OnlineEnv) (persisted : List PluginInfo)
    (file pluginName pluginVersion : String) (paramList : List String) (timeout : Int)
    (isLocal : Bool) :
    (∀ ps, needReportStatus K ps = true ↔ ∃ p ∈ ps, p ∈ K.NEED_REFRESH_STATUS_API)
      ∧ needReportStatus K [] = false
      ∧ (∀ r c ps t pe,
          executePluginFromFile K cmp dir pm fenv persisted file paramList timeout = some r →
          Event.syncRun c ps t pe false ∈ r.trace →
          ∃ config, fenv.config = Except.ok config
            ∧ (hasStatusCheck r.trace →
                config.PluginType.1 = PLUGIN_PERSIST ∧ needReportStatus K paramList = true)
            ∧ (fenv.check.run.cmdExists = true → config.PluginType.1 = PLUGIN_PERSIST →
                needReportStatus K paramList = true → hasStatusCheck r.trace)
            ∧ (∀ n v st, Event.httpPostStatus n v st ∈ r.trace →
                config.PluginType.1 = PLUGIN_PERSIST ∧ needReportStatus K paramList = true))
      ∧ (∀ c ps t pe,
          Event.syncRun c ps t pe false
            ∈ (executePluginOnlineOrLocal K cmp dir oenv persisted pluginName pluginVersion
                paramList timeout isLocal).trace →
          ∃ pt,
            ((∃ l before,
                getLocalPluginInfo oenv.loadErr persisted pluginName pluginVersion
                  = Except.ok (some l)
                ∧ executePluginOnlineOrLocal K cmp dir oenv persisted pluginName pluginVersion
                    paramList timeout isLocal
                  = runLocalPackage K dir oenv persisted l paramList timeout before
                ∧ pt = l.PluginType)
              ∨ ∃ o other config,
                (getOnlinePluginInfo oenv pluginName pluginVersion).1
                  = Except.ok (some o, other)
                ∧ executePluginOnlineOrLocal K cmp dir oenv persisted pluginName pluginVersion
                    paramList timeout isLocal
                  = installOnline K dir oenv persisted o pluginName paramList timeout
                      (getOnlinePluginInfo oenv pluginName pluginVersion).2
                ∧ oenv.config = Except.ok config ∧ pt = config.PluginType.1)
            ∧ (hasStatusCheck (executePluginOnlineOrLocal K cmp dir oenv persisted pluginName
                  pluginVersion paramList timeout isLocal).trace →
                pt = PLUGIN_PERSIST ∧ needReportStatus K paramList = true)
            ∧ (oenv.check.run.cmdExists = true → pt = PLUGIN_PERSIST →
                needReportStatus K paramList = true →
                hasStatusCheck (executePluginOnlineOrLocal K cmp dir oenv persisted pluginName
                  pluginVersion paramList timeout isLocal).trace)
            ∧ (∀ n v st, Event.httpPostStatus n v st
                ∈ (executePluginOnlineOrLocal K cmp dir oenv persisted pluginName
                  pluginVersion paramList timeout isLocal).trace →
                pt = PLUGIN_PERSIST ∧ needReportStatus K paramList = true)) := by
  refine ⟨needReportStatus_iff K, rfl, ?_, ?_⟩
  · intro r c ps t pe hr hmem
    rcases executePluginFromFile_shape K cmp dir pm fenv persisted file paramList timeout r hr
      with h | ⟨config, front, t1, hc, hf, htr⟩
    · exact absurd trivial (h _ hmem)
    · obtain ⟨h1, h2, h3⟩ := shape_status K _ _ _ _ _ _ _ _ _ front r.trace hf htr
      refine ⟨config, hc, ?_, ?_, ?_⟩
      · intro hs
        exact ⟨(decode_str_persist _).1 (h1 hs).1, (h1 hs).2⟩
      · intro hcheck hpt hneed
        exact h2 hcheck ((decode_str_persist _).2 hpt) hneed
      · intro n v st hp
        exact ⟨(decode_str_persist _).1 (h3 n v st hp).1, (h3 n v st hp).2⟩
  · intro c ps t pe hmem
    rcases onlineOrLocal_shape K cmp dir oenv persisted pluginName pluginVersion paramList
      timeout isLocal with h | h | ⟨l, hl, h⟩ | ⟨o, other, ho, h⟩
    · rw [h] at hmem
      exact absurd hmem (List.not_mem_nil _)
    · rw [h] at hmem
      exact absurd trivial (getOnlinePluginInfo_noRun oenv pluginName pluginVersion _ hmem)
    · refine ⟨l.PluginType, Or.inl ?_, ?_⟩
      · rcases h with h | h
        · exact ⟨l, _, hl, h, rfl⟩
        · exact ⟨l, _, hl, h, rfl⟩
      · rcases h with h | h
        · rw [h]
          exact shape_status K _ _ _ _ _ _ _ _ _ [] _ noRun_nil
            (runLocalPackage_shape K dir oenv persisted l paramList timeout [])
        · rw [h]
          exact shape_status K _ _ _ _ _ _ _ _ _ _ _
            (getOnlinePluginInfo_noRun oenv pluginName pluginVersion)
            (runLocalPackage_shape K dir oenv persisted l paramList timeout _)
    · rw [h] at hmem
      rcases installOnline_shape K dir oenv persisted o pluginName paramList timeout _
        (getOnlinePluginInfo_noRun oenv pluginName pluginVersion) with
        hno | ⟨config, front, hc, hf, htr⟩
      · exact absurd trivial (hno _ hmem)
      · refine ⟨config.PluginType.1, Or.inr ⟨o, other, config, ho, h, hc, rfl⟩, ?_⟩
        rw [h]
        exact shape_status K _ _ _ _ _ _ _ _ _ front _ hf htr

/-! ## Theorems: status frames, bytesToIntU, exit of ShowPluginStatus -/

theorem processStatus_other (b : Byte) (rest : List Byte) (h2 : b ≠ 2) (h5 : b ≠ 5) :
    ProcessStatusDataChannel (b :: rest) = Go.ret (none, []) := by
  have e2 : ((b.val : Nat) : Int) ≠ 2 := by
    intro h
    apply h2
    apply Fin.ext
    have : b.val = 2 := by exact_mod_cast h
    simpa using this
  have e5 : ((b.val : Nat) : Int) ≠ 5 := by
    intro h
    apply h5
    apply Fin.ext
    have : b.val = 5 := by exact_mod_cast h
    simpa using this
  simp [ProcessStatusDataChannel, bytesToIntU, e2, e5]

/-- C21, as stated, fails: status frames whose first payload byte is 0 or 4,
bytes other than 3, are not fatal: `ProcessStatusDataChannel` returns nil for
them and `readLoop` goes on with `poison` open. -/
theorem status_zero_not_fatal :
    ProcessStatusDataChannel [0] = Go.ret (none, [])
      ∧ ProcessStatusDataChannel [4] = Go.ret (none, [])
      ∧ (readLoop (fun _ => none) (NewClient false false false) []
          [ReadEvent.received ⟨statusFrame [0], none⟩]).client.poison = ChanState.isOpen
      ∧ (readLoop (fun _ => none) (NewClient false false false) []
          [ReadEvent.received ⟨statusFrame [0], none⟩]).ended = Go.ret none := by
  decide

/-- C21, amended: a status frame that arrives without read error, passes
validation and has a payload with a first byte is fatal exactly when that byte
is 2 or 5: then `ProcessStatusDataChannel` returns a non-nil error and
`readLoop` closes `poison` and returns. For every other first byte, 3
included, `ProcessStatusDataChannel` returns nil, writes nothing, and
`readLoop` goes on with the next round, client and output unchanged. -/
theorem status_fatal_iff (validate : Message → GoError) (c : Client)
    (out : List (List Byte)) (m : Message) (evs : List ReadEvent) (b : Byte)
    (rest : List Byte) (hk : m.MessageType = MessageKind.StatusDataChannel)
    (hv : validate m = none) (hp : m.Payload = b :: rest) :
    ((∃ e w, ProcessStatusDataChannel m.Payload = Go.ret (some e, w)) ↔ (b = 2 ∨ b = 5))
      ∧ ((b = 2 ∨ b = 5) →
          (readLoop validate c out (ReadEvent.received ⟨m, none⟩ :: evs)).client.poison
              = ChanState.isClosed
            ∧ (readLoop validate c out (ReadEvent.received ⟨m, none⟩ :: evs)).ended
              = Go.ret (some committedSuicide))
      ∧ (¬ (b = 2 ∨ b = 5) →
          ProcessStatusDataChannel m.Payload = Go.ret (none, [])
            ∧ readLoop validate c out (ReadEvent.received ⟨m, none⟩ :: evs)
              = readLoop validate c out evs) := by
  refine ⟨?_, ?_, ?_⟩
  · constructor
    · rintro ⟨e, w, h⟩
      by_contra hb
      have h2 : b ≠ 2 := fun h => hb (Or.inl h)
      have h5 : b ≠ 5 := fun h => hb (Or.inr h)
      rw [hp, processStatus_other b rest h2 h5] at h
      simp at h
    · intro hb
      rw [hp]
      exact processStatus_fatal b rest hb
  · intro hb
    exact readLoop_fatal validate c out m evs b rest hk hv hp hb
  · intro hb
    have h2 : b ≠ 2 := fun h => hb (Or.inl h)
    have h5 : b ≠ 5 := fun h => hb (Or.inr h)
    have ho := processStatus_other b rest h2 h5
    refine ⟨by rw [hp]; exact ho, ?_⟩
    simp [readLoop, hk, hv, hp, ho]

/-- Witness of the amended C21 on the frame with payload [4]. -/
theorem status_fatal_iff_witness :
    ProcessStatusDataChannel (statusFrame [4]).Payload = Go.ret (none, [])
      ∧ readLoop (fun _ => none) (NewClient false false false) []
          [ReadEvent.received ⟨statusFrame [4], none⟩]
        = readLoop (fun _ => none) (NewClient false false false) [] [] :=
  (status_fatal_iff (fun _ => none) (NewClient false false false) [] (statusFrame [4]) [] 4 []
    rfl rfl rfl).2.2 (by decide)

/-- C26, the code at the failing input: for the payload without a byte the
slice expression `payload[0:1]` panics before `bytesToIntU` is called, so
`ProcessStatusDataChannel` does not return; `readLoop`, which has no deferred
recover, is left by the panic when such a status frame arrives without read
error and passes validation, `poison` staying open. -/
theorem empty_status_payload_panics :
    ProcessStatusDataChannel [] = Go.panic "slice bounds out of range"
      ∧ (readLoop (fun _ => none) (NewClient false false false) []
          [ReadEvent.received ⟨statusFrame [], none⟩]).ended
        = Go.panic "slice bounds out of range"
      ∧ (readLoop (fun _ => none) (NewClient false false false) []
          [ReadEvent.received ⟨statusFrame [], none⟩]).client.poison = ChanState.isOpen
      ∧ bytesToIntU [] = (0, some "BytesToInt bytes lenth is invaild!") := by
  decide

/-- C29: when the registry loads, `ShowPluginStatus` returns exit code
`SUCCESS` and the error of the serialisation of the status list, so a nil
error unless that serialisation fails, whatever the `--status` runs of the
plugins return; the returned code and error are the same for any two
behaviours of the runs. -/
theorem showPluginStatus_exit (K : Consts) (dir : String) (env : ShowEnv)
    (persisted : List PluginInfo) (h : env.loadErr = none) :
    (ShowPluginStatus K dir env persisted).exitCode = SUCCESS
      ∧ (ShowPluginStatus K dir env persisted).err = env.marshalErr
      ∧ (env.marshalErr = none → (ShowPluginStatus K dir env persisted).err = none)
      ∧ ∀ runs : Nat → RunOutcome,
          (ShowPluginStatus K dir { env with runs := runs } persisted).exitCode
              = (ShowPluginStatus K dir env persisted).exitCode
            ∧ (ShowPluginStatus K dir { env with runs := runs } persisted).err
              = (ShowPluginStatus K dir env persisted).err := by
  refine ⟨?_, ?_, ?_, ?_⟩
  · simp [ShowPluginStatus, h]
  · simp [ShowPluginStatus, h]
  · intro hm
    simp [ShowPluginStatus, h, hm]
  · intro runs
    simp [ShowPluginStatus, h]

/-- Witness of C29: on `sampleRegistry`, every `--status` run failing with an
error, the call returns `SUCCESS` and nil. -/
theorem showPluginStatus_exit_witness :
    (ShowPluginStatus sampleConsts "/plugins"
        { runs := fun _ => { status := ProcStatus.Fail, err := some "exit status 1" } }
        sampleRegistry).exitCode = SUCCESS
      ∧ (ShowPluginStatus sampleConsts "/plugins"
        { runs := fun _ => { status := ProcStatus.Fail, err := some "exit status 1" } }
        sampleRegistry).err = none :=
  ⟨(showPluginStatus_exit sampleConsts "/plugins"
      { runs := fun _ => { status := ProcStatus.Fail, err := some "exit status 1" } }
      sampleRegistry rfl).1,
    (showPluginStatus_exit sampleConsts "/plugins"
      { runs := fun _ => { status := ProcStatus.Fail, err := some "exit status 1" } }
      sampleRegistry rfl).2.2.1 rfl⟩

theorem unsignedBigEndian_small (x y z w : Byte) :
    unsignedBigEndian [x] = x.val
      ∧ unsignedBigEndian [x, y] = x.val * 256 + y.val
      ∧ unsignedBigEndian [x, y, z] = (x.val * 256 + y.val) * 256 + z.val
      ∧ unsignedBigEndian [x, y, z, w] = ((x.val * 256 + y.val) * 256 + z.val) * 256 + w.val := by
  refine ⟨?_, ?_, ?_, ?_⟩
  · simp [unsignedBigEndian, List.range_succ]
  · simp [unsignedBigEndian, List.range_succ]
  · simp [unsignedBigEndian, List.range_succ]
    ring
  · simp [unsignedBigEndian, List.range_succ]
    ring

/-- C30: for every byte slice of length 1, 2, 3 or 4 `bytesToIntU` returns a
nil error and the unsigned big-endian value of the bytes, the sum of
`b[i] * 256 ^ (len b - 1 - i)`, which is at least 0 and below `256 ^ len b`,
hence below 2^63, the conversion to a 64-bit `int` losing nothing; three bytes
give what the four bytes with a zero byte in front give; for every other
length, 0 included, it returns 0 and a non-nil error. -/
theorem bytesToIntU_unsigned (b : List Byte) :
    ((b.length = 1 ∨ b.length = 2 ∨ b.length = 3 ∨ b.length = 4) →
        bytesToIntU b = (((unsignedBigEndian b : Nat) : Int), none)
          ∧ 0 ≤ (bytesToIntU b).1
          ∧ (bytesToIntU b).1 < 256 ^ b.length
          ∧ (bytesToIntU b).1 < 2 ^ 63)
      ∧ (b.length = 3 → bytesToIntU b = bytesToIntU ((0 : Byte) :: b))
      ∧ (¬ (b.length = 1 ∨ b.length = 2 ∨ b.length = 3 ∨ b.length = 4) →
        bytesToIntU b = (0, some "BytesToInt bytes lenth is invaild!")) := by
  rcases b with _ | ⟨x, _ | ⟨y, _ | ⟨z, _ | ⟨w, _ | ⟨v, t⟩⟩⟩⟩⟩
  · refine ⟨fun h => by simp at h, fun h => by simp at h, fun _ => by simp [bytesToIntU]⟩
  · obtain ⟨e1, -, -, -⟩ := unsignedBigEndian_small x x x x
    have hx := x.isLt
    refine ⟨fun _ => ?_, fun h => by simp at h, fun h => by simp at h⟩
    rw [e1]
    refine ⟨by simp [bytesToIntU], ?_, ?_, ?_⟩ <;> (simp [bytesToIntU]; try omega)
  · obtain ⟨-, e2, -, -⟩ := unsignedBigEndian_small x y x x
    have hx := x.isLt
    have hy := y.isLt
    refine ⟨fun _ => ?_, fun h => by simp at h, fun h => by simp at h⟩
    rw [e2]
    refine ⟨by simp [bytesToIntU], ?_, ?_, ?_⟩ <;> simp [bytesToIntU] <;> omega
  · obtain ⟨-, -, e3, -⟩ := unsignedBigEndian_small x y z x
    have hx := x.isLt
    have hy := y.isLt
    have hz := z.isLt
    refine ⟨fun _ => ?_, fun _ => by simp [bytesToIntU], fun h => by simp at h⟩
    rw [e3]
    refine ⟨by simp [bytesToIntU], ?_, ?_, ?_⟩ <;> simp [bytesToIntU] <;> omega
  · obtain ⟨-, -, -, e4⟩ := unsignedBigEndian_small x y z w
    have hx := x.isLt
    have hy := y.isLt
    have hz := z.isLt
    have hw := w.isLt
    refine ⟨fun _ => ?_, fun h => by simp at h, fun h => by simp at h⟩
    rw [e4]
    refine ⟨by simp [bytesToIntU], ?_, ?_, ?_⟩ <;> simp [bytesToIntU] <;> omega
  · refine ⟨fun h => by simp at h, fun h => by simp at h, fun _ => ?_⟩
    simp [bytesToIntU]

/-- Witness of C30 on the three bytes 1, 2, 3, whose value is 66051. -/
theorem bytesToIntU_unsigned_witness :
    bytesToIntU [1, 2, 3] = (((unsignedBigEndian [1, 2, 3] : Nat) : Int), none)
      ∧ 0 ≤ (bytesToIntU [1, 2, 3]).1
      ∧ (bytesToIntU [1, 2, 3]).1 < 256 ^ ([1, 2, 3] : List Byte).length
      ∧ (bytesToIntU [1, 2, 3]).1 < 2 ^ 63 :=
  (bytesToIntU_unsigned [1, 2, 3]).1 (Or.inr (Or.inr (Or.inl rfl)))

/-! ## Theorems: the registry before the dump of executePluginFromFile -/

theorem noDump_append_single (tr : List Event) (e : Event) (h : noDump tr)
    (he : ∀ l, e ≠ Event.dump l) : noDump (tr ++ [e]) := by
  intro l hl
  rcases List.mem_append.1 hl with h1 | h1
  · exact h l h1
  · rw [List.mem_singleton] at h1
    exact he l h1.symm

theorem installFromFile_before_dump (K : Consts) (dir : String) (env : FromFileEnv)
    (persisted installed : List PluginInfo) (found : Option (Nat × PluginInfo))
    (config : pluginConfig) (file unzipdir dirName pre : String) (paramList : List String)
    (timeout : Int) (before : List Event) (hb : noDump before) :
    ((∃ e, env.md5 = Except.error e) ∨ env.cmdExists = false
        ∨ (env.osType ≠ OSWin ∧ env.chmodErr ≠ none) →
      (installFromFile K dir env persisted installed found config file unzipdir dirName
          pre paramList timeout before).persisted = persisted
        ∧ noDump (installFromFile K dir env persisted installed found config file unzipdir
          dirName pre paramList timeout before).trace
        ∧ (installFromFile K dir env persisted installed found config file unzipdir dirName
          pre paramList timeout before).exitCode ∈ codesBeforeDump K)
      ∧ (noDump (installFromFile K dir env persisted installed found config file unzipdir
          dirName pre paramList timeout before).trace →
        (installFromFile K dir env persisted installed found config file unzipdir dirName
          pre paramList timeout before).persisted = persisted) := by
  have h2 : ∀ x y z, noDump (before ++ [Event.computeMd5 x, Event.copyDir y z]) := by
    intro x y z l hl
    simp only [List.mem_append, List.mem_cons, List.mem_singleton, List.not_mem_nil,
      or_false, reduceCtorEq] at hl
    exact hb l hl
  unfold installFromFile
  cases hm : env.md5 with
  | error e =>
    refine ⟨fun _ => ⟨rfl, ?_, by simp [codesBeforeDump]⟩, fun _ => rfl⟩
    exact noDump_append_single _ _ hb (fun l h => Event.noConfusion h)
  | ok md5Str =>
    dsimp only
    by_cases hc : env.cmdExists = true
    · simp only [hc, Bool.not_true, Bool.false_eq_true, if_false]
      by_cases hch : env.osType ≠ OSWin ∧ env.chmodErr ≠ none
      · rw [if_pos hch, if_pos hch.1]
        refine ⟨fun _ => ⟨rfl, ?_, by simp [codesBeforeDump]⟩, fun _ => rfl⟩
        exact noDump_append_single _ _ (h2 _ _ _) (fun l h => Event.noConfusion h)
      · rw [if_neg hch]
        rcases Option.eq_none_or_eq_some env.dumpErr with hd | ⟨e, hd⟩
        · rw [hd]
          dsimp only
          constructor
          · rintro (⟨e, he⟩ | he | he)
            · exact Except.noConfusion he
            · exact Bool.noConfusion he
            · exact absurd he hch
          · intro hno
            exfalso
            refine hno (storeFromFile installed found
              (recordFromConfig config found md5Str timeout).1).1 ?_
            exact List.mem_append_left _
              (List.mem_append_left _ (List.mem_append_right _ (List.mem_singleton.2 rfl)))
        · rw [hd]
          dsimp only
          constructor
          · rintro (⟨e, he⟩ | he | he)
            · exact Except.noConfusion he
            · exact Bool.noConfusion he
            · exact absurd he hch
          · intro _
            rfl
    · have hc2 : env.cmdExists = false := by
        cases h : env.cmdExists
        · rfl
        · exact absurd h hc
      rw [if_pos (by rw [hc2]; rfl)]
      exact ⟨fun _ => ⟨rfl, h2 _ _ _, by simp [codesBeforeDump]⟩, fun _ => rfl⟩

theorem noDump_nil : noDump [] := by
  intro l hl
  exact absurd hl (List.not_mem_nil _)

theorem noDump_unzip (x y : String) : noDump [Event.unzip x y] := by
  intro l hl
  rw [List.mem_singleton] at hl
  exact Event.noConfusion hl

theorem executePluginFromFile_reach (K : Consts) (cmp : String → String → Int)
    (dir : String) (pm : PluginManager) (env : FromFileEnv) (persisted : List PluginInfo)
    (file : String) (paramList : List String) (timeout : Int) (r : Result)
    (h : executePluginFromFile K cmp dir pm env persisted file paramList timeout = some r) :
    (r.persisted = persisted ∧ noDump r.trace
        ∧ (r.exitCode ∈ codesBeforeDump K ∨ (pm.Yes = false ∧ r.exitCode = SUCCESS)))
      ∨ ∃ config name unzipdir dirName, env.fileExists = true
        ∧ splitPackagePath file = some (name, unzipdir) ∧ env.unzipErr = none
        ∧ ¬ (env.configTop = false ∧ env.configNested = false)
        ∧ env.config = Except.ok config
        ∧ ¬ (config.OsType ≠ "" ∧ stringsToLower config.OsType ≠ env.osType)
        ∧ ¬ (config.Arch ≠ "" ∧ stringsToLower config.Arch ≠ "all"
          ∧ stringsToLower config.Arch ≠ env.localArch)
        ∧ env.loadErr = none
        ∧ r = installFromFile K dir env persisted (lookupInstalled config.Name persisted).1
            (lookupInstalled config.Name persisted).2 config file unzipdir dirName
            (replacedDir dir config.Name persisted) paramList timeout
            [Event.unzip file unzipdir] := by
  unfold executePluginFromFile at h
  by_cases h1 : env.fileExists = true
  swap
  · simp only [h1, Bool.not_false, Bool.not_eq_true, if_true, Option.some.injEq] at h
    subst h; left
    exact ⟨rfl, noDump_nil, Or.inl (by simp [codesBeforeDump])⟩
  simp only [h1, Bool.not_true, Bool.false_eq_true, if_false] at h
  cases h2 : splitPackagePath file with
  | none =>
    simp only [h2, Option.some.injEq] at h
    subst h; left
    exact ⟨rfl, noDump_nil, Or.inl (by simp [codesBeforeDump])⟩
  | some pr =>
    obtain ⟨pluginName, unzipdir⟩ := pr
    simp only [h2] at h
    cases h3 : env.unzipErr with
    | some e =>
      simp only [h3, Option.some.injEq] at h
      subst h; left
      exact ⟨rfl, noDump_unzip _ _, Or.inl (by simp [codesBeforeDump])⟩
    | none =>
      simp only [h3] at h
      by_cases h4 : (!env.configTop) = true ∧ (!env.configNested) = true
      · rw [if_pos h4] at h
        simp only [Option.some.injEq] at h
        subst h; left
        exact ⟨rfl, noDump_unzip _ _, Or.inl (by simp [codesBeforeDump])⟩
      rw [if_neg h4] at h
      have h4b : ¬ (env.configTop = false ∧ env.configNested = false) := by
        rintro ⟨a, b⟩
        apply h4
        rw [a, b]
        exact ⟨rfl, rfl⟩
      cases h5 : env.config with
      | error e =>
        simp only [h5, Option.some.injEq] at h
        subst h; left
        exact ⟨rfl, noDump_unzip _ _, Or.inl (by simp [codesBeforeDump])⟩
      | ok config =>
        simp only [h5] at h
        by_cases h6 : config.OsType ≠ "" ∧ stringsToLower config.OsType ≠ env.osType
        · rw [if_pos h6] at h
          simp only [Option.some.injEq] at h
          subst h; left
          exact ⟨rfl, noDump_unzip _ _, Or.inl (by simp [codesBeforeDump])⟩
        rw [if_neg h6] at h
        by_cases h7 : config.Arch ≠ "" ∧ stringsToLower config.Arch ≠ "all"
            ∧ stringsToLower config.Arch ≠ env.localArch
        · rw [if_pos h7] at h
          simp only [Option.some.injEq] at h
          subst h; left
          exact ⟨rfl, noDump_unzip _ _, Or.inl (by simp [codesBeforeDump])⟩
        rw [if_neg h7] at h
        cases h8 : env.loadErr with
        | some e =>
          simp only [h8, Option.some.injEq] at h
          subst h; left
          exact ⟨rfl, noDump_unzip _ _, Or.inl (by simp [codesBeforeDump])⟩
        | none =>
          simp only [h8] at h
          split at h
          · exact absurd h (by simp)
          · split at h
            · rename_i hasked
              simp only [Option.some.injEq] at h
              subst h; left
              refine ⟨rfl, noDump_unzip _ _, Or.inr ⟨?_, rfl⟩⟩
              have ha := hasked.1
              revert ha
              cases (lookupInstalled config.Name persisted).2 with
              | none => simp
              | some x =>
                cases hy : pm.Yes
                · intro _; rfl
                · simp
            · simp only [Option.some.injEq] at h
              subst h
              right
              exact ⟨config, pluginName, unzipdir, _, h1, rfl, rfl, h4b, rfl, h6, h7, rfl, rfl⟩

/-- C28: a call of `executePluginFromFile` that returns without having dumped
the registry leaves the persisted registry exactly as it was; and when a step
before the dump fails (missing file, name failing the zip check, unzip error,
missing or unparsable `config.json`, OS type or arch not suiting the host,
registry load error, md5 error, missing command file, chmod error) the call
dumps nothing and leaves the registry as it was, returning one of the exit
codes of these steps when no prompt is asked. -/
theorem fromFile_registry_kept_before_dump (K : Consts) (cmp : String → String → Int)
    (dir : String) (pm : PluginManager) (env : FromFileEnv) (persisted : List PluginInfo)
    (file : String) (paramList : List String) (timeout : Int) (r : Result)
    (h : executePluginFromFile K cmp dir pm env persisted file paramList timeout = some r) :
    (noDump r.trace → r.persisted = persisted)
      ∧ (failsBeforeDump env file →
          r.persisted = persisted ∧ noDump r.trace
            ∧ (pm.Yes = true → r.exitCode ∈ codesBeforeDump K)) := by
  rcases executePluginFromFile_reach K cmp dir pm env persisted file paramList timeout r h with
    ⟨hp, hn, hcode⟩ | ⟨config, name, unzipdir, dirName, c1, c2, c3, c4, c5, c6, c7, c8, hr⟩
  · refine ⟨fun _ => hp, fun _ => ⟨hp, hn, fun hy => ?_⟩⟩
    rcases hcode with hc | ⟨hf, _⟩
    · exact hc
    · rw [hy] at hf
      exact Bool.noConfusion hf
  · have hi := installFromFile_before_dump K dir env persisted
      (lookupInstalled config.Name persisted).1 (lookupInstalled config.Name persisted).2
      config file unzipdir dirName (replacedDir dir config.Name persisted) paramList timeout
      [Event.unzip file unzipdir] (noDump_unzip _ _)
    rw [← hr] at hi
    refine ⟨hi.2, fun hfail => ?_⟩
    have hlate : (∃ e, env.md5 = Except.error e) ∨ env.cmdExists = false
        ∨ (env.osType ≠ OSWin ∧ env.chmodErr ≠ none) := by
      rcases hfail with a | a | a | a | ⟨e, a⟩ | ⟨cfg, a, b⟩ | a | a | a | a
      · rw [c1] at a
        exact Bool.noConfusion a
      · rw [c2] at a
        exact Option.noConfusion a
      · exact absurd c3 a
      · exact absurd a c4
      · rw [c5] at a
        exact Except.noConfusion a
      · rw [c5] at a
        simp only [Except.ok.injEq] at a
        subst a
        rcases b with b | b
        · exact absurd b c6
        · exact absurd b c7
      · exact absurd c8 a
      · exact Or.inl a
      · exact Or.inr (Or.inl a)
      · exact Or.inr (Or.inr a)
    obtain ⟨p1, p2, p3⟩ := hi.1 hlate
    exact ⟨p1, p2, fun _ => p3⟩

/-- Witness of C28: with A version "1" installed, installing A version "2"
from a file whose md5 cannot be computed returns `MD5_CHECK_FAIL` and leaves
the registry as it was. -/
theorem fromFile_registry_kept_before_dump_witness :
    (⟨sampleConsts.MD5_CHECK_FAIL, some "read error", installedA1,
        [Event.unzip "/tmp/A.zip" "/tmp/A", Event.computeMd5 "/tmp/A.zip"]⟩ : Result).persisted
        = installedA1
      ∧ noDump (⟨sampleConsts.MD5_CHECK_FAIL, some "read error", installedA1,
        [Event.unzip "/tmp/A.zip" "/tmp/A", Event.computeMd5 "/tmp/A.zip"]⟩ : Result).trace
      ∧ (({} : PluginManager).Yes = true →
        (⟨sampleConsts.MD5_CHECK_FAIL, some "read error", installedA1,
          [Event.unzip "/tmp/A.zip" "/tmp/A", Event.computeMd5 "/tmp/A.zip"]⟩ : Result).exitCode
          ∈ codesBeforeDump sampleConsts) :=
  (fromFile_registry_kept_before_dump sampleConsts sampleCompare "/plugins" {}
    { config := Except.ok (sampleConfig "A" "2"), md5 := Except.error "read error" }
    installedA1 "/tmp/A.zip" [] 60
    ⟨sampleConsts.MD5_CHECK_FAIL, some "read error", installedA1,
      [Event.unzip "/tmp/A.zip" "/tmp/A", Event.computeMd5 "/tmp/A.zip"]⟩ rfl).2
    (Or.inr (Or.inr (Or.inr (Or.inr (Or.inr (Or.inr (Or.inr (Or.inl ⟨_, rfl⟩))))))))

/-! ## Theorems: syncRunKillGroup -/

/-- C22: `syncRunKillGroup` returns the exit code, status and error of
`SyncRun` unchanged; it runs the command once and then sends `SIGKILL` to the
process group of the child, `kill(-pid, SIGKILL)`, exactly when `SyncRun`
returned the error "timeout", which is how the runner reports a run ended by
its timeout: it makes no other `kill` call, and when the runner's status says
timeout exactly in that case the group is killed exactly on that status. -/
theorem syncRunKillGroup_spec (o : SyncRunOutcome) (workingDir commandName : String)
    (commandArguments : List String) (timeOut : Int) :
    (syncRunKillGroup o workingDir commandName commandArguments timeOut).1
        = (o.exitCode, o.status, o.err)
      ∧ (syncRunKillGroup o workingDir commandName commandArguments timeOut).2
        = SysCall.syncRun workingDir commandName commandArguments timeOut
          :: (if o.err = some "timeout" then [SysCall.kill (-o.pid) SIGKILL] else [])
      ∧ (SysCall.kill (-o.pid) SIGKILL
            ∈ (syncRunKillGroup o workingDir commandName commandArguments timeOut).2
          ↔ o.err = some "timeout")
      ∧ (∀ p s, SysCall.kill p s
            ∈ (syncRunKillGroup o workingDir commandName commandArguments timeOut).2 →
          p = -o.pid ∧ s = SIGKILL ∧ o.err = some "timeout")
      ∧ (∀ timeoutStatus : Int, (o.status = timeoutStatus ↔ o.err = some "timeout") →
          (SysCall.kill (-o.pid) SIGKILL
              ∈ (syncRunKillGroup o workingDir commandName commandArguments timeOut).2
            ↔ o.status = timeoutStatus)) := by
  have hcalls : (syncRunKillGroup o workingDir commandName commandArguments timeOut).2
      = SysCall.syncRun workingDir commandName commandArguments timeOut
        :: (if o.err = some "timeout" then [SysCall.kill (-o.pid) SIGKILL] else []) := by
    unfold syncRunKillGroup
    rcases Option.eq_none_or_eq_some o.err with h | ⟨msg, h⟩
    · rw [h]
      simp
    · rw [h]
      by_cases hm : msg = "timeout"
      · simp [hm]
      · simp [hm]
  have hret : (syncRunKillGroup o workingDir commandName commandArguments timeOut).1
      = (o.exitCode, o.status, o.err) := by
    unfold syncRunKillGroup
    rcases Option.eq_none_or_eq_some o.err with h | ⟨msg, h⟩
    · rw [h]
    · rw [h]
      by_cases hm : msg = "timeout"
      · simp [hm]
      · simp [hm]
  have hiff : SysCall.kill (-o.pid) SIGKILL
        ∈ (syncRunKillGroup o workingDir commandName commandArguments timeOut).2
      ↔ o.err = some "timeout" := by
    rw [hcalls]
    by_cases ht : o.err = some "timeout"
    · simp [ht]
    · simp [ht]
  refine ⟨hret, hcalls, hiff, ?_, ?_⟩
  · intro p s hmem
    rw [hcalls] at hmem
    by_cases ht : o.err = some "timeout"
    · rw [if_pos ht] at hmem
      simp only [List.mem_cons, List.mem_singleton, List.not_mem_nil, or_false,
        reduceCtorEq, false_or, SysCall.kill.injEq] at hmem
      exact ⟨hmem.1, hmem.2, ht⟩
    · rw [if_neg ht] at hmem
      simp at hmem
  · intro ts hts
    rw [hiff, hts]

/-! ## Theorems: the fetching gate and the count of fetchTasks -/

/-- C23: while fetching is not enabled, `Fetch` returns 0 for every
combination of arguments, whatever the lock and `fetchTasks` are, and calls
`fetchTasks` not at all; the gate is off in the initial state and on after
`EnableFetchingTask`. With the gate on, as in the other cases of `TestFetch`,
`Fetch` returns the sentinel when the lock is held and otherwise what
`fetchTasks` returns, 10 for the patched one of the test. -/
theorem fetch_disabled_returns_zero (E : Int)
    (fetchTasks : FetchReason → String → Int → Bool → Int) :
    (∀ (s : FetchState) (from_kick : Bool) (taskId : String) (taskType : Int)
        (isColdstart : Bool), isEnabledFetchingTask s = false →
        Fetch E fetchTasks s from_kick taskId taskType isColdstart = (0, []))
      ∧ isEnabledFetchingTask {} = false
      ∧ (∀ s, isEnabledFetchingTask (EnableFetchingTask s) = true)
      ∧ (∀ (from_kick : Bool) (taskId : String) (taskType : Int) (isColdstart : Bool),
          Fetch E fetchTasks { EnableFetchingTask {} with locked := true } from_kick taskId
            taskType isColdstart = (E, []))
      ∧ (∀ (from_kick : Bool) (taskId : String) (taskType : Int) (isColdstart : Bool),
          (Fetch E (fun _ _ _ _ => 10) (EnableFetchingTask {}) from_kick taskId taskType
            isColdstart).1 = 10) := by
  refine ⟨?_, rfl, fun _ => rfl, ?_, ?_⟩
  · intro s fk id ty cs h
    simp [Fetch, h]
  · intro fk id ty cs
    simp [Fetch, isEnabledFetchingTask, EnableFetchingTask]
  · intro fk id ty cs
    simp [Fetch, isEnabledFetchingTask, EnableFetchingTask]

/-- Witness of C23: in the initial state the call of the test, with the zero
values, returns 0 and does not call `fetchTasks`. -/
theorem fetch_disabled_returns_zero_witness :
    Fetch (-7) (fun _ _ _ _ => 10) {} false "" 0 false = (0, []) :=
  (fetch_disabled_returns_zero (-7) (fun _ _ _ _ => 10)).1 {} false "" 0 false rfl

/-- The count of `fetchTasks` as the spec words it and the test of the
repository do not agree: for the batch with exactly one item in each of the
five lists the count of all items is 5, where `Test_fetchTasks` demands 4; so
no function both passes the test and returns, for every batch, the number of
items of the five lists. The function itself is not among the sources. -/
theorem fetchTasks_count_not_five :
    itemCount oneOfEach = 5
      ∧ fetchTasksAsSpecified (fun _ _ _ _ => oneOfEach) "" "" 0 false = 5
      ∧ ¬ Test_fetchTasks fetchTasksAsSpecified
      ∧ ¬ ∃ fetchTasks, Test_fetchTasks fetchTasks ∧ countsAllFive fetchTasks := by
  have h5 : itemCount oneOfEach = 5 := by decide
  refine ⟨h5, h5, ?_, ?_⟩
  · intro h
    have h' : itemCount oneOfEach = 4 := h
    rw [h5] at h'
    exact absurd h' (by decide)
  · rintro ⟨f, ht, hc⟩
    have h' : f (fun _ _ _ _ => oneOfEach) "" "" 0 false = 4 := ht
    rw [hc, h5] at h'
    exact absurd h' (by decide)

/-! ## Theorems: writeLoopRawMode -/

theorem rawSuicide_fields (c : Client) (buf : List Byte) (calls : List (List Byte))
    (sent : List Message) :
    (rawSuicide c buf calls sent).resend_buff = buf
      ∧ (rawSuicide c buf calls sent).streamCalls = calls
      ∧ (rawSuicide c buf calls sent).sent = sent := by
  unfold rawSuicide
  split <;> exact ⟨rfl, rfl, rfl⟩

theorem sendFrame_sent (serialize : Message → Except String (List Byte)) (d : Bool)
    (env : SendEnv) (c : Client) (m : Message) (r : SendResult)
    (h : sendFrame serialize d env c m = some r) :
    r.client.real_connected = c.real_connected ∧ ∀ x ∈ r.sent.toList, x = m := by
  unfold sendFrame at h
  cases hs : serialize m with
  | error e =>
    rw [hs] at h
    simp only [Option.some.injEq] at h
    subst h
    exact ⟨rfl, by simp⟩
  | ok bs =>
    rw [hs] at h
    dsimp only at h
    have hm : ∀ c1 e w, sendMessage c bs env.write = some (c1, e, w) →
        c1.real_connected = c.real_connected := by
      intro c1 e w hsm
      unfold sendMessage at hsm
      split at hsm
      · simp only [Option.some.injEq, Prod.mk.injEq] at hsm
        rw [← hsm.1]
      · split at hsm
        · exact Option.noConfusion hsm
        · split at hsm <;>
            (simp only [Option.some.injEq, Prod.mk.injEq] at hsm; rw [← hsm.1])
    cases hsm : sendMessage c bs env.write with
    | none =>
      rw [hsm] at h
      exact Option.noConfusion h
    | some t =>
      obtain ⟨c1, e, w⟩ := t
      have hc1 := hm c1 e w hsm
      rw [hsm] at h
      cases e with
      | some e =>
        simp only [Option.some.injEq] at h
        subst h
        refine ⟨?_, by simp⟩
        cases d <;> simpa using hc1
      | none =>
        simp only [Option.some.injEq] at h
        subst h
        refine ⟨hc1, ?_⟩
        intro x hx
        cases w
        · simp at hx
        · simpa using hx

theorem sendStream_facts (serialize : Message → Except String (List Byte)) (env : SendEnv)
    (c : Client) (data : List Byte) :
    (c.writeLocked = false → ∃ r, SendStreamDataMessage serialize env c data = some r)
      ∧ (∀ r, SendStreamDataMessage serialize env c data = some r →
          r.client.real_connected = c.real_connected
            ∧ ∀ x ∈ r.sent.toList,
                x = buildMessage MessageKind.InputStreamDataMessage env c data) := by
  constructor
  · intro hw
    unfold SendStreamDataMessage
    split
    · exact ⟨_, rfl⟩
    · unfold sendFrame
      split
      · exact ⟨_, rfl⟩
      · rename_i bs _
        have : ∃ t, sendMessage c bs env.write = some t := by
          unfold sendMessage
          rw [hw]
          split
          · exact ⟨_, rfl⟩
          · simp only [Bool.false_eq_true, if_false]
            split <;> exact ⟨_, rfl⟩
        obtain ⟨⟨c1, e, w⟩, ht⟩ := this
        rw [ht]
        cases e <;> exact ⟨_, rfl⟩
  · intro r h
    unfold SendStreamDataMessage at h
    split at h
    · simp only [Option.some.injEq] at h
      subst h
      exact ⟨rfl, by simp⟩
    · exact sendFrame_sent serialize true env c _ r h

theorem sendStream_ok (serialize : Message → Except String (List Byte)) (env : SendEnv)
    (c : Client) (data bs : List Byte) (hd : data.length ≠ 0) (hw : c.writeLocked = false)
    (he : env.write = WriteOutcome.ok)
    (hs : serialize (buildMessage MessageKind.InputStreamDataMessage env c data) = Except.ok bs)
    (hb : ¬ bs.length < 1) :
    SendStreamDataMessage serialize env c data
      = some ⟨{ c with StreamDataSequenceNumber := c.StreamDataSequenceNumber + 1 }, none,
          some (buildMessage MessageKind.InputStreamDataMessage env c data)⟩ := by
  unfold SendStreamDataMessage
  rw [if_neg hd]
  unfold sendFrame
  rw [hs]
  dsimp only
  unfold sendMessage
  rw [if_neg hb, hw, he]
  simp [hw]

theorem sendClose_kind (serialize : Message → Except String (List Byte)) (env : SendEnv)
    (c : Client) (r : SendResult) (h : SendCloseMessage serialize env c = some r) :
    r.client.real_connected = c.real_connected
      ∧ ∀ x ∈ r.sent.toList, x.MessageType = MessageKind.CloseDataChannel := by
  obtain ⟨h1, h2⟩ := sendFrame_sent serialize true env c _ r h
  refine ⟨h1, fun x hx => ?_⟩
  rw [h2 x hx]
  rfl

theorem rawLoop_quiet_then (serialize : Message → Except String (List Byte))
    (pre post : List RawRound) :
    ∀ (c : Client) (buf : List Byte) (calls : List (List Byte)) (sent : List Message),
      c.real_connected = false →
      (∀ rd ∈ pre, rd.flagSet = false ∧ rd.readErr = none) →
      rawLoop serialize c buf calls sent (pre ++ post)
        = rawLoop serialize c (if buf.length = 0 then firstChunk pre else buf) calls sent
            post := by
  induction pre with
  | nil =>
    intro c buf calls sent _ _
    have : (if buf.length = 0 then firstChunk [] else buf) = buf := by
      cases buf with
      | nil => rfl
      | cons x t => simp
    rw [this]
    rfl
  | cons rd pre ih =>
    intro c buf calls sent hc hq
    have hrd := hq rd (List.mem_cons_self _ _)
    have hq' : ∀ r ∈ pre, r.flagSet = false ∧ r.readErr = none :=
      fun r hr => hq r (List.mem_cons_of_mem _ hr)
    rw [List.cons_append]
    simp only [rawLoop, hrd.1, hrd.2, Bool.false_eq_true, if_false]
    by_cases hd : rd.data.length = 0
    · rw [if_pos hd, ih c buf calls sent hc hq']
      simp only [firstChunk, hd, if_true]
    · rw [if_neg hd]
      have hnc : ¬ c.real_connected = true := by
        rw [hc]
        exact Bool.false_ne_true
      rw [if_neg hnc, ih c _ calls sent hc hq']
      congr 1
      simp only [firstChunk, hd, if_false]
      by_cases hb : buf.length = 0
      · simp only [hb, if_true, hd, if_false]
      · simp only [hb, if_false]

theorem rawLoop_unconnected (serialize : Message → Except String (List Byte))
    (rounds : List RawRound) :
    ∀ (c : Client) (buf : List Byte) (calls : List (List Byte)) (sent : List Message),
      c.real_connected = false →
      (∀ rd ∈ rounds, rd.flagSet = false) →
      (rawLoop serialize c buf calls sent rounds).streamCalls = calls
        ∧ ∀ m ∈ (rawLoop serialize c buf calls sent rounds).sent,
            m ∈ sent ∨ m.MessageType = MessageKind.CloseDataChannel := by
  induction rounds with
  | nil =>
    intro c buf calls sent _ _
    exact ⟨rfl, fun m hm => Or.inl hm⟩
  | cons rd rest ih =>
    intro c buf calls sent hc hq
    have hrd := hq rd (List.mem_cons_self _ _)
    have hq' : ∀ r ∈ rest, r.flagSet = false :=
      fun r hr => hq r (List.mem_cons_of_mem _ hr)
    simp only [rawLoop, hrd, Bool.false_eq_true, if_false]
    rcases Option.eq_none_or_eq_some rd.readErr with he | ⟨e, he⟩
    · rw [he]
      dsimp only
      by_cases hd : rd.data.length = 0
      · rw [if_pos hd]
        exact ih c buf calls sent hc hq'
      · rw [if_neg hd]
        have hnc : ¬ c.real_connected = true := by
          rw [hc]
          exact Bool.false_ne_true
        rw [if_neg hnc]
        exact ih c _ calls sent hc hq'
    · rw [he]
      dsimp only
      cases hs : SendCloseMessage serialize rd.closeEnv c with
      | none => exact ⟨rfl, fun m hm => Or.inl hm⟩
      | some r =>
        dsimp only
        obtain ⟨-, f2, f3⟩ := rawSuicide_fields r.client buf calls (sent ++ r.sent.toList)
        rw [f2, f3]
        refine ⟨rfl, fun m hm => ?_⟩
        rcases List.mem_append.1 hm with h | h
        · exact Or.inl h
        · exact Or.inr ((sendClose_kind serialize rd.closeEnv c r hs).2 m h)

theorem rawLoop_connected (serialize : Message → Except String (List Byte))
    (rounds : List RawRound) :
    ∀ (c : Client) (calls : List (List Byte)) (sent : List Message),
      c.real_connected = true →
      (rawLoop serialize c [] calls sent rounds).resend_buff = []
        ∧ ∃ later, (rawLoop serialize c [] calls sent rounds).streamCalls = calls ++ later
            ∧ later.Sublist (rounds.map (fun rd => rd.data)) := by
  induction rounds with
  | nil =>
    intro c calls sent _
    exact ⟨rfl, [], by simp [rawLoop], List.Sublist.slnil⟩
  | cons rd rest ih =>
    intro c calls sent hc
    have hc' : (if rd.flagSet = true then { c with real_connected := true } else c).real_connected
        = true := by
      split
      · rfl
      · exact hc
    simp only [rawLoop, List.map_cons]
    generalize (if rd.flagSet = true then { c with real_connected := true } else c) = c1 at hc'
    rcases Option.eq_none_or_eq_some rd.readErr with he | ⟨e, he⟩
    · rw [he]
      dsimp only
      by_cases hd : rd.data.length = 0
      · rw [if_pos hd]
        obtain ⟨h1, later, h2, h3⟩ := ih c1 calls sent hc'
        exact ⟨h1, later, h2, List.Sublist.cons _ h3⟩
      · rw [if_neg hd, if_pos hc']
        have hres : rawResend serialize rd.resendEnv c1 [] = (some ⟨c1, none, none⟩, []) := by
          simp [rawResend]
        rw [hres]
        dsimp only
        cases hs : SendStreamDataMessage serialize rd.sendEnv c1 rd.data with
        | none =>
          exact ⟨rfl, [rd.data], by simp, List.Sublist.cons₂ _ (List.nil_sublist _)⟩
        | some r2 =>
          dsimp only
          by_cases hr : r2.err ≠ none
          · rw [if_pos hr]
            obtain ⟨f1, f2, -⟩ := rawSuicide_fields r2.client []
              (calls ++ [] ++ [rd.data]) (sent ++ [] ++ r2.sent.toList)
            simp only [Option.toList] at f1 f2 ⊢
            rw [f1, f2]
            exact ⟨rfl, [rd.data], by simp, List.Sublist.cons₂ _ (List.nil_sublist _)⟩
          · rw [if_neg hr]
            have hflag : r2.client.real_connected = true := by
              rw [((sendStream_facts serialize rd.sendEnv c1 rd.data).2 r2 hs).1]
              exact hc'
            obtain ⟨h1, later, h2, h3⟩ := ih r2.client (calls ++ [] ++ [rd.data])
              (sent ++ (none : Option Message).toList ++ r2.sent.toList) hflag
            refine ⟨h1, rd.data :: later, ?_, List.Sublist.cons₂ _ h3⟩
            rw [h2]
            simp
    · rw [he]
      dsimp only
      cases hs : SendCloseMessage serialize rd.closeEnv c1 with
      | none => exact ⟨rfl, [], by simp, List.nil_sublist _⟩
      | some r =>
        dsimp only
        obtain ⟨f1, f2, -⟩ := rawSuicide_fields r.client [] calls (sent ++ r.sent.toList)
        rw [f1, f2]
        exact ⟨rfl, [], by simp, List.nil_sublist _⟩

theorem rawLoop_flip (serialize : Message → Except String (List Byte)) (c : Client)
    (buf : List Byte) (calls : List (List Byte)) (sent : List Message) (rd : RawRound)
    (post : List RawRound) (hf : rd.flagSet = true) (he : rd.readErr = none)
    (hd : rd.data.length ≠ 0) (hb : buf.length ≠ 0) (hw : c.writeLocked = false) :
    (rawLoop serialize c buf calls sent (rd :: post)).resend_buff = []
      ∧ ∃ later, (rawLoop serialize c buf calls sent (rd :: post)).streamCalls
            = calls ++ [buf, rd.data] ++ later
          ∧ later.Sublist (post.map (fun r => r.data)) := by
  have hbpos : buf.length > 0 := Nat.pos_of_ne_zero hb
  simp only [rawLoop, hf, if_true, he]
  rw [if_neg hd]
  have hres : rawResend serialize rd.resendEnv { c with real_connected := true } buf
      = (SendStreamDataMessage serialize rd.resendEnv { c with real_connected := true } buf,
          [buf]) := by
    simp [rawResend, hbpos]
  rw [hres]
  dsimp only
  obtain ⟨r1, h1⟩ := (sendStream_facts serialize rd.resendEnv
    { c with real_connected := true } buf).1 hw
  have hr1 : r1.client.real_connected = true :=
    ((sendStream_facts serialize rd.resendEnv { c with real_connected := true } buf).2 r1 h1).1
  rw [h1]
  dsimp only
  cases hs : SendStreamDataMessage serialize rd.sendEnv r1.client rd.data with
  | none => exact ⟨rfl, [], by simp, List.nil_sublist _⟩
  | some r2 =>
    dsimp only
    by_cases hr : r2.err ≠ none
    · rw [if_pos hr]
      obtain ⟨f1, f2, -⟩ := rawSuicide_fields r2.client []
        (calls ++ [buf] ++ [rd.data]) (sent ++ r1.sent.toList ++ r2.sent.toList)
      rw [f1, f2]
      exact ⟨rfl, [], by simp, List.nil_sublist _⟩
    · rw [if_neg hr]
      have hflag : r2.client.real_connected = true := by
        rw [((sendStream_facts serialize rd.sendEnv r1.client rd.data).2 r2 hs).1]
        exact hr1
      obtain ⟨g1, later, g2, g3⟩ := rawLoop_connected serialize post r2.client
        (calls ++ [buf] ++ [rd.data]) (sent ++ r1.sent.toList ++ r2.sent.toList) hflag
      refine ⟨g1, later, ?_, g3⟩
      rw [g2]
      simp

theorem rawLoop_flip_sent (serialize : Message → Except String (List Byte)) (c : Client)
    (buf : List Byte) (calls : List (List Byte)) (sent : List Message) (rd : RawRound)
    (hf : rd.flagSet = true) (he : rd.readErr = none)
    (hd : rd.data.length ≠ 0) (hb : buf.length ≠ 0) (hw : c.writeLocked = false)
    (hs : ∀ m, ∃ bs, serialize m = Except.ok bs ∧ ¬ bs.length < 1)
    (hw1 : rd.resendEnv.write = WriteOutcome.ok) (hw2 : rd.sendEnv.write = WriteOutcome.ok) :
    (rawLoop serialize c buf calls sent [rd]).sent
        = sent ++ [buildMessage MessageKind.InputStreamDataMessage rd.resendEnv
              { c with real_connected := true } buf,
            buildMessage MessageKind.InputStreamDataMessage rd.sendEnv
              { c with real_connected := true,
                       StreamDataSequenceNumber := c.StreamDataSequenceNumber + 1 } rd.data]
      ∧ (rawLoop serialize c buf calls sent [rd]).ended = RawEnd.looping := by
  have hbpos : buf.length > 0 := Nat.pos_of_ne_zero hb
  obtain ⟨bs1, hs1, hl1⟩ := hs (buildMessage MessageKind.InputStreamDataMessage rd.resendEnv
    { c with real_connected := true } buf)
  obtain ⟨bs2, hs2, hl2⟩ := hs (buildMessage MessageKind.InputStreamDataMessage rd.sendEnv
    { c with real_connected := true,
             StreamDataSequenceNumber := c.StreamDataSequenceNumber + 1 } rd.data)
  have e1 := sendStream_ok serialize rd.resendEnv { c with real_connected := true } buf bs1
    hb hw hw1 hs1 hl1
  have e2 := sendStream_ok serialize rd.sendEnv
    { c with real_connected := true,
             StreamDataSequenceNumber := c.StreamDataSequenceNumber + 1 } rd.data bs2
    hd hw hw2 hs2 hl2
  simp only [rawLoop, hf, if_true, he]
  rw [if_neg hd]
  have hres : rawResend serialize rd.resendEnv { c with real_connected := true } buf
      = (SendStreamDataMessage serialize rd.resendEnv { c with real_connected := true } buf,
          [buf]) := by
    simp [rawResend, hbpos]
  rw [hres]
  dsimp only
  rw [e1]
  dsimp only
  rw [e2]
  simp

/-- C25: in `writeLoopRawMode`, for a client that is not a port forward and
whose `real_connected` is false, as long as the flag stays false no
`SendStreamDataMessage` call is made and no InputStreamData frame is written,
and after rounds without read error the variable `resend_buff` holds the first
chunk with a byte read so far. When then the flag has become true and a chunk
with a byte is read, the buffered chunk is handed to `SendStreamDataMessage`
once, right before the chunk just read, and the buffer is empty from then on:
the later calls are of chunks read later. When the frames serialize and the
two writes succeed, the frames written in that round are the InputStreamData
frame of the buffered chunk and then the one of the chunk just read. -/
theorem rawMode_buffers_first_chunk (serialize : Message → Except String (List Byte))
    (c : Client) (hpf : c.PortForward = false) (hrc : c.real_connected = false) :
    (∀ rounds : List RawRound, (∀ rd ∈ rounds, rd.flagSet = false) →
        (writeLoopRawMode serialize c rounds).streamCalls = []
          ∧ ∀ m ∈ (writeLoopRawMode serialize c rounds).sent,
              m.MessageType ≠ MessageKind.InputStreamDataMessage)
      ∧ (∀ pre : List RawRound, (∀ rd ∈ pre, rd.flagSet = false ∧ rd.readErr = none) →
          writeLoopRawMode serialize c pre = ⟨c, firstChunk pre, [], [], RawEnd.looping⟩)
      ∧ (∀ (pre post : List RawRound) (rd : RawRound),
          (∀ r ∈ pre, r.flagSet = false ∧ r.readErr = none) →
          (firstChunk pre).length ≠ 0 → c.writeLocked = false →
          rd.flagSet = true → rd.readErr = none → rd.data.length ≠ 0 →
          (writeLoopRawMode serialize c (pre ++ rd :: post)).resend_buff = []
            ∧ (∃ later, (writeLoopRawMode serialize c (pre ++ rd :: post)).streamCalls
                  = [firstChunk pre, rd.data] ++ later
                ∧ later.Sublist (post.map (fun r => r.data)))
            ∧ ((∀ m, ∃ bs, serialize m = Except.ok bs ∧ ¬ bs.length < 1) →
                rd.resendEnv.write = WriteOutcome.ok → rd.sendEnv.write = WriteOutcome.ok →
                (writeLoopRawMode serialize c (pre ++ [rd])).sent
                  = [buildMessage MessageKind.InputStreamDataMessage rd.resendEnv
                        { c with real_connected := true } (firstChunk pre),
                      buildMessage MessageKind.InputStreamDataMessage rd.sendEnv
                        { c with real_connected := true,
                                 StreamDataSequenceNumber := c.StreamDataSequenceNumber + 1 }
                        rd.data])) := by
  have hstart : (if c.PortForward = true then { c with real_connected := true } else c) = c := by
    rw [hpf]
    rfl
  refine ⟨?_, ?_, ?_⟩
  · intro rounds hq
    unfold writeLoopRawMode
    rw [hstart]
    obtain ⟨h1, h2⟩ := rawLoop_unconnected serialize rounds c [] [] [] hrc hq
    refine ⟨h1, fun m hm => ?_⟩
    rcases h2 m hm with h | h
    · exact absurd h (List.not_mem_nil _)
    · rw [h]
      exact fun hk => MessageKind.noConfusion hk
  · intro pre hq
    unfold writeLoopRawMode
    rw [hstart]
    have := rawLoop_quiet_then serialize pre [] c [] [] [] hrc hq
    rw [List.append_nil] at this
    rw [this]
    rfl
  · intro pre post rd hq hfc hw hf he hd
    unfold writeLoopRawMode
    rw [hstart]
    have hpre : ∀ rest, rawLoop serialize c [] [] [] (pre ++ rest)
        = rawLoop serialize c (firstChunk pre) [] [] rest := by
      intro rest
      rw [rawLoop_quiet_then serialize pre rest c [] [] [] hrc hq]
      rfl
    refine ⟨?_, ?_, ?_⟩
    · rw [hpre]
      exact (rawLoop_flip serialize c (firstChunk pre) [] [] rd post hf he hd hfc hw).1
    · rw [hpre]
      obtain ⟨later, h1, h2⟩ :=
        (rawLoop_flip serialize c (firstChunk pre) [] [] rd post hf he hd hfc hw).2
      exact ⟨later, by simpa using h1, h2⟩
    · intro hs hw1 hw2
      rw [hpre]
      have := (rawLoop_flip_sent serialize c (firstChunk pre) [] [] rd hf he hd hfc hw hs
        hw1 hw2).1
      simpa using this

/-- Witness of C25: the chunks [1] and [2] are read while the flag is false,
then the flag is set and [3] is read: the calls are of [1] and then of [3],
and the buffer is empty. -/
theorem rawMode_buffers_first_chunk_witness :
    (writeLoopRawMode sampleSerialize { NewClient false true false with Connected := true }
        ([{ data := [1] }, { data := [2] }] ++ { data := [3], flagSet := true } :: [])).resend_buff
        = []
      ∧ (∃ later,
          (writeLoopRawMode sampleSerialize { NewClient false true false with Connected := true }
            ([{ data := [1] }, { data := [2] }]
              ++ { data := [3], flagSet := true } :: [])).streamCalls
            = [firstChunk [{ data := [1] }, { data := [2] }], [3]] ++ later
          ∧ later.Sublist (([] : List RawRound).map (fun r => r.data))) :=
  ⟨((rawMode_buffers_first_chunk sampleSerialize
        { NewClient false true false with Connected := true } rfl rfl).2.2
      [{ data := [1] }, { data := [2] }] [] { data := [3], flagSet := true }
      (by decide) (by decide) rfl rfl rfl (by decide)).1,
    ((rawMode_buffers_first_chunk sampleSerialize
        { NewClient false true false with Connected := true } rfl rfl).2.2
      [{ data := [1] }, { data := [2] }] [] { data := [3], flagSet := true }
      (by decide) (by decide) rfl rfl rfl (by decide)).2.1⟩

/-- C27: in `writeLoopRawMode`, for a client that is not a port forward and
whose `real_connected` is false, let the chunks c1, c2, ..., ck, each with a
byte, be read without error while the flag is false, and then d, with a byte,
once the flag is set. After the first rounds nothing was handed to
`SendStreamDataMessage` and `resend_buff` holds c1, so c2, ..., ck are not
buffered. With d the payloads handed over are c1 and then d and the buffer is
emptied, and whatever is read afterwards, the later calls are of chunks read
afterwards: c2, ..., ck are never sent. When the frames serialize and the two
writes succeed, the frames written are those of c1 and of d. -/
theorem rawMode_drops_later_chunks (serialize : Message → Except String (List Byte))
    (c : Client) (r1 : RawRound) (rs : List RawRound) (rd : RawRound)
    (hpf : c.PortForward = false) (hrc : c.real_connected = false)
    (hw : c.writeLocked = false)
    (hq : ∀ r ∈ r1 :: rs, r.flagSet = false ∧ r.readErr = none ∧ r.data.length ≠ 0)
    (hf : rd.flagSet = true) (he : rd.readErr = none) (hd : rd.data.length ≠ 0) :
    writeLoopRawMode serialize c (r1 :: rs) = ⟨c, r1.data, [], [], RawEnd.looping⟩
      ∧ (writeLoopRawMode serialize c (r1 :: rs ++ [rd])).streamCalls = [r1.data, rd.data]
      ∧ (writeLoopRawMode serialize c (r1 :: rs ++ [rd])).resend_buff = []
      ∧ (∀ post : List RawRound, ∃ later,
          (writeLoopRawMode serialize c (r1 :: rs ++ rd :: post)).streamCalls
              = [r1.data, rd.data] ++ later
            ∧ later.Sublist (post.map (fun r => r.data)))
      ∧ ((∀ m, ∃ bs, serialize m = Except.ok bs ∧ ¬ bs.length < 1) →
          rd.resendEnv.write = WriteOutcome.ok → rd.sendEnv.write = WriteOutcome.ok →
          (writeLoopRawMode serialize c (r1 :: rs ++ [rd])).sent
            = [buildMessage MessageKind.InputStreamDataMessage rd.resendEnv
                  { c with real_connected := true } r1.data,
                buildMessage MessageKind.InputStreamDataMessage rd.sendEnv
                  { c with real_connected := true,
                           StreamDataSequenceNumber := c.StreamDataSequenceNumber + 1 }
                  rd.data]) := by
  have hstart : (if c.PortForward = true then { c with real_connected := true } else c) = c := by
    rw [hpf]
    rfl
  have hq' : ∀ r ∈ r1 :: rs, r.flagSet = false ∧ r.readErr = none :=
    fun r hr => ⟨(hq r hr).1, (hq r hr).2.1⟩
  have h1 : r1.data.length ≠ 0 := (hq r1 (List.mem_cons_self _ _)).2.2
  have hfc : firstChunk (r1 :: rs) = r1.data := by
    simp only [firstChunk, h1, if_false]
  have hpre : ∀ rest, rawLoop serialize c [] [] [] (r1 :: rs ++ rest)
      = rawLoop serialize c r1.data [] [] rest := by
    intro rest
    rw [rawLoop_quiet_then serialize (r1 :: rs) rest c [] [] [] hrc hq', hfc]
    rfl
  have hall : ∀ post : List RawRound, ∃ later,
      (writeLoopRawMode serialize c (r1 :: rs ++ rd :: post)).streamCalls
          = [r1.data, rd.data] ++ later
        ∧ later.Sublist (post.map (fun r => r.data)) := by
    intro post
    unfold writeLoopRawMode
    rw [hstart, hpre]
    obtain ⟨later, g1, g2⟩ :=
      (rawLoop_flip serialize c r1.data [] [] rd post hf he hd h1 hw).2
    exact ⟨later, by simpa using g1, g2⟩
  refine ⟨?_, ?_, ?_, hall, ?_⟩
  · unfold writeLoopRawMode
    rw [hstart]
    have := hpre []
    rw [List.append_nil] at this
    rw [this]
    rfl
  · obtain ⟨later, g1, g2⟩ := hall []
    have hnil : later = [] := by
      have := List.Sublist.length_le g2
      exact List.length_eq_zero.1 (Nat.le_zero.1 (by simpa using this))
    rw [g1, hnil]
    rfl
  · unfold writeLoopRawMode
    rw [hstart, hpre]
    exact (rawLoop_flip serialize c r1.data [] [] rd [] hf he hd h1 hw).1
  · intro hs hw1 hw2
    unfold writeLoopRawMode
    rw [hstart, hpre]
    have := (rawLoop_flip_sent serialize c r1.data [] [] rd hf he hd h1 hw hs hw1 hw2).1
    simpa using this

/-- Witness of C27: the chunks [1], [2], [7] are read while the flag is false
and [3] once it is set: the payloads handed over are [1] and [3]. -/
theorem rawMode_drops_later_chunks_witness :
    (writeLoopRawMode sampleSerialize { NewClient false true false with Connected := true }
        ({ data := [1] } :: [{ data := [2] }, { data := [7] }]
          ++ [{ data := [3], flagSet := true }])).streamCalls
      = [[1], [3]] :=
  (rawMode_drops_later_chunks sampleSerialize
    { NewClient false true false with Connected := true } { data := [1] }
    [{ data := [2] }, { data := [7] }] { data := [3], flagSet := true } rfl rfl rfl
    (by decide) rfl rfl (by decide)).2.1

/-! ## Theorems: the code at the failing inputs of the run environment and of the status report -/

/-- C16, the code at the failing input: A version "1" is installed, the
catalog holds A version "2" and the `config.json` of the downloaded package
says version "3". The call without `--local` unzips the package to
`/plugins/A/2`, records version "2" and runs `/plugins/A/2/run.sh`, and hands
it `PLUGIN_DIR=/plugins/A/3`, a directory made of the config's version and not
the one the plugin is run from. When the config says version "2" the two
agree. -/
theorem download_plugin_dir_not_of_run :
    Event.unzip "/plugins/A.zip" "/plugins/A/2"
        ∈ (executePluginOnlineOrLocal sampleConsts sampleCompare "/plugins"
            { listBody := Except.ok [onlineA2], md5 := Except.ok "0cc175b9c0f1b6a831c399e269772661",
              config := Except.ok (sampleConfig "A" "3") } installedA1 "A" "" [] 60 false).trace
      ∧ Event.syncRun "/plugins/A/2/run.sh" [] 30
          ["PLUGIN_DIR=/plugins/A/3", "PRE_PLUGIN_DIR=/plugins/A/1"] false
        ∈ (executePluginOnlineOrLocal sampleConsts sampleCompare "/plugins"
            { listBody := Except.ok [onlineA2], md5 := Except.ok "0cc175b9c0f1b6a831c399e269772661",
              config := Except.ok (sampleConfig "A" "3") } installedA1 "A" "" [] 60 false).trace
      ∧ (executePluginOnlineOrLocal sampleConsts sampleCompare "/plugins"
            { listBody := Except.ok [onlineA2], md5 := Except.ok "0cc175b9c0f1b6a831c399e269772661",
              config := Except.ok (sampleConfig "A" "3") } installedA1 "A" "" [] 60
            false).persisted.map (fun p => (p.Name, p.Version)) = [("A", "2")]
      ∧ (executePluginOnlineOrLocal sampleConsts sampleCompare "/plugins"
            { listBody := Except.ok [onlineA2], md5 := Except.ok "0cc175b9c0f1b6a831c399e269772661",
              config := Except.ok (sampleConfig "A" "3") } installedA1 "A" "" [] 60
            false).exitCode = 0
      ∧ Event.syncRun "/plugins/A/2/run.sh" [] 30
          ["PLUGIN_DIR=/plugins/A/2", "PRE_PLUGIN_DIR=/plugins/A/1"] false
        ∈ (executePluginOnlineOrLocal sampleConsts sampleCompare "/plugins"
            { listBody := Except.ok [onlineA2], md5 := Except.ok "0cc175b9c0f1b6a831c399e269772661",
              config := Except.ok (sampleConfig "A" "2") } installedA1 "A" "" [] 60 false).trace := by
  decide

/-- C17, the code at the failing input: the Persist package S is installed
from a file with the parameter `--start`, which is in
`NEED_REFRESH_STATUS_API`, and its `--status` run ends with the error
"timeout". The plugin is run and the `--status` check is made, and the call
ends there: `CheckAndReportPlugin` returns before `ReportPluginStatus`, so no
status is posted. When the `--status` run returns no error the status
`PERSIST_RUNNING` is posted after it. -/
theorem status_check_error_skips_report :
    executePluginFromFile sampleConsts sampleCompare "/plugins" {}
        { config := Except.ok persistConfig,
          check := { run := { exitCode := 1, status := ProcStatus.Timeout,
                              err := some "timeout" } } }
        [] "/tmp/S.zip" ["--start"] 60
        = some { persistStartRun with trace := persistStartRun.trace.dropLast }
      ∧ persistStartRun.trace.dropLast.getLast?
        = some (Event.syncRun "/plugins/S/1/run.sh" ["--status"] 30
            ["PLUGIN_DIR=/plugins/S/1", "PRE_PLUGIN_DIR="] true)
      ∧ persistStartRun.trace.dropLast.all
          (fun e => match e with
            | Event.httpPostStatus _ _ _ => false
            | _ => true) = true
      ∧ executePluginFromFile sampleConsts sampleCompare "/plugins" {}
          { config := Except.ok persistConfig } [] "/tmp/S.zip" ["--start"] 60
        = some persistStartRun
      ∧ persistStartRun.trace.getLast? = some (Event.httpPostStatus "S" "1" PERSIST_RUNNING) := by
  decide

/-! ## Theorems: the choice between the local run and the download -/

theorem runLocalPackage_runs (K : Consts) (dir : String) (env : OnlineEnv)
    (persisted : List PluginInfo) (l : PluginInfo) (paramList : List String) (timeout : Int)
    (before : List Event) :
    (runLocalPackage K dir env persisted l paramList timeout before).trace
        = before ++ (localRun K dir env l paramList timeout).2.2
      ∧ (runLocalPackage K dir env persisted l paramList timeout before).persisted = persisted
      ∧ (runLocalPackage K dir env persisted l paramList timeout before).exitCode
        = (executePlugin K env.run
            (filepathJoin [filepathJoin [dir, l.Name, l.Version], l.RunPath]) paramList
            ((Atoi l.Timeout).getD timeout)
            ["PLUGIN_DIR=" ++ filepathJoin [dir, l.Name, l.Version], "PRE_PLUGIN_DIR=" ++ ""]
            false).1
      ∧ (env.run.cmdExists = true →
          Event.syncRun (filepathJoin [filepathJoin [dir, l.Name, l.Version], l.RunPath])
              paramList ((Atoi l.Timeout).getD timeout)
              ["PLUGIN_DIR=" ++ filepathJoin [dir, l.Name, l.Version], "PRE_PLUGIN_DIR=" ++ ""]
              false
            ∈ (runLocalPackage K dir env persisted l paramList timeout before).trace) := by
  refine ⟨rfl, rfl, ?_, ?_⟩
  · simp only [runLocalPackage, runAndCheck]
    split <;> rfl
  · intro hrun
    have hmem := (runAndCheck_runs K env.run env.check l.PluginType l.Name l.Version
      (filepathJoin [filepathJoin [dir, l.Name, l.Version], l.RunPath]) paramList
      ((Atoi l.Timeout).getD timeout)
      ["PLUGIN_DIR=" ++ filepathJoin [dir, l.Name, l.Version], "PRE_PLUGIN_DIR=" ++ ""]).2.1
      hrun
    exact List.mem_append_right _ hmem

/-- C3, as stated, fails: with A version "1" installed and not removed, so
that a matching local record exists, and a catalog request that fails at every
try, so that no online record exists, the call without `--local` does not run
the installed package: it returns `GET_ONLINE_PACKAGE_INFO_ERR` with the error
of the request after three requests, having run nothing. -/
theorem failed_catalog_request_runs_nothing :
    (getLocalPluginInfo none installedA1 "A" "").toOption.map (fun l => l.map (fun p => p.Version))
        = some (some "1")
      ∧ executePluginOnlineOrLocal sampleConsts sampleCompare "/plugins"
          { listPost := fun _ => some "connection refused" } installedA1 "A" "" [] 60 false
        = ⟨sampleConsts.GET_ONLINE_PACKAGE_INFO_ERR, some "connection refused", installedA1,
            [Event.pluginListRequest "A" "" false, Event.pluginListRequest "A" "" false,
              Event.pluginListRequest "A" "" false]⟩ := by
  decide

/-- C3, amended: let `localInfo` be what `getLocalPluginInfo` finds (the first
record with the asked name that is not removed and has the asked version, if
one is asked) and `onlineInfo` the arch-matching record `getOnlinePluginInfo`
selects. Without `--local`, the registry loading and the catalog request
succeeding, `executePluginOnlineOrLocal` runs the installed local package,
downloading nothing, if and only if a local record was found and either no
online record was selected or the two versions compare equal: the calls after
the catalog request are then those of the run of the installed command, which
is run when its file exists, with the timeout of the record, and the registry
is unchanged. It takes the download branch, whose first call is the download
of the online package, whenever an online record was selected and the local
record is absent or compares different; it returns `PACKAGE_NOT_FOUND`, having
run and changed nothing, when neither exists. When the catalog request fails
it returns `GET_ONLINE_PACKAGE_INFO_ERR` with the error of the request and
runs nothing, whatever the local record. With `--local` it sends no request to
the server, downloads nothing, returns `PACKAGE_NOT_FOUND` with an error when
no local record is found and runs the installed command otherwise. -/
theorem online_or_local_choice (K : Consts) (cmp : String → String → Int) (dir : String)
    (env : OnlineEnv) (persisted : List PluginInfo) (pluginName pluginVersion : String)
    (paramList : List String) (timeout : Int) (localInfo onlineInfo : Option PluginInfo)
    (other : List String)
    (hl : getLocalPluginInfo env.loadErr persisted pluginName pluginVersion
      = Except.ok localInfo)
    (hq : (getOnlinePluginInfo env pluginName pluginVersion).1 = Except.ok (onlineInfo, other)) :
    (localInfo = persisted.find? (fun plugin =>
        plugin.Name = pluginName ∧ plugin.IsRemoved = false ∧
          (pluginVersion = "" ∨ pluginVersion = plugin.Version)))
      ∧ ((∃ l, localInfo = some l
            ∧ executePluginOnlineOrLocal K cmp dir env persisted pluginName pluginVersion
                paramList timeout false
              = runLocalPackage K dir env persisted l paramList timeout
                  (getOnlinePluginInfo env pluginName pluginVersion).2
            ∧ ∀ url path, Event.download url path
                ∉ (executePluginOnlineOrLocal K cmp dir env persisted pluginName pluginVersion
                    paramList timeout false).trace)
          ↔ ∃ l, localInfo = some l
              ∧ (onlineInfo = none ∨ ∃ o, onlineInfo = some o ∧ cmp l.Version o.Version = 0))
      ∧ (∀ o, onlineInfo = some o →
          (localInfo = none ∨ ∃ l, localInfo = some l ∧ cmp l.Version o.Version ≠ 0) →
          executePluginOnlineOrLocal K cmp dir env persisted pluginName pluginVersion
              paramList timeout false
            = installOnline K dir env persisted o pluginName paramList timeout
                (getOnlinePluginInfo env pluginName pluginVersion).2
          ∧ Event.download o.Url (filepathJoin [dir, pluginName ++ ".zip"])
              ∈ (executePluginOnlineOrLocal K cmp dir env persisted pluginName pluginVersion
                  paramList timeout false).trace)
      ∧ (localInfo = none → onlineInfo = none →
          (executePluginOnlineOrLocal K cmp dir env persisted pluginName pluginVersion
              paramList timeout false).exitCode = K.PACKAGE_NOT_FOUND
          ∧ (executePluginOnlineOrLocal K cmp dir env persisted pluginName pluginVersion
              paramList timeout false).persisted = persisted
          ∧ (executePluginOnlineOrLocal K cmp dir env persisted pluginName pluginVersion
              paramList timeout false).trace
            = (getOnlinePluginInfo env pluginName pluginVersion).2)
      ∧ ((∀ n v w, Event.pluginListRequest n v w
              ∉ (executePluginOnlineOrLocal K cmp dir env persisted pluginName pluginVersion
                  paramList timeout true).trace)
          ∧ (∀ url path, Event.download url path
              ∉ (executePluginOnlineOrLocal K cmp dir env persisted pluginName pluginVersion
                  paramList timeout true).trace)
          ∧ (localInfo = none →
              (executePluginOnlineOrLocal K cmp dir env persisted pluginName pluginVersion
                  paramList timeout true).exitCode = K.PACKAGE_NOT_FOUND
              ∧ (executePluginOnlineOrLocal K cmp dir env persisted pluginName pluginVersion
                  paramList timeout true).err ≠ none
              ∧ (executePluginOnlineOrLocal K cmp dir env persisted pluginName pluginVersion
                  paramList timeout true).trace = [])
          ∧ (∀ l, localInfo = some l →
              executePluginOnlineOrLocal K cmp dir env persisted pluginName pluginVersion
                  paramList timeout true
                = runLocalPackage K dir env persisted l paramList timeout []))
      ∧ (∀ l, localInfo = some l →
          (onlineInfo = none ∨ ∃ o, onlineInfo = some o ∧ cmp l.Version o.Version = 0) →
          (executePluginOnlineOrLocal K cmp dir env persisted pluginName pluginVersion
              paramList timeout false).trace
            = (getOnlinePluginInfo env pluginName pluginVersion).2
              ++ (localRun K dir env l paramList timeout).2.2
          ∧ (executePluginOnlineOrLocal K cmp dir env persisted pluginName pluginVersion
              paramList timeout false).persisted = persisted
          ∧ (executePluginOnlineOrLocal K cmp dir env persisted pluginName pluginVersion
              paramList timeout false).exitCode
            = (executePlugin K env.run
                (filepathJoin [filepathJoin [dir, l.Name, l.Version], l.RunPath]) paramList
                ((Atoi l.Timeout).getD timeout)
                ["PLUGIN_DIR=" ++ filepathJoin [dir, l.Name, l.Version],
                  "PRE_PLUGIN_DIR=" ++ ""] false).1
          ∧ (env.run.cmdExists = true →
              Event.syncRun (filepathJoin [filepathJoin [dir, l.Name, l.Version], l.RunPath])
                  paramList ((Atoi l.Timeout).getD timeout)
                  ["PLUGIN_DIR=" ++ filepathJoin [dir, l.Name, l.Version],
                    "PRE_PLUGIN_DIR=" ++ ""] false
                ∈ (executePluginOnlineOrLocal K cmp dir env persisted pluginName pluginVersion
                    paramList timeout false).trace))
      ∧ (env.run.cmdExists = true →
          ((∃ l, localInfo = some l
              ∧ Event.syncRun (filepathJoin [filepathJoin [dir, l.Name, l.Version], l.RunPath])
                  paramList ((Atoi l.Timeout).getD timeout)
                  ["PLUGIN_DIR=" ++ filepathJoin [dir, l.Name, l.Version],
                    "PRE_PLUGIN_DIR=" ++ ""] false
                ∈ (executePluginOnlineOrLocal K cmp dir env persisted pluginName pluginVersion
                    paramList timeout false).trace
              ∧ ∀ url path, Event.download url path
                  ∉ (executePluginOnlineOrLocal K cmp dir env persisted pluginName
                      pluginVersion paramList timeout false).trace)
            ↔ ∃ l, localInfo = some l
                ∧ (onlineInfo = none
                  ∨ ∃ o, onlineInfo = some o ∧ cmp l.Version o.Version = 0)))
      ∧ (∀ l, localInfo = some l → env.run.cmdExists = true →
          Event.syncRun (filepathJoin [filepathJoin [dir, l.Name, l.Version], l.RunPath])
              paramList ((Atoi l.Timeout).getD timeout)
              ["PLUGIN_DIR=" ++ filepathJoin [dir, l.Name, l.Version],
                "PRE_PLUGIN_DIR=" ++ ""] false
            ∈ (executePluginOnlineOrLocal K cmp dir env persisted pluginName pluginVersion
                paramList timeout true).trace)
      ∧ (∀ (env2 : OnlineEnv) (e : String),
          getLocalPluginInfo env2.loadErr persisted pluginName pluginVersion
            = Except.ok localInfo →
          (getOnlinePluginInfo env2 pluginName pluginVersion).1 = Except.error e →
          executePluginOnlineOrLocal K cmp dir env2 persisted pluginName pluginVersion
              paramList timeout false
            = ⟨K.GET_ONLINE_PACKAGE_INFO_ERR, some e, persisted,
                (getOnlinePluginInfo env2 pluginName pluginVersion).2⟩) := by
  have hfind : localInfo = persisted.find? (fun plugin =>
      plugin.Name = pluginName ∧ plugin.IsRemoved = false ∧
        (pluginVersion = "" ∨ pluginVersion = plugin.Version)) := by
    unfold getLocalPluginInfo at hl
    split at hl
    · exact Except.noConfusion hl
    · simp only [Except.ok.injEq] at hl
      exact hl.symm
  have hnl : executePluginOnlineOrLocal K cmp dir env persisted pluginName pluginVersion
      paramList timeout false
      = (match localInfo, onlineInfo with
        | some l, some o =>
          if cmp l.Version o.Version = 0 then
            runLocalPackage K dir env persisted l paramList timeout
              (getOnlinePluginInfo env pluginName pluginVersion).2
          else installOnline K dir env persisted o pluginName paramList timeout
            (getOnlinePluginInfo env pluginName pluginVersion).2
        | some l, none => runLocalPackage K dir env persisted l paramList timeout
            (getOnlinePluginInfo env pluginName pluginVersion).2
        | none, none => ⟨K.PACKAGE_NOT_FOUND, none, persisted,
            (getOnlinePluginInfo env pluginName pluginVersion).2⟩
        | none, some o => installOnline K dir env persisted o pluginName paramList timeout
            (getOnlinePluginInfo env pluginName pluginVersion).2) := by
    simp only [executePluginOnlineOrLocal, hl, hq, Bool.not_false, if_true]
  have hloc : executePluginOnlineOrLocal K cmp dir env persisted pluginName pluginVersion
      paramList timeout true
      = (match localInfo with
        | none => ⟨K.PACKAGE_NOT_FOUND, some "Could not found package", persisted, []⟩
        | some l => runLocalPackage K dir env persisted l paramList timeout []) := by
    simp only [executePluginOnlineOrLocal, hl, Bool.not_true, Bool.false_eq_true, if_false]
    cases localInfo <;> rfl
  have hiff : (∃ l, localInfo = some l
        ∧ executePluginOnlineOrLocal K cmp dir env persisted pluginName pluginVersion
            paramList timeout false
          = runLocalPackage K dir env persisted l paramList timeout
              (getOnlinePluginInfo env pluginName pluginVersion).2
        ∧ ∀ url path, Event.download url path
            ∉ (executePluginOnlineOrLocal K cmp dir env persisted pluginName pluginVersion
                paramList timeout false).trace)
      ↔ ∃ l, localInfo = some l
          ∧ (onlineInfo = none ∨ ∃ o, onlineInfo = some o ∧ cmp l.Version o.Version = 0) := by
    rw [hnl]
    constructor
    · rintro ⟨l, hl1, hrun, hnd⟩
      refine ⟨l, hl1, ?_⟩
      subst hl1
      cases onlineInfo with
      | none => exact Or.inl rfl
      | some o =>
        right
        refine ⟨o, rfl, ?_⟩
        by_contra hne
        simp only [hne, if_false] at hnd
        exact hnd _ _ (installOnline_downloads K dir env persisted o pluginName paramList
          timeout _)
    · rintro ⟨l, hl1, hcond⟩
      subst hl1
      refine ⟨l, rfl, ?_⟩
      rcases hcond with h | ⟨o, h, hc⟩
      · subst h
        exact ⟨rfl, fun url path =>
          runLocalPackage_no_download K dir env persisted l _ _ paramList timeout url path⟩
      · subst h
        dsimp only
        rw [if_pos hc]
        exact ⟨rfl, fun url path =>
          runLocalPackage_no_download K dir env persisted l _ _ paramList timeout url path⟩
  have hlocalrun : ∀ l, localInfo = some l →
      (onlineInfo = none ∨ ∃ o, onlineInfo = some o ∧ cmp l.Version o.Version = 0) →
      executePluginOnlineOrLocal K cmp dir env persisted pluginName pluginVersion
          paramList timeout false
        = runLocalPackage K dir env persisted l paramList timeout
            (getOnlinePluginInfo env pluginName pluginVersion).2 := by
    intro l h1 h2
    obtain ⟨l', e1, e2, -⟩ := hiff.2 ⟨l, h1, h2⟩
    rw [h1] at e1
    simp only [Option.some.injEq] at e1
    subst e1
    exact e2
  refine ⟨hfind, hiff, ?_, ?_, ?_, ?_, ?_, ?_, ?_⟩
  rotate_left 3
  · intro l h1 h2
    rw [hlocalrun l h1 h2]
    exact runLocalPackage_runs K dir env persisted l paramList timeout _
  · intro hrun
    constructor
    · rintro ⟨l, h1, -, hnd⟩
      refine hiff.1 ⟨l, h1, ?_, hnd⟩
      subst h1
      rw [hnl]
      rw [hnl] at hnd
      cases onlineInfo with
      | none => rfl
      | some o =>
        dsimp only
        dsimp only at hnd
        by_cases hc : cmp l.Version o.Version = 0
        · rw [if_pos hc]
        · rw [if_neg hc] at hnd
          exact absurd (installOnline_downloads K dir env persisted o pluginName paramList
            timeout _) (hnd _ _)
    · rintro ⟨l, h1, h2⟩
      obtain ⟨l', e1, e2, e3⟩ := hiff.2 ⟨l, h1, h2⟩
      refine ⟨l', e1, ?_, e3⟩
      rw [e2]
      exact (runLocalPackage_runs K dir env persisted l' paramList timeout _).2.2.2 hrun
  · intro l h1 hrun
    rw [hloc]
    subst h1
    exact (runLocalPackage_runs K dir env persisted l paramList timeout []).2.2.2 hrun
  · intro env2 e hl2 hq2
    simp only [executePluginOnlineOrLocal, hl2, hq2, Bool.not_false, if_true]
  · intro o ho hcond
    subst ho
    rw [hnl]
    rcases hcond with h | ⟨l, h, hc⟩
    · subst h
      exact ⟨rfl, installOnline_downloads K dir env persisted o pluginName paramList timeout _⟩
    · subst h
      dsimp only
      rw [if_neg hc]
      exact ⟨rfl, installOnline_downloads K dir env persisted o pluginName paramList timeout _⟩
  · intro h1 h2
    subst h1 h2
    rw [hnl]
    exact ⟨rfl, rfl, rfl⟩
  · rw [hloc]
    refine ⟨?_, ?_, ?_, ?_⟩
    · intro n v w hmem
      cases localInfo with
      | none => simp at hmem
      | some l =>
        rcases runLocalPackage_events K dir env persisted l paramList timeout [] _ hmem with
          h | ⟨c, ps, t, pe, q, h⟩ | ⟨n1, v1, s, h⟩
        · simp at h
        · exact Event.noConfusion h
        · exact Event.noConfusion h
    · intro url path hmem
      cases localInfo with
      | none => simp at hmem
      | some l =>
        rcases runLocalPackage_events K dir env persisted l paramList timeout [] _ hmem with
          h | ⟨c, ps, t, pe, q, h⟩ | ⟨n1, v1, s, h⟩
        · simp at h
        · exact Event.noConfusion h
        · exact Event.noConfusion h
    · intro h
      subst h
      exact ⟨rfl, by simp, rfl⟩
    · intro l h
      subst h
      rfl

/-- Witness of the amended C3. With A version "1" installed and A version "1"
in the catalog, the call without `--local` runs the installed command
`/plugins/A/1/run.sh` with the timeout 30 of the record; with A version "2" in
the catalog it takes the download branch and downloads the catalog package. -/
theorem online_or_local_choice_witness :
    Event.syncRun (filepathJoin [filepathJoin ["/plugins", "A", "1"], "run.sh"]) []
          ((Atoi "30").getD 60)
          ["PLUGIN_DIR=" ++ filepathJoin ["/plugins", "A", "1"], "PRE_PLUGIN_DIR=" ++ ""] false
        ∈ (executePluginOnlineOrLocal sampleConsts sampleCompare "/plugins"
            { listBody := Except.ok [{ onlineA2 with Version := "1" }] } installedA1 "A" "" []
            60 false).trace
      ∧ Event.download onlineA2.Url (filepathJoin ["/plugins", "A" ++ ".zip"])
        ∈ (executePluginOnlineOrLocal sampleConsts sampleCompare "/plugins"
            { listBody := Except.ok [onlineA2] } installedA1 "A" "" [] 60 false).trace :=
  ⟨((online_or_local_choice sampleConsts sampleCompare "/plugins"
      { listBody := Except.ok [{ onlineA2 with Version := "1" }] } installedA1 "A" "" [] 60
      (some { PluginID := "local_A_1", Name := "A", Arch := "all", OSType := "linux",
              Version := "1", Publisher := "aliyun", Url := "local",
              Md5 := "d41d8cd98f00b204e9800998ecf8427e", RunPath := "run.sh", Timeout := "30",
              PluginType_ := JsonAny.str "Once", HeartbeatInterval := 60, IsRemoved := false })
      (some { onlineA2 with Version := "1" }) [] rfl rfl).2.2.2.2.2.1 _ rfl
      (Or.inr ⟨_, rfl, by decide⟩)).2.2.2 rfl,
    ((online_or_local_choice sampleConsts sampleCompare "/plugins"
      { listBody := Except.ok [onlineA2] } installedA1 "A" "" [] 60
      (some { PluginID := "local_A_1", Name := "A", Arch := "all", OSType := "linux",
              Version := "1", Publisher := "aliyun", Url := "local",
              Md5 := "d41d8cd98f00b204e9800998ecf8427e", RunPath := "run.sh", Timeout := "30",
              PluginType_ := JsonAny.str "Once", HeartbeatInterval := 60, IsRemoved := false })
      (some onlineA2) [] rfl rfl).2.2.1 onlineA2 rfl
      (Or.inr ⟨_, rfl, by decide⟩)).2⟩

/-! ## Theorems: sequence numbers of the frames sent -/

theorem run_eq_stepsAlone (serialize : Message → Except String (List Byte)) (c : Client)
    (call : SendCall) : call.run serialize c = stepsAlone serialize c call := by
  cases call with
  | stream env d =>
    simp only [SendCall.run, SendStreamDataMessage, stepsAlone, SendStage.step,
      SendCall.checksEmpty, SendCall.payload, SendCall.kind, SendCall.env,
      SendCall.dropsConnected, true_and, sendFrame]
    by_cases hd : d.length = 0
    · simp [hd, SendStage.step]
    · rw [if_neg hd, if_neg hd]
      cases hs : serialize (buildMessage MessageKind.InputStreamDataMessage env c d) with
      | error e => simp [SendStage.step]
      | ok bs =>
        dsimp only [SendStage.step, SendCall.env, SendCall.dropsConnected]
        cases hm : sendMessage c bs env.write with
        | none => rfl
        | some t =>
          obtain ⟨c1, e, w⟩ := t
          cases e with
          | some e => simp [SendStage.step]
          | none => cases w <;> simp [SendStage.step]
  | resize env d =>
    simp only [SendCall.run, SendResizeDataMessage, stepsAlone, SendStage.step,
      SendCall.checksEmpty, SendCall.payload, SendCall.kind, SendCall.env,
      SendCall.dropsConnected, true_and, sendFrame]
    by_cases hd : d.length = 0
    · simp [hd, SendStage.step]
    · rw [if_neg hd, if_neg hd]
      cases hs : serialize (buildMessage MessageKind.SetSizeDataMessage env c d) with
      | error e => simp [SendStage.step]
      | ok bs =>
        dsimp only [SendStage.step, SendCall.env, SendCall.dropsConnected]
        cases hm : sendMessage c bs env.write with
        | none => rfl
        | some t =>
          obtain ⟨c1, e, w⟩ := t
          cases e with
          | some e => simp [SendStage.step]
          | none => cases w <;> simp [SendStage.step]
  | close env =>
    simp only [SendCall.run, SendCloseMessage, stepsAlone, SendStage.step,
      SendCall.checksEmpty, SendCall.payload, SendCall.kind, SendCall.env,
      SendCall.dropsConnected, sendFrame]
    simp only [Bool.false_eq_true, false_and, if_false]
    cases hs : serialize (buildMessage MessageKind.CloseDataChannel env c closePayload) with
    | error e => simp [SendStage.step]
    | ok bs =>
      dsimp only [SendStage.step, SendCall.env, SendCall.dropsConnected]
      cases hm : sendMessage c bs env.write with
      | none => rfl
      | some t =>
        obtain ⟨c1, e, w⟩ := t
        cases e with
        | some e => simp [SendStage.step]
        | none => cases w <;> simp [SendStage.step]

theorem sendCall_ok (serialize : Message → Except String (List Byte)) (c : Client)
    (call : SendCall) (bs : List Byte) (hp : call.payload ≠ [])
    (hw : c.writeLocked = false) (he : call.env.write = WriteOutcome.ok)
    (hs : serialize (buildMessage call.kind call.env c call.payload) = Except.ok bs)
    (hb : bs ≠ []) :
    call.run serialize c
      = some ⟨{ c with StreamDataSequenceNumber := c.StreamDataSequenceNumber + 1 }, none,
          some (buildMessage call.kind call.env c call.payload)⟩ := by
  have hb1 : ¬ bs.length < 1 := by
    cases bs with
    | nil => exact absurd rfl hb
    | cons a t => simp
  cases call with
  | stream env d =>
    simp only [SendCall.payload, SendCall.kind, SendCall.env] at hp hs he
    have hd : ¬ d.length = 0 := by
      cases d with
      | nil => exact absurd rfl hp
      | cons a t => simp
    simp only [SendCall.run, SendStreamDataMessage, SendCall.payload, SendCall.kind,
      SendCall.env]
    rw [if_neg hd]
    unfold sendFrame
    rw [hs]
    dsimp only
    unfold sendMessage
    rw [if_neg hb1, hw, he]
    simp [hw]
  | resize env d =>
    simp only [SendCall.payload, SendCall.kind, SendCall.env] at hp hs he
    have hd : ¬ d.length = 0 := by
      cases d with
      | nil => exact absurd rfl hp
      | cons a t => simp
    simp only [SendCall.run, SendResizeDataMessage, SendCall.payload, SendCall.kind,
      SendCall.env]
    rw [if_neg hd]
    unfold sendFrame
    rw [hs]
    dsimp only
    unfold sendMessage
    rw [if_neg hb1, hw, he]
    simp [hw]
  | close env =>
    simp only [SendCall.payload, SendCall.kind, SendCall.env] at hp hs he
    simp only [SendCall.run, SendCloseMessage, SendCall.payload, SendCall.kind,
      SendCall.env]
    unfold sendFrame
    rw [hs]
    dsimp only
    unfold sendMessage
    rw [if_neg hb1, hw, he]
    simp [hw]

theorem sendFrame_nil (serialize : Message → Except String (List Byte)) (d : Bool)
    (env : SendEnv) (c : Client) (m : Message) (r : SendResult)
    (h : sendFrame serialize d env c m = some r) (hn : r.err = none) :
    r.client.StreamDataSequenceNumber = c.StreamDataSequenceNumber + 1
      ∧ ((∀ msg, env.write ≠ WriteOutcome.panicked msg) → r.sent = some m) := by
  unfold sendFrame at h
  cases hs : serialize m with
  | error e =>
    rw [hs] at h
    simp only [Option.some.injEq] at h
    subst h
    simp at hn
  | ok bs =>
    rw [hs] at h
    dsimp only at h
    cases hsm : sendMessage c bs env.write with
    | none =>
      rw [hsm] at h
      exact Option.noConfusion h
    | some t =>
      obtain ⟨c1, e, w⟩ := t
      rw [hsm] at h
      cases e with
      | some e =>
        simp only [Option.some.injEq] at h
        subst h
        simp at hn
      | none =>
        simp only [Option.some.injEq] at h
        subst h
        have hsp := sendMessage_spec _ _ _ _ _ _ hsm
        refine ⟨by simp [hsp.1], ?_⟩
        intro hnp
        unfold sendMessage at hsm
        split at hsm
        · simp at hsm
        · split at hsm
          · exact Option.noConfusion hsm
          · cases hw : env.write with
            | ok =>
              rw [hw] at hsm
              simp only [Option.some.injEq, Prod.mk.injEq] at hsm
              rw [← hsm.2.2]
              rfl
            | fail e =>
              rw [hw] at hsm
              simp at hsm
            | panicked msg => exact absurd hw (hnp msg)

theorem sendCall_nil (serialize : Message → Except String (List Byte)) (c : Client)
    (call : SendCall) (r : SendResult) (h : call.run serialize c = some r)
    (hn : r.err = none) (hp : call.payload ≠ []) :
    r.client.StreamDataSequenceNumber = c.StreamDataSequenceNumber + 1
      ∧ ((∀ msg, call.env.write ≠ WriteOutcome.panicked msg) →
          r.sent = some (buildMessage call.kind call.env c call.payload)) := by
  cases call with
  | stream env d =>
    simp only [SendCall.payload] at hp
    have hd : ¬ d.length = 0 := by
      cases d with
      | nil => exact absurd rfl hp
      | cons a t => simp
    simp only [SendCall.run, SendStreamDataMessage] at h
    rw [if_neg hd] at h
    exact sendFrame_nil serialize true env c _ r h hn
  | resize env d =>
    simp only [SendCall.payload] at hp
    have hd : ¬ d.length = 0 := by
      cases d with
      | nil => exact absurd rfl hp
      | cons a t => simp
    simp only [SendCall.run, SendResizeDataMessage] at h
    rw [if_neg hd] at h
    exact sendFrame_nil serialize false env c _ r h hn
  | close env =>
    simp only [SendCall.run, SendCloseMessage] at h
    exact sendFrame_nil serialize true env c _ r h hn

/-- C4, as stated, fails: on a client made by `NewClient`, a call of
`SendResizeDataMessage` and a call of `SendStreamDataMessage` made by two
goroutines, the second building its frame before the first has counted its
own, both return nil and both frames are written to the connection, yet both
carry sequence number 0: the second frame sent does not carry number 1, while
the counter ends at 2. When the first call has returned before the second
takes its first step the frames carry 0 and 1. -/
theorem overlapping_sends_share_a_number :
    (runSchedule sampleSerialize (NewClient false false false)
        [SendStage.called (SendCall.resize {} [1]), SendStage.called (SendCall.stream {} [104])]
        [0, 1, 0, 0, 1, 1]).2.2.map (fun m => (m.MessageType, m.SequenceNumber))
        = [(MessageKind.SetSizeDataMessage, 0), (MessageKind.InputStreamDataMessage, 0)]
      ∧ (runSchedule sampleSerialize (NewClient false false false)
        [SendStage.called (SendCall.resize {} [1]), SendStage.called (SendCall.stream {} [104])]
        [0, 1, 0, 0, 1, 1]).2.1 = [SendStage.returned none, SendStage.returned none]
      ∧ (runSchedule sampleSerialize (NewClient false false false)
        [SendStage.called (SendCall.resize {} [1]), SendStage.called (SendCall.stream {} [104])]
        [0, 1, 0, 0, 1, 1]).1.StreamDataSequenceNumber = 2
      ∧ (runSchedule sampleSerialize (NewClient false false false)
        [SendStage.called (SendCall.resize {} [1]), SendStage.called (SendCall.stream {} [104])]
        [0, 0, 0, 1, 1, 1]).2.2.map (fun m => (m.MessageType, m.SequenceNumber))
        = [(MessageKind.SetSizeDataMessage, 0), (MessageKind.InputStreamDataMessage, 1)] := by
  decide

/-- C4, amended: for a client made by `NewClient` whose calls of
`SendStreamDataMessage`, `SendResizeDataMessage` and `SendCloseMessage` do not
overlap, each one stepped to its return before the next is made, whatever the
calls and whatever the connection does with each write, the n-th frame written
to the connection without error carries sequence number n. For every such call
that returns: a frame that was sent carries the counter as it was before the
call and leaves it one higher; a call that returns an error or whose payload
is empty sends nothing and leaves the counter unchanged; a call that returns
nil on a payload that is not empty leaves the counter one higher and, unless
the write panicked, has sent the frame built from the payload and the counter.
A call on a payload that is not empty whose frame serializes to bytes and
whose write succeeds, the mutex being free, returns nil, sends that frame and
leaves the counter one higher. -/
theorem send_sequence_numbers (serialize : Message → Except String (List Byte))
    (portForward rawmode verbosemode : Bool) (calls : List SendCall) :
    (∀ (n : Nat) (m : Message),
        (runSends serialize (NewClient portForward rawmode verbosemode) calls).2[n]? = some m →
          m.SequenceNumber = n)
      ∧ (∀ (c : Client) (call : SendCall) (r : SendResult), call.run serialize c = some r →
          (∀ m, r.sent = some m →
            m.SequenceNumber = c.StreamDataSequenceNumber ∧ r.err = none
              ∧ r.client.StreamDataSequenceNumber = c.StreamDataSequenceNumber + 1)
          ∧ (r.err ≠ none ∨ call.payload = [] →
            r.sent = none
              ∧ r.client.StreamDataSequenceNumber = c.StreamDataSequenceNumber)
          ∧ (r.err = none → call.payload ≠ [] →
            r.client.StreamDataSequenceNumber = c.StreamDataSequenceNumber + 1
              ∧ ((∀ msg, call.env.write ≠ WriteOutcome.panicked msg) →
                r.sent = some (buildMessage call.kind call.env c call.payload))))
      ∧ (∀ (c : Client) (call : SendCall) (bs : List Byte),
          call.payload ≠ [] → c.writeLocked = false → call.env.write = WriteOutcome.ok →
          serialize (buildMessage call.kind call.env c call.payload) = Except.ok bs →
          bs ≠ [] →
          call.run serialize c
            = some ⟨{ c with StreamDataSequenceNumber := c.StreamDataSequenceNumber + 1 }, none,
                some (buildMessage call.kind call.env c call.payload)⟩)
      ∧ (∀ (c : Client) (call : SendCall),
          call.run serialize c = stepsAlone serialize c call) := by
  refine ⟨?_, ?_, ?_, ?_⟩
  · intro n m h
    have := runSends_numbers serialize calls _ n m h
    simpa [NewClient] using this
  · intro c call r h
    have hs := sendCall_spec serialize c call r h
    exact ⟨hs.1, hs.2.1, fun hn hp => sendCall_nil serialize c call r h hn hp⟩
  · intro c call bs hp hw he hs hb
    exact sendCall_ok serialize c call bs hp hw he hs hb
  · intro c call
    exact run_eq_stepsAlone serialize c call

/-- Witness of the amended C4: of three calls made one after the other on a
fresh client, the second failing on the connection, the frame of index 1 is
the close frame and carries number 1; and a first stream send of the byte 104
returns nil, sends its frame, numbered 0, and leaves the counter at 1. -/
theorem send_sequence_numbers_witness :
    ((runSends sampleSerialize (NewClient false false false)
        [SendCall.stream {} [104],
          SendCall.resize { write := WriteOutcome.fail "broken pipe" } [1],
          SendCall.close {}]).2[1]?
        = some (buildMessage MessageKind.CloseDataChannel {}
            { NewClient false false false with StreamDataSequenceNumber := 1 } closePayload)
      ∧ (buildMessage MessageKind.CloseDataChannel {}
          { NewClient false false false with StreamDataSequenceNumber := 1 }
          closePayload).SequenceNumber = ((1 : Nat) : Int))
      ∧ (SendCall.stream {} [104]).run sampleSerialize (NewClient false false false)
        = some ⟨{ NewClient false false false with
                  StreamDataSequenceNumber
                    := (NewClient false false false).StreamDataSequenceNumber + 1 },
            none,
            some (buildMessage MessageKind.InputStreamDataMessage {}
              (NewClient false false false) [104])⟩ :=
  ⟨⟨by decide,
      (send_sequence_numbers sampleSerialize false false false
        [SendCall.stream {} [104],
          SendCall.resize { write := WriteOutcome.fail "broken pipe" } [1],
          SendCall.close {}]).1 1
        (buildMessage MessageKind.CloseDataChannel {}
          { NewClient false false false with StreamDataSequenceNumber := 1 } closePayload)
        (by decide)⟩,
    (send_sequence_numbers sampleSerialize false false false []).2.2.1
      (NewClient false false false) (SendCall.stream {} [104]) [0, 104]
      (by decide) rfl rfl rfl (by decide)⟩

/-- Three sends on a fresh client, the second one failing on the connection:
two frames are written, numbered 0 and 1, and the counter ends at 2. -/
theorem runSends_three_calls :
    (runSends (fun _ => Except.ok [1]) (NewClient false false false)
        [SendCall.stream {} [104], SendCall.resize { write := WriteOutcome.fail "broken pipe" } [1],
          SendCall.close {}]).2.map (fun m => (m.MessageType, m.SequenceNumber))
        = [(MessageKind.InputStreamDataMessage, 0), (MessageKind.CloseDataChannel, 1)]
      ∧ (runSends (fun _ => Except.ok [1]) (NewClient false false false)
        [SendCall.stream {} [104], SendCall.resize { write := WriteOutcome.fail "broken pipe" } [1],
          SendCall.close {}]).1.StreamDataSequenceNumber = 2 := by
  decide

end AliyunAssist
